import Mathlib

/-!
# rucksack: the manifest driver of `src/main.c`

A shallow embedding of the `bundle` command of rucksack.  The driver is a push
state machine fed by a lenient JSON parser; its module-global variables become
the fields of `Driver`, every C function becomes a Lean function of the same
name that takes the globals and returns them updated.

Conventions of the embedding

* A C string that holds text (a command-line argument, a JSON value, a path, a
  format string) is a Lean `String` (without an embedded NUL) and stands for
  its UTF-8 bytes; a `char *` that may be `NULL` is an `Option`.
* A key handed to the library and a line written to `stderr` are the bytes
  themselves, a `CStr`: `snprintf` cuts at the size of its buffer, which need
  not fall between two characters, so what it leaves need not be a text.
* `int`, `long` and `time_t` values are `Int`; nothing in the driver does
  arithmetic on them, so no wrap-around can occur.
* A JSON number (a C `double`) is a `Rat`; stores into the image are exact.
* A function whose C body can dereference a `NULL` or uninitialised pointer, or
  fail an `assert`, returns an `Option`: `none` means that the call does not
  return normally.
* The library behind `rucksack.h`, the helpers of `path.h`, `stat` and `glob`
  are not part of the sources; they are the fields of `Lib`, over which every
  statement about the driver is universally quantified.
* `debug_mode` is a static that is never assigned, so its `fprintf` calls are
  dead code and are left out.
-/

namespace Rucksack

/-! ## Data model -/

/-- The parser states, `enum State`. -/
inductive State
  | StateStart
  | StateTopLevelProp
  | StateDone
  | StateTextures
  | StateTextureName
  | StateExpectImagesObject
  | StateExpectGlobImagesArray
  | StateImageName
  | StateImageObjectBegin
  | StateImagePropName
  | StateImagePropAnchor
  | StateImagePropAnchorObject
  | StateImagePropAnchorX
  | StateImagePropAnchorY
  | StateImagePropPath
  | StateExpectTextureObject
  | StateTextureProp
  | StateTextureMaxWidth
  | StateTextureMaxHeight
  | StateTexturePow2
  | StateTextureAllowRotate90
  | StateExpectFilesObject
  | StateFileName
  | StateFileObjectBegin
  | StateFilePropName
  | StateFilePropPath
  | StateExpectGlobArray
  | StateGlobObject
  | StateGlobObjectProp
  | StateGlobValueGlob
  | StateGlobValuePrefix
  | StateGlobValuePath
  | StateGlobImageObject
  | StateGlobImageObjectProp
  | StateGlobImageValueGlob
  | StateGlobImageValuePrefix
  | StateGlobImageValuePath
  deriving DecidableEq, Repr

/-- The anchor kinds of `rucksack.h`, as `main.c` names them. -/
inductive RuckSackAnchor
  | RuckSackAnchorCenter
  | RuckSackAnchorTop
  | RuckSackAnchorRight
  | RuckSackAnchorBottom
  | RuckSackAnchorLeft
  | RuckSackAnchorTopLeft
  | RuckSackAnchorTopRight
  | RuckSackAnchorBottomLeft
  | RuckSackAnchorBottomRight
  | RuckSackAnchorExplicit
  deriving DecidableEq, Repr

/-- The value types of laxjson, in the order of `JSON_TYPE_STR`. -/
inductive LaxJsonType
  | LaxJsonTypeString
  | LaxJsonTypeProperty
  | LaxJsonTypeNumber
  | LaxJsonTypeObject
  | LaxJsonTypeArray
  | LaxJsonTypeTrue
  | LaxJsonTypeFalse
  | LaxJsonTypeNull
  deriving DecidableEq, Repr

/-- The non-zero error codes of laxjson, in the order of `ERR_STR`. -/
inductive LaxJsonError
  | LaxJsonErrorUnexpectedChar
  | LaxJsonErrorExpectedEof
  | LaxJsonErrorExceededMaxStack
  | LaxJsonErrorNoMem
  | LaxJsonErrorExceededMaxValueSize
  | LaxJsonErrorInvalidHexDigit
  | LaxJsonErrorInvalidUnicodePoint
  | LaxJsonErrorExpectedColon
  | LaxJsonErrorUnexpectedEof
  | LaxJsonErrorAborted
  deriving DecidableEq, Repr

/-- The table `ERR_STR` at the non-zero codes. -/
def ERR_STR : LaxJsonError → String
  | .LaxJsonErrorUnexpectedChar => "unexpected char"
  | .LaxJsonErrorExpectedEof => "expected EOF"
  | .LaxJsonErrorExceededMaxStack => "exceeded max stack"
  | .LaxJsonErrorNoMem => "no mem"
  | .LaxJsonErrorExceededMaxValueSize => "exceeded max value size"
  | .LaxJsonErrorInvalidHexDigit => "invalid hex digit"
  | .LaxJsonErrorInvalidUnicodePoint => "invalid unicode point"
  | .LaxJsonErrorExpectedColon => "expected colon"
  | .LaxJsonErrorUnexpectedEof => "unexpected EOF"
  | .LaxJsonErrorAborted => "aborted"

/-- A C string as the driver hands it to the library or prints it: its bytes,
without the terminating NUL. -/
abbrev CStr := List UInt8

/-- The bytes of a text: its UTF-8 encoding. -/
def c_str (s : String) : CStr := s.toUTF8.data.toList

instance : Coe String CStr := ⟨c_str⟩

/-- The fields of `struct RuckSackImage` that the driver reads or writes. -/
structure RuckSackImage where
  path : Option String
  key : Option CStr
  key_size : Int
  anchor : RuckSackAnchor
  anchor_x : Rat
  anchor_y : Rat
  deriving DecidableEq, Repr

/-- The public fields of `struct RuckSackTexture`, and the images the library
has collected in it (the private part of the struct). -/
structure RuckSackTexture where
  max_width : Int
  max_height : Int
  pow2 : Int
  allow_r90 : Int
  images : List RuckSackImage
  deriving DecidableEq, Repr

/-- What `stat` leaves in `struct stat`, as far as the driver looks at it:
`st_mtime` and `S_ISDIR(st_mode)`. -/
structure Stat where
  st_mtime : Int
  is_dir : Bool
  deriving DecidableEq, Repr

/-- The outcomes of `glob(pattern, GLOB_NOSORT, NULL, &glob_result)`.  Without
`GLOB_NOCHECK` POSIX makes a call that finds nothing return `GLOB_NOMATCH`, so
a successful call carries at least one path: `gl_pathv` is `first :: rest`, in
the order in which the call produced the paths. -/
inductive GlobOutcome
  | GLOB_NOSPACE
  | GLOB_ABORTED
  | GLOB_NOMATCH
  | matched (first : String) (rest : List String)
  deriving DecidableEq, Repr

/-- The paths of a glob outcome, `gl_pathv[0 .. gl_pathc)`. -/
def GlobOutcome.gl_pathv : GlobOutcome → List String
  | .matched first rest => first :: rest
  | _ => []

/-- The events laxjson pushes into the driver: one per callback of
`struct LaxJsonContext` (`string`, `number`, `primitive`, `begin`, `end`). -/
inductive Event
  | string (type : LaxJsonType) (value : String)
  | number (x : Rat)
  | primitive (type : LaxJsonType)
  | begin_value (type : LaxJsonType)
  | end_value (type : LaxJsonType)
  deriving DecidableEq, Repr

/-- A manifest as the driver sees it through laxjson: the events its bytes
produce, in order, and the syntax error, if any, that `lax_json_feed` or
`lax_json_eof` reports once they have been delivered. -/
structure Manifest where
  events : List Event
  error : Option LaxJsonError
  deriving DecidableEq, Repr

/-- Everything the driver calls and the sources do not define: the rucksack
library over a bundle type `B` with entry handles `E`, the path helpers, and
the two libc calls that look at the filesystem.  A library call that mutates
the bundle returns its error code and the bundle afterwards. -/
structure Lib (B E : Type) where
  /-- The opened bundle, or the non-zero error code of the call. -/
  rucksack_bundle_open : String → Except Int B
  rucksack_bundle_close : B → Int
  rucksack_bundle_find_file : B → Option CStr → Option E
  rucksack_file_mtime : E → Int
  /-- The texture stored under an entry; `none` when the call fails and leaves
  its out-parameter unset. -/
  rucksack_file_open_texture : B → E → Option RuckSackTexture
  rucksack_bundle_add_file : B → Option CStr → Option String → Int × B
  rucksack_bundle_add_texture : B → Option CStr → RuckSackTexture → Int × B
  /-- A fresh texture, `none` when the library is out of memory. -/
  rucksack_texture_create : Option RuckSackTexture
  rucksack_texture_add_image : RuckSackTexture → RuckSackImage → Int × RuckSackTexture
  rucksack_err_str : Int → String
  path_join : String → String → String
  path_relative : String → String → String
  path_resolve : String → String → String
  /-- Whether the `malloc(2048)` of `resolve_path` succeeds for this path. -/
  malloc_ok : String → Bool
  /-- The call `stat(path, &st)`: `none` when it fails. -/
  stat : Option String → Option Stat
  /-- The `st_mtime` found in a `struct stat` that a failed `stat` left
  unwritten. -/
  uninit_mtime : Int
  glob : String → GlobOutcome
  /-- The manifest behind `fopen(input_filename, "rb")`: `none` when the file
  does not open. -/
  fopen : String → Option Manifest
  /-- The manifest read from `stdin`. -/
  stdin : Manifest

/-- One line written to `stderr`: a parse error (printed with the parser's
line and column in front) or any other message. -/
inductive StderrLine
  | located (msg : CStr)
  | plain (msg : CStr)
  deriving DecidableEq, Repr

/-- The calls into the library and into `glob` that the driver has made, each
with its arguments and, for the library, the error code it returned. -/
inductive Call
  | texture_create (ok : Bool)
  | texture_add_image (image : RuckSackImage) (err : Int)
  | bundle_add_texture (key : Option CStr) (texture : RuckSackTexture) (err : Int)
  | bundle_add_file (key : Option CStr) (path : Option String) (err : Int)
  | glob (pattern : String)
  deriving DecidableEq, Repr

/-- The module-global variables of `main.c`, with the bundle, `stderr` and the
log of library calls. -/
structure Driver (B : Type) where
  bundle : B
  state : State
  parse_err_occurred : Bool
  texture : Option RuckSackTexture
  texture_key : Option CStr
  file_key : Option CStr
  file_path : Option String
  image : RuckSackImage
  path_prefix : String
  glob_glob : Option String
  glob_path : Option String
  glob_prefix : Option String
  anchor_next_state : State
  verbose : Bool
  latest_mtime : Int
  stderr : List StderrLine
  calls : List Call

/-! ## Helpers of the C library -/

/-- What `snprintf(buf, size, ...)` leaves in `buf`, for the formatted text
`s`: the first `size - 1` bytes of `s`. -/
def snprintf (size : Nat) (s : String) : CStr :=
  (c_str s).take (size - 1)

/-- The size of `strbuf`, `strbuf2`, `strbuf3` and `strbuf4`. -/
def STRBUF_SIZE : Nat := 2048

/-- How `fprintf` shows a `char *` under `%s`. -/
def cstr : Option String → String
  | some s => s
  | none => "(null)"

/-- How `fprintf` shows a key under `%s`. -/
def cstr_bytes : Option CStr → CStr
  | some s => s
  | none => c_str "(null)"

/-- A message printed under `if (verbose)`. -/
def verbose_print {B : Type} (d : Driver B) (msg : CStr) : Driver B :=
  if d.verbose then { d with stderr := d.stderr ++ [StderrLine.plain msg] } else d

/-- Appends a call to the log. -/
def log_call {B : Type} (d : Driver B) (c : Call) : Driver B :=
  { d with calls := d.calls ++ [c] }

/-! ## The driver -/

/-- The function `parse_error`: prints the first message only, latches the flag, returns -1. -/
def parse_error {B : Type} (d : Driver B) (msg : CStr) : Int × Driver B :=
  if d.parse_err_occurred then (-1, d)
  else (-1, { d with stderr := d.stderr ++ [StderrLine.located msg], parse_err_occurred := true })

/-- The function `resolve_path`: `NULL` when `malloc` fails. -/
def resolve_path {B E : Type} (L : Lib B E) (d : Driver B) (path : String) : Option String :=
  if L.malloc_ok path then some (L.path_resolve d.path_prefix path) else none

/-- The value of `st.st_mtime` after `stat(path, &st)`, whose result the
caller does not check. -/
def stat_mtime {B E : Type} (L : Lib B E) (path : Option String) : Int :=
  match L.stat path with
  | some st => st.st_mtime
  | none => L.uninit_mtime

/-- The function `check_latest_mtime`. -/
def check_latest_mtime {B E : Type} (L : Lib B E) (d : Driver B) (path : Option String) :
    Driver B :=
  let mtime := stat_mtime L path
  if mtime > d.latest_mtime then { d with latest_mtime := mtime } else d

/-- The tail of `add_texture_if_outdated`: the call of
`rucksack_bundle_add_texture` and the handling of its error. -/
def add_texture_call {B E : Type} (L : Lib B E) (d : Driver B) (key : Option CStr)
    (texture : RuckSackTexture) : Int × Driver B :=
  let r := L.rucksack_bundle_add_texture d.bundle key texture
  let d1 := log_call { d with bundle := r.2 } (Call.bundle_add_texture key texture r.1)
  if r.1 ≠ 0 then
    parse_error d1 (snprintf STRBUF_SIZE ("unable to add texture: " ++ L.rucksack_err_str r.1))
  else (0, d1)

/-- The function `add_texture_if_outdated`.  `none`: the stored entry did not
open as a texture and the unset `bundle_texture` is dereferenced. -/
def add_texture_if_outdated {B E : Type} (L : Lib B E) (d : Driver B) (key : Option CStr)
    (texture : RuckSackTexture) : Option (Int × Driver B) :=
  match L.rucksack_bundle_find_file d.bundle key with
  | some entry =>
    match L.rucksack_file_open_texture d.bundle entry with
    | none => none
    | some bundle_texture =>
      let bundle_mtime := L.rucksack_file_mtime entry
      let up_to_date : Bool :=
        decide (d.latest_mtime ≤ bundle_mtime) &&
        decide (bundle_texture.max_width = texture.max_width) &&
        decide (bundle_texture.max_height = texture.max_height) &&
        decide (bundle_texture.allow_r90 = texture.allow_r90) &&
        decide (bundle_texture.allow_r90 = texture.allow_r90)
      if up_to_date then
        some (0, verbose_print d (c_str "Texture up to date: " ++ cstr_bytes key))
      else
        some (add_texture_call L
          (verbose_print d (c_str "Updating texture: " ++ cstr_bytes key)) key texture)
  | none =>
    some (add_texture_call L
      (verbose_print d (c_str "New texture: " ++ cstr_bytes key)) key texture)

/-- The tail of `add_file_if_outdated`: the call of `rucksack_bundle_add_file`
and the handling of its error. -/
def add_file_call {B E : Type} (L : Lib B E) (d : Driver B) (key : Option CStr)
    (path : Option String) :
    Int × Driver B :=
  let r := L.rucksack_bundle_add_file d.bundle key path
  let d1 := log_call { d with bundle := r.2 } (Call.bundle_add_file key path r.1)
  if r.1 ≠ 0 then
    parse_error d1
      (snprintf STRBUF_SIZE ("unable to add " ++ cstr path ++ ": " ++ L.rucksack_err_str r.1))
  else (0, d1)

/-- The function `add_file_if_outdated`. -/
def add_file_if_outdated {B E : Type} (L : Lib B E) (d : Driver B) (key : Option CStr)
    (path : Option String) :
    Int × Driver B :=
  match L.rucksack_bundle_find_file d.bundle key with
  | some entry =>
    let bundle_mtime := L.rucksack_file_mtime entry
    let file_mtime := stat_mtime L path
    if file_mtime ≤ bundle_mtime then
      (0, verbose_print d (c_str "File up to date: " ++ cstr_bytes key))
    else
      add_file_call L (verbose_print d (c_str "Updating file: " ++ cstr_bytes key)) key path
  | none => add_file_call L (verbose_print d (c_str "New file: " ++ cstr_bytes key)) key path

/-- The local `use_glob_str` of `perform_glob`. -/
def use_glob_str {B : Type} (d : Driver B) : String :=
  match d.glob_glob with
  | some g => g
  | none => "*"

/-- The local `use_glob_path` of `perform_glob`. -/
def use_glob_path {B : Type} (d : Driver B) : String :=
  match d.glob_path with
  | some p => p
  | none => ""

/-- The local `use_glob_prefix` of `perform_glob`. -/
def use_glob_prefix {B : Type} (d : Driver B) : String :=
  match d.glob_prefix with
  | some p => p
  | none => ""

/-- The contents of `strbuf3` in `perform_glob`: the directory the glob is
relative to. -/
def glob_dir {B E : Type} (L : Lib B E) (d : Driver B) : String :=
  L.path_join d.path_prefix (use_glob_path d)

/-- The pattern `perform_glob` hands to `glob` (`strbuf2` before the loop). -/
def glob_pattern {B E : Type} (L : Lib B E) (d : Driver B) : String :=
  L.path_join (glob_dir L d) (use_glob_str d)

/-- The key `perform_glob` builds in `strbuf4` for a match. -/
def glob_key {B E : Type} (L : Lib B E) (strbuf3 key_prefix path : String) : CStr :=
  snprintf STRBUF_SIZE ( key_prefix ++ L.path_relative strbuf3 path)

/-- The loop of `perform_glob` over `gl_pathv`, `strbuf3` holding the joined
directory and `key_prefix` the value of `use_glob_prefix`.  The second
component of the result is a ghost: the invocations of `match_callback` the
loop made, as (key, path) pairs in the order of the calls. -/
def glob_loop {B E : Type} (L : Lib B E)
    (match_callback : Driver B → CStr → String → Option (Int × Driver B))
    (strbuf3 key_prefix : String) :
    List String → Driver B → Option (Int × Driver B) × List (CStr × String)
  | [], d => (some (0, d), [])
  | path :: rest, d =>
    match L.stat (some path) with
    | none => (some (parse_error d (snprintf STRBUF_SIZE ("unable to stat " ++ path))), [])
    | some s =>
      if s.is_dir then
        glob_loop L match_callback strbuf3 key_prefix rest d
      else
        match match_callback d (glob_key L strbuf3 key_prefix path) path with
        | none => (none, [(glob_key L strbuf3 key_prefix path, path)])
        | some (err, d1) =>
          if err ≠ 0 then (some (err, d1), [(glob_key L strbuf3 key_prefix path, path)])
          else
            ((glob_loop L match_callback strbuf3 key_prefix rest d1).1,
             (glob_key L strbuf3 key_prefix path, path) ::
               (glob_loop L match_callback strbuf3 key_prefix rest d1).2)

/-- The function `perform_glob`, with the ghost list of the invocations of
`match_callback` as second component. -/
def perform_glob_trace {B E : Type} (L : Lib B E)
    (match_callback : Driver B → CStr → String → Option (Int × Driver B)) (d : Driver B) :
    Option (Int × Driver B) × List (CStr × String) :=
  let d1 := log_call d (Call.glob (glob_pattern L d))
  match L.glob (glob_pattern L d) with
  | GlobOutcome.GLOB_NOSPACE => (some (parse_error d1 "out of memory"), [])
  | GlobOutcome.GLOB_ABORTED => (some (parse_error d1 "read error while globbing"), [])
  | GlobOutcome.GLOB_NOMATCH => (some (parse_error d1 "no patterns matched"), [])
  | GlobOutcome.matched first rest =>
    glob_loop L match_callback (glob_dir L d) ( use_glob_prefix d) (first :: rest) d1

/-- The function `perform_glob`. -/
def perform_glob {B E : Type} (L : Lib B E)
    (match_callback : Driver B → CStr → String → Option (Int × Driver B)) (d : Driver B) :
    Option (Int × Driver B) :=
  (perform_glob_trace L match_callback d).1

/-- The function `add_glob_match_to_bundle`. -/
def add_glob_match_to_bundle {B E : Type} (L : Lib B E) (d : Driver B) (key : CStr)
    (path : String) :
    Option (Int × Driver B) :=
  some (add_file_if_outdated L d (some key) (some path))

/-- The function `glob_insert_files`. -/
def glob_insert_files {B E : Type} (L : Lib B E) (d : Driver B) : Option (Int × Driver B) :=
  perform_glob L (add_glob_match_to_bundle L) d

/-- The call `rucksack_texture_add_image(texture, image)` with the handling of
its error, shared by `add_glob_match_to_texture` and `on_end`.  `none`: the
texture pointer is `NULL`.  On success the result carries the texture with
the image in it. -/
def texture_add_image_call {B E : Type} (L : Lib B E) (d : Driver B) :
    Option (Int × Driver B) :=
  match d.texture with
  | none => none
  | some texture =>
    let r := L.rucksack_texture_add_image texture d.image
    let d1 := log_call { d with texture := some r.2 } (Call.texture_add_image d.image r.1)
    if r.1 ≠ 0 then
      some (parse_error d1
        (snprintf STRBUF_SIZE ("unable to add image to texture: " ++ L.rucksack_err_str r.1)))
    else some (0, d1)

/-- The function `add_glob_match_to_texture`. -/
def add_glob_match_to_texture {B E : Type} (L : Lib B E) (d : Driver B) (key : CStr)
    (path : String) :
    Option (Int × Driver B) :=
  let d1 := { d with image := { d.image with path := some path, key := some key } }
  match texture_add_image_call L d1 with
  | none => none
  | some (err, d2) =>
    if err ≠ 0 then some (err, d2)
    else
      let d3 := check_latest_mtime L d2 (some path)
      some (0, { d3 with image := { d3.image with path := none, key := none } })

/-- The function `glob_insert_images`. -/
def glob_insert_images {B E : Type} (L : Lib B E) (d : Driver B) : Option (Int × Driver B) :=
  perform_glob L (add_glob_match_to_texture L) d

/-- Sets `state`. -/
def goto {B : Type} (d : Driver B) (s : State) : Option (Int × Driver B) :=
  some (0, { d with state := s })

/-- The anchor kind a string names in `StateImagePropAnchor`, `none` for a
string outside the nine accepted ones (the `strcmp` chain of `on_string`). -/
def anchor_of_string (value : String) : Option RuckSackAnchor :=
  if value = "top" then some RuckSackAnchor.RuckSackAnchorTop
  else if value = "right" then some RuckSackAnchor.RuckSackAnchorRight
  else if value = "bottom" then some RuckSackAnchor.RuckSackAnchorBottom
  else if value = "left" then some RuckSackAnchor.RuckSackAnchorLeft
  else if value = "topleft" then some RuckSackAnchor.RuckSackAnchorTopLeft
  else if value = "topright" then some RuckSackAnchor.RuckSackAnchorTopRight
  else if value = "bottomleft" then some RuckSackAnchor.RuckSackAnchorBottomLeft
  else if value = "bottomright" then some RuckSackAnchor.RuckSackAnchorBottomRight
  else if value = "center" then some RuckSackAnchor.RuckSackAnchorCenter
  else none

/-- The callback `on_string`.  The `type` argument only feeds the debug
print. -/
def on_string {B E : Type} (L : Lib B E) (d : Driver B) (_type : LaxJsonType)
    (value : String) :
    Option (Int × Driver B) :=
  match d.state with
  | State.StateStart => some (parse_error d "top-level value must be an object, not string")
  | State.StateDone => some (parse_error d "unexpected content after EOF")
  | State.StateTopLevelProp =>
    if value = "textures" then goto d State.StateTextures
    else if value = "files" then goto d State.StateExpectFilesObject
    else if value = "globFiles" then goto d State.StateExpectGlobArray
    else some (parse_error d (snprintf STRBUF_SIZE ("unknown top level property: " ++ value)))
  | State.StateTextures => some (parse_error d "expected textures to be an object, not string")
  | State.StateTextureName =>
    match L.rucksack_texture_create with
    | none =>
      some (parse_error (log_call { d with texture := none } (Call.texture_create false))
        "out of memory")
    | some t =>
      some (0, { log_call d (Call.texture_create true) with
        texture := some t, texture_key := some (c_str value),
        state := State.StateExpectTextureObject })
  | State.StateExpectImagesObject => some (parse_error d "expected images object, not string")
  | State.StateExpectGlobImagesArray =>
    some (parse_error d "expected globImages array, not string")
  | State.StateImageName =>
    some (0, { d with
      image := { d.image with
        anchor := RuckSackAnchor.RuckSackAnchorCenter, path := none, key := some (c_str value) },
      state := State.StateImageObjectBegin })
  | State.StateFileName =>
    some (0, { d with file_key := some (c_str value), state := State.StateFileObjectBegin })
  | State.StateImageObjectBegin =>
    some (parse_error d "expected image properties object, not string")
  | State.StateFilePropName =>
    if value = "path" then goto d State.StateFilePropPath
    else some (parse_error d (snprintf STRBUF_SIZE ("unknown file property: " ++ value)))
  | State.StateImagePropName =>
    if value = "anchor" then
      some (0, { d with
        state := State.StateImagePropAnchor, anchor_next_state := State.StateImagePropName })
    else if value = "path" then goto d State.StateImagePropPath
    else some (parse_error d (snprintf STRBUF_SIZE ("unknown image property: " ++ value)))
  | State.StateImagePropAnchor =>
    match anchor_of_string value with
    | some a =>
      some (0, { d with image := { d.image with anchor := a }, state := d.anchor_next_state })
    | none => some (parse_error d (snprintf STRBUF_SIZE ("unknown anchor value: " ++ value)))
  | State.StateImagePropAnchorObject =>
    if value = "x" then goto d State.StateImagePropAnchorX
    else if value = "y" then goto d State.StateImagePropAnchorY
    else some (parse_error d (snprintf STRBUF_SIZE ("unknown anchor point property: " ++ value)))
  | State.StateImagePropAnchorX => some (parse_error d "expected number")
  | State.StateImagePropAnchorY => some (parse_error d "expected number")
  | State.StateFilePropPath =>
    match resolve_path L d value with
    | none => some (parse_error { d with file_path := none } "out of memory")
    | some p => some (0, { d with file_path := some p, state := State.StateFilePropName })
  | State.StateImagePropPath =>
    match resolve_path L d value with
    | none => some (parse_error { d with image := { d.image with path := none } } "out of memory")
    | some p =>
      some (0, { d with
        image := { d.image with path := some p },
        state := State.StateImagePropName })
  | State.StateTextureProp =>
    if value = "images" then goto d State.StateExpectImagesObject
    else if value = "globImages" then goto d State.StateExpectGlobImagesArray
    else if value = "maxWidth" then goto d State.StateTextureMaxWidth
    else if value = "maxHeight" then goto d State.StateTextureMaxHeight
    else if value = "pow2" then goto d State.StateTexturePow2
    else if value = "allowRotate90" then goto d State.StateTextureAllowRotate90
    else some (parse_error d (snprintf STRBUF_SIZE ("unknown texture property: " ++ value)))
  | State.StateGlobObjectProp =>
    if value = "glob" then goto d State.StateGlobValueGlob
    else if value = "prefix" then goto d State.StateGlobValuePrefix
    else if value = "path" then goto d State.StateGlobValuePath
    else some (parse_error d (snprintf STRBUF_SIZE ("unknown globFiles property: " ++ value)))
  | State.StateGlobImageObjectProp =>
    if value = "glob" then goto d State.StateGlobImageValueGlob
    else if value = "prefix" then goto d State.StateGlobImageValuePrefix
    else if value = "path" then goto d State.StateGlobImageValuePath
    else if value = "anchor" then
      some (0, { d with
        state := State.StateImagePropAnchor,
        anchor_next_state := State.StateGlobImageObjectProp })
    else some (parse_error d (snprintf STRBUF_SIZE ("unknown globImages property: " ++ value)))
  | State.StateGlobValueGlob =>
    some (0, { d with glob_glob := some value, state := State.StateGlobObjectProp })
  | State.StateGlobValuePath =>
    some (0, { d with glob_path := some value, state := State.StateGlobObjectProp })
  | State.StateGlobValuePrefix =>
    some (0, { d with glob_prefix := some value, state := State.StateGlobObjectProp })
  | State.StateGlobImageValueGlob =>
    some (0, { d with glob_glob := some value, state := State.StateGlobImageObjectProp })
  | State.StateGlobImageValuePath =>
    some (0, { d with glob_path := some value, state := State.StateGlobImageObjectProp })
  | State.StateGlobImageValuePrefix =>
    some (0, { d with glob_prefix := some value, state := State.StateGlobImageObjectProp })
  | _ => some (parse_error d "unexpected string")

/-- The cast `(int)x` of a `double`: truncation toward zero, defined only when
the truncated value is an `int`. -/
def double_to_int (x : Rat) : Option Int :=
  let t := Int.tdiv x.num (x.den : Int)
  if -2147483648 ≤ t ∧ t ≤ 2147483647 then some t else none

/-- The callback `on_number`.  `none`: `(int)x` is undefined, or the texture
pointer is `NULL`. -/
def on_number {B : Type} (d : Driver B) (x : Rat) : Option (Int × Driver B) :=
  match d.state with
  | State.StateStart => some (parse_error d "top-level value must be an object, not number")
  | State.StateDone => some (parse_error d "unexpected content after EOF")
  | State.StateTextures => some (parse_error d "expected textures to be an object, not number")
  | State.StateExpectImagesObject => some (parse_error d "expected image object, not number")
  | State.StateExpectGlobImagesArray =>
    some (parse_error d "expected globImages array, not number")
  | State.StateImageObjectBegin =>
    some (parse_error d "expected image properties object, not number")
  | State.StateImagePropAnchor => some (parse_error d "expected object or string, not number")
  | State.StateImagePropAnchorX =>
    some (0, { d with
      image := { d.image with anchor_x := x },
      state := State.StateImagePropAnchorObject })
  | State.StateImagePropAnchorY =>
    some (0, { d with
      image := { d.image with anchor_x := x },
      state := State.StateImagePropAnchorObject })
  | State.StateImagePropPath => some (parse_error d "expected string, not number")
  | State.StateTextureMaxWidth =>
    match double_to_int x with
    | none => none
    | some n =>
      if x ≠ (n : Rat) then some (parse_error d "expected integer")
      else
        match d.texture with
        | none => none
        | some t =>
          some (0, { d with
            texture := some { t with max_width := n },
            state := State.StateTextureProp })
  | State.StateTextureMaxHeight =>
    match double_to_int x with
    | none => none
    | some n =>
      if x ≠ (n : Rat) then some (parse_error d "expected integer")
      else
        match d.texture with
        | none => none
        | some t =>
          some (0, { d with
            texture := some { t with max_height := n },
            state := State.StateTextureProp })
  | _ => some (parse_error d "unexpected number")

/-- The callback `on_primitive`.  `none`: the texture pointer is `NULL`. -/
def on_primitive {B : Type} (d : Driver B) (type : LaxJsonType) : Option (Int × Driver B) :=
  match d.state with
  | State.StateTexturePow2 =>
    match type with
    | LaxJsonType.LaxJsonTypeTrue =>
      match d.texture with
      | none => none
      | some t =>
        some (0, { d with texture := some { t with pow2 := 1 }, state := State.StateTextureProp })
    | LaxJsonType.LaxJsonTypeFalse =>
      match d.texture with
      | none => none
      | some t =>
        some (0, { d with texture := some { t with pow2 := 0 }, state := State.StateTextureProp })
    | _ => some (parse_error d "expected true or false")
  | State.StateTextureAllowRotate90 =>
    match type with
    | LaxJsonType.LaxJsonTypeTrue =>
      match d.texture with
      | none => none
      | some t =>
        some (0, { d with
          texture := some { t with allow_r90 := 1 },
          state := State.StateTextureProp })
    | LaxJsonType.LaxJsonTypeFalse =>
      match d.texture with
      | none => none
      | some t =>
        some (0, { d with
          texture := some { t with allow_r90 := 0 },
          state := State.StateTextureProp })
    | _ => some (parse_error d "expected true or false")
  | _ => some (parse_error d "unexpected primitive")

/-- The callback `on_begin`.  `none`: the `assert(type == LaxJsonTypeObject)`
fails. -/
def on_begin {B : Type} (d : Driver B) (type : LaxJsonType) : Option (Int × Driver B) :=
  if type = LaxJsonType.LaxJsonTypeArray then
    match d.state with
    | State.StateExpectGlobArray => goto d State.StateGlobObject
    | State.StateExpectGlobImagesArray => goto d State.StateGlobImageObject
    | _ => some (parse_error d "unexpected array")
  else if type ≠ LaxJsonType.LaxJsonTypeObject then none
  else
    match d.state with
    | State.StateStart => goto d State.StateTopLevelProp
    | State.StateTextures => goto d State.StateTextureName
    | State.StateExpectImagesObject => goto d State.StateImageName
    | State.StateExpectTextureObject => goto d State.StateTextureProp
    | State.StateImageObjectBegin => goto d State.StateImagePropName
    | State.StateFileObjectBegin => goto d State.StateFilePropName
    | State.StateImagePropAnchor =>
      some (0, { d with
        state := State.StateImagePropAnchorObject,
        image := { d.image with anchor := RuckSackAnchor.RuckSackAnchorExplicit } })
    | State.StateExpectFilesObject => goto d State.StateFileName
    | State.StateGlobObject =>
      some (0, { d with
        state := State.StateGlobObjectProp,
        glob_glob := none, glob_path := none, glob_prefix := none })
    | State.StateGlobImageObject =>
      some (0, { d with
        state := State.StateGlobImageObjectProp,
        glob_glob := none, glob_path := none, glob_prefix := none,
        image := { d.image with anchor := RuckSackAnchor.RuckSackAnchorCenter } })
    | _ => some (parse_error d "unexpected object")

/-- The callback `on_end`; its `type` argument only feeds the debug print.
`none`: the texture pointer is `NULL` where the library or the driver
dereferences it, or `add_texture_if_outdated` does not return.  The three
`glob_*` strings are freed but not reset after a glob object; the next
`on_begin` of a glob object resets them. -/
def on_end {B E : Type} (L : Lib B E) (d : Driver B) (_type : LaxJsonType) :
    Option (Int × Driver B) :=
  match d.state with
  | State.StateStart => some (parse_error d "expected an object, got nothing")
  | State.StateTopLevelProp => goto d State.StateDone
  | State.StateDone => some (parse_error d "unexpected content after EOF")
  | State.StateImagePropName =>
    match texture_add_image_call L d with
    | none => none
    | some (err, d1) =>
      if err ≠ 0 then some (err, d1)
      else
        let d2 := check_latest_mtime L d1 d1.image.path
        some (0, { d2 with
          image := { d2.image with path := none, key := none },
          state := State.StateImageName })
  | State.StateFilePropName =>
    let r := add_file_if_outdated L d d.file_key d.file_path
    if r.1 ≠ 0 then some r
    else some (0, { r.2 with file_path := none, file_key := none, state := State.StateFileName })
  | State.StateImagePropAnchorObject => goto d d.anchor_next_state
  | State.StateImageName => goto d State.StateTextureProp
  | State.StateTextureProp =>
    match d.texture with
    | none => none
    | some texture =>
      match add_texture_if_outdated L d d.texture_key texture with
      | none => none
      | some (err, d1) =>
        if err ≠ 0 then some (err, d1)
        else
          some (0, { d1 with
            texture := none, texture_key := none,
            state := State.StateTextureName })
  | State.StateGlobObjectProp =>
    match glob_insert_files L d with
    | none => none
    | some (err, d1) =>
      if err ≠ 0 then some (err, d1) else some (0, { d1 with state := State.StateGlobObject })
  | State.StateGlobImageObjectProp =>
    match glob_insert_images L d with
    | none => none
    | some (err, d1) =>
      if err ≠ 0 then some (err, d1)
      else some (0, { d1 with state := State.StateGlobImageObject })
  | State.StateTextureName => goto d State.StateTopLevelProp
  | State.StateGlobObject => goto d State.StateTopLevelProp
  | State.StateFileName => goto d State.StateTopLevelProp
  | State.StateGlobImageObject => goto d State.StateTextureProp
  | _ => some (parse_error d "unexpected end of object or array")

/-- One callback of the parser into the driver. -/
def dispatch {B E : Type} (L : Lib B E) (d : Driver B) : Event → Option (Int × Driver B)
  | Event.string type value => on_string L d type value
  | Event.number x => on_number d x
  | Event.primitive type => on_primitive d type
  | Event.begin_value type => on_begin d type
  | Event.end_value type => on_end L d type

/-- The parser delivering a run of events, as `lax_json_feed` does: the first
callback that returns non-zero stops the parser, which reports
`LaxJsonErrorAborted`; later events are never delivered.  The result is the
parser's error, if any, and the globals afterwards. -/
def feed {B E : Type} (L : Lib B E) : List Event → Driver B →
    Option (Option LaxJsonError × Driver B)
  | [], d => some (none, d)
  | e :: es, d =>
    match dispatch L d e with
    | none => none
    | some (r, d1) =>
      if r ≠ 0 then some (some LaxJsonError.LaxJsonErrorAborted, d1)
      else feed L es d1

/-! ## The `bundle` command -/

/-- The locals and globals the argument loop of `command_bundle` sets. -/
structure BundleArgs where
  input_filename : Option String
  bundle_filename : Option String
  verbose : Bool
  path_prefix : String
  deriving DecidableEq, Repr

/-- The argument loop of `command_bundle`; `none` stands for
`return bundle_usage(arg0)`. -/
def bundle_args : List String → BundleArgs → Option BundleArgs
  | [], a => some a
  | arg :: rest, a =>
    match arg.data with
    | '-' :: '-' :: name =>
      if String.mk name = "verbose" then bundle_args rest { a with verbose := true }
      else
        match rest with
        | [] => none
        | value :: rest2 =>
          if String.mk name = "prefix" then bundle_args rest2 { a with path_prefix := value }
          else none
    | _ =>
      if a.input_filename = none then bundle_args rest { a with input_filename := some arg }
      else if a.bundle_filename = none then
        bundle_args rest { a with bundle_filename := some arg }
      else none

/-- The values `command_bundle` starts its argument loop with: no file names,
`verbose` 0 and the static initialiser of `path_prefix`. -/
def default_bundle_args : BundleArgs :=
  { input_filename := none, bundle_filename := none, verbose := false, path_prefix := "." }

/-- The text `bundle_usage` prints. -/
def bundle_usage_text (arg0 : String) : String :=
  "Usage: " ++ arg0 ++ " bundle assetsfile bundlefile\n\nOptions:\n" ++
  "  [--prefix path]  assets are loaded relative to this path. defaults to cwd\n" ++
  "  [--verbose]      print what is happening while it is happening\n"

/-- The globals when the first event arrives: the static initialisers of
`main.c`, the opened bundle, the image `main` created and the two options. -/
def initial_driver {B : Type} (bundle : B) (image : RuckSackImage) (a : BundleArgs) :
    Driver B where
  bundle := bundle
  state := State.StateStart
  parse_err_occurred := false
  texture := none
  texture_key := none
  file_key := none
  file_path := none
  image := image
  path_prefix := a.path_prefix
  glob_glob := none
  glob_path := none
  glob_prefix := none
  anchor_next_state := State.StateStart
  verbose := a.verbose
  latest_mtime := 0
  stderr := []
  calls := []

/-- What one run of `command_bundle` leaves behind: its return value, what it
printed, the globals at the return (when the bundle was opened), and whether
`rucksack_bundle_close` was called. -/
structure BundleRun (B : Type) where
  status : Int
  stderr : List StderrLine
  driver : Option (Driver B)
  closed : Bool

/-- The part of `command_bundle` after the bundle is open: the feed loop,
`lax_json_eof`, the final checks and the close. -/
def bundle_manifest {B E : Type} (L : Lib B E) (m : Manifest) (d0 : Driver B) :
    Option (BundleRun B) :=
  match feed L m.events d0 with
  | none => none
  | some (some err, d1) =>
    let d2 := (parse_error d1 (c_str (ERR_STR err))).2
    some { status := 1, stderr := d2.stderr, driver := some d2, closed := false }
  | some (none, d1) =>
    match m.error with
    | some err =>
      let d2 := (parse_error d1 (c_str (ERR_STR err))).2
      some { status := 1, stderr := d2.stderr, driver := some d2, closed := false }
    | none =>
      let d2 := if d1.state ≠ State.StateDone then (parse_error d1 "unexpected EOF").2 else d1
      if d2.parse_err_occurred then
        some { status := 1, stderr := d2.stderr, driver := some d2, closed := false }
      else if L.rucksack_bundle_close d2.bundle ≠ 0 then
        some { status := 1,
               stderr := d2.stderr ++ [StderrLine.plain (c_str ("unable to close bundle: " ++
                 L.rucksack_err_str (L.rucksack_bundle_close d2.bundle)))],
               driver := some d2, closed := true }
      else some { status := 0, stderr := d2.stderr, driver := some d2, closed := true }

/-- The function `command_bundle`, called by `main` with the image it
created.  `none`: a callback did not return. -/
def command_bundle {B E : Type} (L : Lib B E) (image : RuckSackImage) (arg0 : String)
    (argv : List String) : Option (BundleRun B) :=
  let usage : BundleRun B :=
    { status := 1, stderr := [StderrLine.plain (c_str (bundle_usage_text arg0))], driver := none,
      closed := false }
  match bundle_args argv default_bundle_args with
  | none => some usage
  | some a =>
    match a.input_filename, a.bundle_filename with
    | none, _ => some usage
    | some _, none => some usage
    | some input_filename, some bundle_filename =>
      match (if input_filename = "-" then some L.stdin else L.fopen input_filename) with
      | none =>
        some { status := 1, stderr := [StderrLine.plain (c_str "Unable to open input file")],
               driver := none, closed := false }
      | some m =>
        match L.rucksack_bundle_open bundle_filename with
        | Except.error rs_err =>
          some { status := 1,
                 stderr := [StderrLine.plain (c_str ("unable to open bundle: " ++
                   L.rucksack_err_str rs_err))],
                 driver := none, closed := false }
        | Except.ok bundle => bundle_manifest L m (initial_driver bundle image a)

/-! ## The bundle container, from the specification

`rucksack.c` is not among the sources; the tests of `test/test_library.c` call
into it.  The definitions of this section follow sections 3, 4.1 and 6 of the
specification. -/

/-- Modelled from the spec: the entry kind flag of the entry table of
`rucksack.c`, which is missing from the sources (0 = file, 1 = texture). -/
inductive EntryKind
  | file
  | texture
  deriving DecidableEq, Repr

/-- Modelled from the spec: a record of the bundle directory of `rucksack.c`,
which is missing from the sources: name, offset, used length, allocated
capacity, kind flag and modification time in seconds. -/
structure Entry where
  name : String
  offset : Nat
  used : Nat
  capacity : Nat
  kind : EntryKind
  mtime : Nat
  deriving DecidableEq, Repr

/-- Modelled from the spec: a free region of the open bundle of `rucksack.c`,
which is missing from the sources: an (offset, length) pair. -/
structure FreeRegion where
  offset : Nat
  length : Nat
  deriving DecidableEq, Repr

/-- Modelled from the spec: the error kinds of section 7 that the container of
`rucksack.c`, missing from the sources, reports. -/
inductive BundleError
  | Io
  | BadFormat
  | NotFound
  | KeyTooLong
  | OutOfMemory
  deriving DecidableEq, Repr

/-- Modelled from the spec: a bundle file on disk as `rucksack.c`, missing
from the sources, lays it out: either zero bytes long, or a header with magic
and version, the entry table written at close, and the data regions.  The
byte offsets of entries and free regions address `data`. -/
inductive DiskFile
  | zero_bytes
  | image (magic version : Nat) (table : List Entry) (data : List UInt8)
  deriving DecidableEq, Repr

/-- Modelled from the spec: the filesystem the container of `rucksack.c`,
missing from the sources, works on: the bundle files by path, and the source
files by path with their modification time and bytes. -/
structure Disk where
  bundles : String → Option DiskFile
  sources : String → Option (Nat × List UInt8)

/-- Modelled from the spec: the open bundle of `rucksack.c`, missing from the
sources: the path it was opened from, the entry table in insertion order, the
free regions sorted by offset, and the bytes of the data regions. -/
structure Bundle where
  path : String
  entries : List Entry
  free : List FreeRegion
  data : List UInt8
  deriving DecidableEq, Repr

/-- Modelled from the spec: the magic of the bundle header of `rucksack.c`,
missing from the sources: the four characters RSBN read as a little-endian
`u32`. -/
def BUNDLE_MAGIC : Nat := 0x4e425352

/-- Modelled from the spec: the format version of the bundle header of
`rucksack.c`, missing from the sources. -/
def BUNDLE_VERSION : Nat := 1

/-- Modelled from the spec: the on-disk limit on entry names of `rucksack.c`,
missing from the sources (65535 bytes). -/
def KEY_LIMIT : Nat := 65535

/-- Modelled from the spec: the gaps between the live spans of the entries of
`rucksack.c`, missing from the sources, the entries sorted by offset, from
`cursor` up to the file size. -/
def free_gaps (size : Nat) : List Entry → Nat → List FreeRegion
  | [], cursor => if cursor < size then [{ offset := cursor, length := size - cursor }] else []
  | e :: es, cursor =>
    (if cursor < e.offset then [{ offset := cursor, length := e.offset - cursor }] else []) ++
      free_gaps size es (max cursor (e.offset + e.capacity))

/-- Modelled from the spec: the free regions `open` of `rucksack.c`, missing
from the sources, computes: the complement of the live entry spans within the
file's current size. -/
def free_complement (entries : List Entry) (size : Nat) : List FreeRegion :=
  free_gaps size (entries.insertionSort (fun a b => a.offset ≤ b.offset)) 0

/-- Modelled from the spec: the filesystem after the container of
`rucksack.c`, missing from the sources, has written a bundle file. -/
def disk_write (disk : Disk) (path : String) (f : DiskFile) : Disk :=
  { disk with bundles := fun p => if p = path then some f else disk.bundles p }

/-- Modelled from the spec: `open(path)` of `rucksack.c`, missing from the
sources.  A missing or zero-byte file is created with a fresh header; else
magic and version are verified, the entry table is read and the free regions
are computed. -/
def bundle_open (disk : Disk) (path : String) : Except BundleError (Bundle × Disk) :=
  match disk.bundles path with
  | none | some DiskFile.zero_bytes =>
    Except.ok
      ({ path := path, entries := [], free := [], data := [] },
       disk_write disk path (DiskFile.image BUNDLE_MAGIC BUNDLE_VERSION [] []))
  | some (DiskFile.image magic version table data) =>
    if magic ≠ BUNDLE_MAGIC ∨ version ≠ BUNDLE_VERSION then Except.error BundleError.BadFormat
    else
      Except.ok
        ({ path := path, entries := table, free := free_complement table data.length,
           data := data }, disk)

/-- Modelled from the spec: `find(key)` of `rucksack.c`, missing from the
sources: the entry of that name, if any. -/
def bundle_find (b : Bundle) (key : String) : Option Entry :=
  b.entries.find? (fun e => e.name = key)

/-- Modelled from the spec: `file_size(entry)` of `rucksack.c`, missing from
the sources. -/
def file_size (e : Entry) : Nat := e.used

/-- Modelled from the spec: `file_read(entry, buf)` of `rucksack.c`, missing
from the sources, with a buffer of `file_size` bytes: the `used` bytes at the
entry's offset, `Io` when the file is shorter than that. -/
def file_read (b : Bundle) (e : Entry) : Except BundleError (List UInt8) :=
  if e.offset + e.used ≤ b.data.length then Except.ok ((b.data.drop e.offset).take e.used)
  else Except.error BundleError.Io

/-- Modelled from the spec: writing a payload at an offset of the bundle file
of `rucksack.c`, missing from the sources; a write past the end of the file
extends it. -/
def write_at (data : List UInt8) (offset : Nat) (payload : List UInt8) : List UInt8 :=
  let padded := data ++ List.replicate (offset - data.length) 0
  padded.take offset ++ payload ++ padded.drop (offset + payload.length)

/-- Modelled from the spec: the free-list policy of `rucksack.c`, missing from
the sources, on release: adjacent regions are coalesced. -/
def coalesce : List FreeRegion → List FreeRegion
  | a :: b :: rest =>
    if a.offset + a.length = b.offset then
      coalesce ({ offset := a.offset, length := a.length + b.length } :: rest)
    else a :: coalesce (b :: rest)
  | l => l
termination_by l => l.length

/-- Modelled from the spec: releasing a region to the free list of
`rucksack.c`, missing from the sources: inserted sorted by offset, then
coalesced. -/
def release (free : List FreeRegion) (r : FreeRegion) : List FreeRegion :=
  coalesce (List.orderedInsert (fun a b => a.offset ≤ b.offset) r free)

/-- Modelled from the spec: step 3 of the write algorithm of `rucksack.c`,
missing from the sources: the first free region that fits is taken whole;
when none fits the file grows by twice the payload size at its current end.
The result is the offset, the capacity, the free list and the data. -/
def allocate (free : List FreeRegion) (data : List UInt8) (new_size : Nat) :
    Nat × Nat × List FreeRegion × List UInt8 :=
  match free.find? (fun r => new_size ≤ r.length) with
  | some r => (r.offset, r.length, free.erase r, data)
  | none => (data.length, 2 * new_size, free, data ++ List.replicate (2 * new_size) 0)

/-- Modelled from the spec: replacing the first entry of a name in the entry
table of `rucksack.c`, missing from the sources, in place. -/
def replace_entry (key : String) (e1 : Entry) : List Entry → List Entry
  | [] => []
  | e :: es => if e.name = key then e1 :: es else e :: replace_entry key e1 es

/-- Modelled from the spec: the write algorithm for add and replace of
`rucksack.c`, missing from the sources (steps 1 to 5 of section 4.1). -/
def bundle_put (b : Bundle) (key : String) (kind : EntryKind) (mtime : Nat)
    (payload : List UInt8) : Bundle :=
  match bundle_find b key with
  | some e =>
    if payload.length ≤ e.capacity then
      { b with
        data := write_at b.data e.offset payload,
        entries := replace_entry key
          { e with used := payload.length, mtime := mtime, kind := kind } b.entries }
    else
      let a := allocate (release b.free { offset := e.offset, length := e.capacity }) b.data
        payload.length
      { b with
        data := write_at a.2.2.2 a.1 payload,
        free := a.2.2.1,
        entries := replace_entry key
          { e with offset := a.1, used := payload.length, capacity := a.2.1, mtime := mtime,
                   kind := kind } b.entries }
  | none =>
    let a := allocate b.free b.data payload.length
    { b with
      data := write_at a.2.2.2 a.1 payload,
      free := a.2.2.1,
      entries := b.entries ++
        [{ name := key, offset := a.1, used := payload.length, capacity := a.2.1, kind := kind,
           mtime := mtime }] }

/-- Modelled from the spec: `add_file(key, src_path)` of `rucksack.c`, missing
from the sources: stats and reads the source, then inserts or replaces an
entry of kind file with the source's mtime. -/
def bundle_add_file (disk : Disk) (b : Bundle) (key src_path : String) :
    Except BundleError Bundle :=
  if KEY_LIMIT < key.utf8ByteSize then Except.error BundleError.KeyTooLong
  else
    match disk.sources src_path with
    | none => Except.error BundleError.Io
    | some (mtime, bytes) => Except.ok (bundle_put b key EntryKind.file mtime bytes)

/-- Modelled from the spec: the end of the last live region of the bundle of
`rucksack.c`, missing from the sources. -/
def live_end : List Entry → Nat
  | [] => 0
  | e :: es => max (e.offset + e.capacity) (live_end es)

/-- Modelled from the spec: `close()` of `rucksack.c`, missing from the
sources: the entry table and header are flushed and trailing free space is
truncated. -/
def bundle_close (disk : Disk) (b : Bundle) : Disk :=
  disk_write disk b.path
    (DiskFile.image BUNDLE_MAGIC BUNDLE_VERSION b.entries (b.data.take (live_end b.entries)))

/-! ## A small library instance, for runs on concrete inputs -/

/-- An entry of the example bundle: its name, its mtime, and the texture it
stores when it is a texture entry. -/
structure ExampleEntry where
  name : CStr
  mtime : Int
  texture : Option RuckSackTexture
  deriving DecidableEq, Repr

/-- The filesystem of the example library: what `stat` and `glob` answer, the
sources the library fails to read, and the manifest on `stdin`. -/
structure ExampleWorld where
  files : List (String × Stat)
  globs : List (String × List String)
  unreadable : List String
  stdin : Manifest

/-- Puts an entry into the example bundle, replacing one of the same name. -/
def example_put (b : List ExampleEntry) (e : ExampleEntry) : List ExampleEntry :=
  if b.any (fun x => x.name = e.name) then b.map (fun x => if x.name = e.name then e else x)
  else b ++ [e]

/-- The example library over a filesystem: a bundle is a list of entries,
`path_join` joins with a slash (an empty second part adds nothing),
`path_relative` drops the base and the slash,
adding fails on unreadable or missing sources. -/
def exampleLib (w : ExampleWorld) : Lib (List ExampleEntry) ExampleEntry where
  rucksack_bundle_open := fun _ => Except.ok []
  rucksack_bundle_close := fun _ => 0
  rucksack_bundle_find_file := fun b key =>
    match key with
    | some k => b.find? (fun x => x.name = k)
    | none => none
  rucksack_file_mtime := fun e => e.mtime
  rucksack_file_open_texture := fun _ e => e.texture
  rucksack_bundle_add_file := fun b key path =>
    match key, path with
    | some k, some p =>
      match w.files.lookup p with
      | some st =>
        if p ∈ w.unreadable then (1, b)
        else (0, example_put b { name := k, mtime := st.st_mtime, texture := none })
      | none => (1, b)
    | _, _ => (1, b)
  rucksack_bundle_add_texture := fun b key t =>
    match key with
    | some k => (0, example_put b { name := k, mtime := 0, texture := some t })
    | none => (1, b)
  rucksack_texture_create :=
    some { max_width := 1024, max_height := 1024, pow2 := 1, allow_r90 := 1, images := [] }
  rucksack_texture_add_image := fun t img =>
    match img.path with
    | some p =>
      if p ∈ w.unreadable ∨ w.files.lookup p = none then (1, t)
      else (0, { t with images := t.images ++ [img] })
    | none => (1, t)
  rucksack_err_str := fun _ => "error"
  path_join := fun a b => if b = "" then a else a ++ "/" ++ b
  path_relative := fun base p => String.mk (p.data.drop (base.data.length + 1))
  path_resolve := fun a b => a ++ "/" ++ b
  malloc_ok := fun _ => true
  stat := fun p =>
    match p with
    | some p => w.files.lookup p
    | none => none
  uninit_mtime := 0
  glob := fun pattern =>
    match w.globs.lookup pattern with
    | some (first :: rest) => GlobOutcome.matched first rest
    | _ => GlobOutcome.GLOB_NOMATCH
  fopen := fun _ => none
  stdin := w.stdin

/-- The image `main` creates, in the example runs: `key_size` is -1, the other
fields are zero. -/
def example_image : RuckSackImage :=
  { path := none, key := none, key_size := -1,
    anchor := RuckSackAnchor.RuckSackAnchorCenter, anchor_x := 0, anchor_y := 0 }

/-- The globals of an example run with the default options. -/
def example_driver (b : List ExampleEntry) : Driver (List ExampleEntry) :=
  initial_driver b example_image default_bundle_args

/-- An example filesystem: two images and two files in the directory `.`, a
subdirectory, and what the patterns of the example runs match. -/
def example_world : ExampleWorld :=
  { files := [("./a.png", { st_mtime := 100, is_dir := false }),
              ("./b.png", { st_mtime := 50, is_dir := false }),
              ("./sub", { st_mtime := 70, is_dir := true }),
              ("./b.txt", { st_mtime := 20, is_dir := false }),
              ("./a.txt", { st_mtime := 30, is_dir := false })],
    globs := [("./*", ["./b.txt", "./sub", "./a.txt"]),
              ("./*.txt", ["./b.txt", "./a.txt"]),
              ("./b.*", ["./b.txt"])],
    unreadable := [],
    stdin := { events := [], error := none } }

/-- An example bundle that stores one texture, with the default settings,
under the key `tex`. -/
def example_texture_bundle : List ExampleEntry :=
  [{ name := "tex", mtime := 10,
     texture := some { max_width := 1024, max_height := 1024, pow2 := 1, allow_r90 := 1,
                       images := [] } }]

/-- The ten bytes of `test/blah.txt`. -/
def example_bytes : List UInt8 := [97, 111, 101, 117, 10, 49, 50, 51, 52, 10]

/-- A disk without bundle files, with `blah.txt` as the only source. -/
def example_disk : Disk :=
  { bundles := fun _ => none,
    sources := fun p => if p = "../test/blah.txt" then some (1000, example_bytes) else none }

/-- The bundle `open` yields on the example disk for `test.bundle`. -/
def example_bundle : Bundle :=
  { path := "test.bundle", entries := [], free := [], data := [] }

/-- The images the library accepted: those of the calls of
`rucksack_texture_add_image` in the log that returned 0, in call order. -/
def added_images : List Call → List RuckSackImage
  | [] => []
  | Call.texture_add_image image err :: cs =>
    if err = 0 then image :: added_images cs else added_images cs
  | _ :: cs => added_images cs

/-- The images of the texture under construction: those accepted since the
last call of `rucksack_texture_create` in the log. -/
def current_texture_images (calls : List Call) : List RuckSackImage :=
  calls.foldl
    (fun acc c =>
      match c with
      | Call.texture_create _ => []
      | Call.texture_add_image image err => if err = 0 then acc ++ [image] else acc
      | _ => acc)
    []

/-- The maximum of `base` and the source mtimes of a list of images. -/
def max_mtime {B E : Type} (L : Lib B E) (base : Int) (images : List RuckSackImage) : Int :=
  images.foldl (fun m image => max m (stat_mtime L image.path)) base

/-- The events of a manifest with two textures, `t1` with the image `a.png`
and `t2` with the image `b.png`, up to the point where `t2` is about to
close. -/
def two_texture_events : List Event :=
  [Event.begin_value LaxJsonType.LaxJsonTypeObject,
   Event.string LaxJsonType.LaxJsonTypeProperty "textures",
   Event.begin_value LaxJsonType.LaxJsonTypeObject,
   Event.string LaxJsonType.LaxJsonTypeProperty "t1",
   Event.begin_value LaxJsonType.LaxJsonTypeObject,
   Event.string LaxJsonType.LaxJsonTypeProperty "images",
   Event.begin_value LaxJsonType.LaxJsonTypeObject,
   Event.string LaxJsonType.LaxJsonTypeProperty "a",
   Event.begin_value LaxJsonType.LaxJsonTypeObject,
   Event.string LaxJsonType.LaxJsonTypeProperty "path",
   Event.string LaxJsonType.LaxJsonTypeString "a.png",
   Event.end_value LaxJsonType.LaxJsonTypeObject,
   Event.end_value LaxJsonType.LaxJsonTypeObject,
   Event.end_value LaxJsonType.LaxJsonTypeObject,
   Event.string LaxJsonType.LaxJsonTypeProperty "t2",
   Event.begin_value LaxJsonType.LaxJsonTypeObject,
   Event.string LaxJsonType.LaxJsonTypeProperty "images",
   Event.begin_value LaxJsonType.LaxJsonTypeObject,
   Event.string LaxJsonType.LaxJsonTypeProperty "b",
   Event.begin_value LaxJsonType.LaxJsonTypeObject,
   Event.string LaxJsonType.LaxJsonTypeProperty "path",
   Event.string LaxJsonType.LaxJsonTypeString "b.png",
   Event.end_value LaxJsonType.LaxJsonTypeObject,
   Event.end_value LaxJsonType.LaxJsonTypeObject]

/-- The invariant behind `latest_mtime`: it is the maximum of 0 and the source
mtimes of all images accepted so far. -/
def mtime_invariant {B E : Type} (L : Lib B E) (d : Driver B) : Prop :=
  d.latest_mtime = max_mtime L 0 (added_images d.calls)

/-- The events of a manifest whose texture `t` has one image `a` with the
anchor object x = 3, y = 7 and the path `a.png`, up to the end of the image
object. -/
def anchor_object_events : List Event :=
  [Event.begin_value LaxJsonType.LaxJsonTypeObject,
   Event.string LaxJsonType.LaxJsonTypeProperty "textures",
   Event.begin_value LaxJsonType.LaxJsonTypeObject,
   Event.string LaxJsonType.LaxJsonTypeProperty "t",
   Event.begin_value LaxJsonType.LaxJsonTypeObject,
   Event.string LaxJsonType.LaxJsonTypeProperty "images",
   Event.begin_value LaxJsonType.LaxJsonTypeObject,
   Event.string LaxJsonType.LaxJsonTypeProperty "a",
   Event.begin_value LaxJsonType.LaxJsonTypeObject,
   Event.string LaxJsonType.LaxJsonTypeProperty "anchor",
   Event.begin_value LaxJsonType.LaxJsonTypeObject,
   Event.string LaxJsonType.LaxJsonTypeProperty "x",
   Event.number 3,
   Event.string LaxJsonType.LaxJsonTypeProperty "y",
   Event.number 7,
   Event.end_value LaxJsonType.LaxJsonTypeObject,
   Event.string LaxJsonType.LaxJsonTypeProperty "path",
   Event.string LaxJsonType.LaxJsonTypeString "a.png",
   Event.end_value LaxJsonType.LaxJsonTypeObject]

/-- The three properties of a glob object. -/
inductive GlobPropName
  | glob_str
  | glob_path
  | glob_prefix
  deriving DecidableEq, Repr

/-- The manifest name of a glob property. -/
def GlobPropName.text : GlobPropName → String
  | GlobPropName.glob_str => "glob"
  | GlobPropName.glob_path => "path"
  | GlobPropName.glob_prefix => "prefix"

/-- The events of the properties of a glob object: for each property its name
and its string value. -/
def glob_prop_events : List (GlobPropName × String) → List Event
  | [] => []
  | (n, v) :: rest =>
    Event.string LaxJsonType.LaxJsonTypeProperty n.text ::
      Event.string LaxJsonType.LaxJsonTypeString v :: glob_prop_events rest

/-- The events of a glob object with the given properties and no other. -/
def glob_object_events (props : List (GlobPropName × String)) : List Event :=
  Event.begin_value LaxJsonType.LaxJsonTypeObject ::
    (glob_prop_events props ++ [Event.end_value LaxJsonType.LaxJsonTypeObject])

/-- The value a list of properties gives to one name: that of its last
occurrence, `init` when the name does not occur. -/
def assigned (n : GlobPropName) : List (GlobPropName × String) → Option String → Option String
  | [], init => init
  | (m, v) :: rest, init => assigned n rest (if m = n then some v else init)

/-- The events of the `path` properties of an image object. -/
def path_prop_events : List String → List Event
  | [] => []
  | p :: rest =>
    Event.string LaxJsonType.LaxJsonTypeProperty "path" ::
      Event.string LaxJsonType.LaxJsonTypeString p :: path_prop_events rest

/-- The nine anchor strings of the manifest format. -/
def anchor_strings : List String :=
  ["top", "right", "bottom", "left", "topleft", "topright", "bottomleft", "bottomright",
   "center"]

/-- Whether a path is a glob match that `perform_glob` hands to the callback:
`stat` succeeds on it and it is not a directory. -/
def is_file {B E : Type} (L : Lib B E) (path : String) : Bool :=
  match L.stat (some path) with
  | some st => !st.is_dir
  | none => false

/-- The invocations of the callback that a complete run of `perform_glob`
makes: one per match that is not a directory, in the order of `gl_pathv`, with
the key built from the key prefix and the path relative to the glob
directory. -/
def expected_invocations {B E : Type} (L : Lib B E) (d : Driver B) : List (CStr × String) :=
  ((L.glob (glob_pattern L d)).gl_pathv.filter (is_file L)).map
    (fun m => (glob_key L (glob_dir L d) ( use_glob_prefix d) m, m))

/-- The example filesystem with `b.txt` unreadable for the library. -/
def example_unreadable_world : ExampleWorld :=
  { example_world with unreadable := ["./b.txt"] }

/-- The events of a manifest with two glob objects in `globFiles`: the first
gives `glob` and `prefix`, the second gives no property at all. -/
def two_glob_events : List Event :=
  [Event.begin_value LaxJsonType.LaxJsonTypeObject,
   Event.string LaxJsonType.LaxJsonTypeProperty "globFiles",
   Event.begin_value LaxJsonType.LaxJsonTypeArray] ++
  glob_object_events [(GlobPropName.glob_str, "*.txt"), (GlobPropName.glob_prefix, "p/")] ++
  glob_object_events [] ++
  [Event.end_value LaxJsonType.LaxJsonTypeArray,
   Event.end_value LaxJsonType.LaxJsonTypeObject]

/-- The events of a manifest whose only glob object has a pattern that matches
nothing. -/
def no_match_events : List Event :=
  [Event.begin_value LaxJsonType.LaxJsonTypeObject,
   Event.string LaxJsonType.LaxJsonTypeProperty "globFiles",
   Event.begin_value LaxJsonType.LaxJsonTypeArray,
   Event.begin_value LaxJsonType.LaxJsonTypeObject,
   Event.string LaxJsonType.LaxJsonTypeProperty "glob",
   Event.string LaxJsonType.LaxJsonTypeString "*.none",
   Event.end_value LaxJsonType.LaxJsonTypeObject,
   Event.end_value LaxJsonType.LaxJsonTypeArray,
   Event.end_value LaxJsonType.LaxJsonTypeObject]

/-- The example filesystem with that manifest on `stdin`. -/
def example_no_match_world : ExampleWorld :=
  { example_world with stdin := { events := no_match_events, error := none } }

/-- The globals at the return of `command_bundle`, given the parser's result
`r` over the manifest's events and the globals `d1` the events left: the error
the parser or `lax_json_eof` reported, or the missing `StateDone`, goes through
`parse_error`. -/
def final_driver {B : Type} (m : Manifest) (r : Option LaxJsonError) (d1 : Driver B) :
    Driver B :=
  match r with
  | some err => (parse_error d1 (c_str (ERR_STR err))).2
  | none =>
    match m.error with
    | some err => (parse_error d1 (c_str (ERR_STR err))).2
    | none => if d1.state ≠ State.StateDone then (parse_error d1 "unexpected EOF").2 else d1

/-- The events of a manifest whose `files` object has the entries `b` and `a`,
in that order. -/
def two_file_events : List Event :=
  [Event.begin_value LaxJsonType.LaxJsonTypeObject,
   Event.string LaxJsonType.LaxJsonTypeProperty "files",
   Event.begin_value LaxJsonType.LaxJsonTypeObject,
   Event.string LaxJsonType.LaxJsonTypeProperty "b",
   Event.begin_value LaxJsonType.LaxJsonTypeObject,
   Event.string LaxJsonType.LaxJsonTypeProperty "path",
   Event.string LaxJsonType.LaxJsonTypeString "b.txt",
   Event.end_value LaxJsonType.LaxJsonTypeObject,
   Event.string LaxJsonType.LaxJsonTypeProperty "a",
   Event.begin_value LaxJsonType.LaxJsonTypeObject,
   Event.string LaxJsonType.LaxJsonTypeProperty "path",
   Event.string LaxJsonType.LaxJsonTypeString "a.txt",
   Event.end_value LaxJsonType.LaxJsonTypeObject,
   Event.end_value LaxJsonType.LaxJsonTypeObject,
   Event.end_value LaxJsonType.LaxJsonTypeObject]

/-- The example filesystem with `b.txt` unreadable and that manifest on
`stdin`. -/
def example_two_file_world : ExampleWorld :=
  { example_unreadable_world with stdin := { events := two_file_events, error := none } }

/-- The example filesystem with all files readable and that manifest on
`stdin`. -/
def example_two_file_ok_world : ExampleWorld :=
  { example_world with stdin := { events := two_file_events, error := none } }

/-- The events of a manifest that starts with an unknown top-level
property. -/
def unknown_property_events : List Event :=
  [Event.begin_value LaxJsonType.LaxJsonTypeObject,
   Event.string LaxJsonType.LaxJsonTypeProperty "bogus"]

/-- The example filesystem with that manifest on `stdin`. -/
def example_unknown_property_world : ExampleWorld :=
  { example_world with stdin := { events := unknown_property_events, error := none } }

/-- Whether `add_file_if_outdated` finds the file entry outdated: no entry
under the key, or a stored mtime below the source's. -/
def file_outdated {B E : Type} (L : Lib B E) (d : Driver B) (key : Option CStr)
    (path : Option String) : Prop :=
  L.rucksack_bundle_find_file d.bundle key = none ∨
  ∃ e, L.rucksack_bundle_find_file d.bundle key = some e ∧
    L.rucksack_file_mtime e < stat_mtime L path

/-- Whether `add_texture_if_outdated` finds the texture entry outdated: no
entry under the key, or a stored texture that fails one of the comparisons of
`up_to_date`. -/
def texture_outdated {B E : Type} (L : Lib B E) (d : Driver B) (key : Option CStr)
    (texture : RuckSackTexture) : Prop :=
  L.rucksack_bundle_find_file d.bundle key = none ∨
  ∃ e bundle_texture, L.rucksack_bundle_find_file d.bundle key = some e ∧
    L.rucksack_file_open_texture d.bundle e = some bundle_texture ∧
    ¬ (d.latest_mtime ≤ L.rucksack_file_mtime e ∧
       bundle_texture.max_width = texture.max_width ∧
       bundle_texture.max_height = texture.max_height ∧
       bundle_texture.allow_r90 = texture.allow_r90)

/-- The states in which the driver expects a property name. -/
def property_states : List State :=
  [State.StateTopLevelProp, State.StateTextureProp, State.StateImagePropName,
   State.StateFilePropName, State.StateGlobObjectProp, State.StateGlobImageObjectProp,
   State.StateImagePropAnchorObject]

/-- The property names the manifest format allows in each of these states (no
name elsewhere). -/
def allowed_properties : State → List String
  | State.StateTopLevelProp => ["textures", "files", "globFiles"]
  | State.StateTextureProp =>
    ["images", "globImages", "maxWidth", "maxHeight", "pow2", "allowRotate90"]
  | State.StateImagePropName => ["anchor", "path"]
  | State.StateFilePropName => ["path"]
  | State.StateGlobObjectProp => ["glob", "prefix", "path"]
  | State.StateGlobImageObjectProp => ["glob", "prefix", "path", "anchor"]
  | State.StateImagePropAnchorObject => ["x", "y"]
  | _ => []

/-- The example globals in the state `StateGlobImageObjectProp`. -/
def example_property_driver : Driver (List ExampleEntry) :=
  { example_driver [] with state := State.StateGlobImageObjectProp }

/-- The calls that complete an entry or expand a glob; the creation of an
empty texture is none of them. -/
def is_action : Call → Bool
  | Call.texture_create _ => false
  | Call.texture_add_image _ _ => true
  | Call.bundle_add_texture _ _ _ => true
  | Call.bundle_add_file _ _ _ => true
  | Call.glob _ => true

/-- The states in which `on_end` completes an entry. -/
def completion_states : List State :=
  [State.StateImagePropName, State.StateTextureProp, State.StateFilePropName,
   State.StateGlobObjectProp, State.StateGlobImageObjectProp]

/-- One coordinate of an anchor point object. -/
inductive AnchorCoord
  | x (value : Rat)
  | y (value : Rat)
  deriving DecidableEq, Repr

/-- An `AnchorSpec` of a manifest: a string, or an object of coordinates. -/
inductive AnchorSpec
  | named (value : String)
  | point (coords : List AnchorCoord)
  deriving DecidableEq, Repr

/-- One property of an `ImageSpec`. -/
inductive ImageProp
  | path (value : String)
  | anchor (a : AnchorSpec)
  deriving DecidableEq, Repr

/-- One property of a `GlobImageSpec`: one of the three of a `GlobSpec`, or
an anchor. -/
inductive GlobImageProp
  | glob (name : GlobPropName) (value : String)
  | anchor (a : AnchorSpec)
  deriving DecidableEq, Repr

/-- One property of a `TextureSpec`. -/
inductive TextureProp
  | maxWidth (n : Int)
  | maxHeight (n : Int)
  | pow2 (b : Bool)
  | allowRotate90 (b : Bool)
  | images (entries : List (String × List ImageProp))
  | globImages (entries : List (List GlobImageProp))
  deriving DecidableEq, Repr

/-- One property of the top-level object of a manifest; a file entry is its
key with the values of its `path` properties. -/
inductive TopProp
  | textures (entries : List (String × List TextureProp))
  | files (entries : List (String × List String))
  | globFiles (entries : List (List (GlobPropName × String)))
  deriving DecidableEq, Repr

/-- The events of a list of items, one item after the other. -/
def concat_events {α : Type} (f : α → List Event) : List α → List Event
  | [] => []
  | x :: xs => f x ++ concat_events f xs

/-- The events of a coordinate: its name and its number. -/
def AnchorCoord.events : AnchorCoord → List Event
  | AnchorCoord.x v => [Event.string LaxJsonType.LaxJsonTypeProperty "x", Event.number v]
  | AnchorCoord.y v => [Event.string LaxJsonType.LaxJsonTypeProperty "y", Event.number v]

/-- The events of the value of an `anchor` property. -/
def AnchorSpec.events : AnchorSpec → List Event
  | AnchorSpec.named value => [Event.string LaxJsonType.LaxJsonTypeString value]
  | AnchorSpec.point coords =>
    Event.begin_value LaxJsonType.LaxJsonTypeObject ::
      (concat_events AnchorCoord.events coords ++
        [Event.end_value LaxJsonType.LaxJsonTypeObject])

/-- The events of a property of an image object. -/
def ImageProp.events : ImageProp → List Event
  | ImageProp.path value =>
    [Event.string LaxJsonType.LaxJsonTypeProperty "path",
     Event.string LaxJsonType.LaxJsonTypeString value]
  | ImageProp.anchor a => Event.string LaxJsonType.LaxJsonTypeProperty "anchor" :: a.events

/-- The events of an entry of an `images` object: the key and the image
object. -/
def image_entry_events (entry : String × List ImageProp) : List Event :=
  Event.string LaxJsonType.LaxJsonTypeProperty entry.1 ::
    Event.begin_value LaxJsonType.LaxJsonTypeObject ::
      (concat_events ImageProp.events entry.2 ++
        [Event.end_value LaxJsonType.LaxJsonTypeObject])

/-- The events of a property of an object of a `globImages` array. -/
def GlobImageProp.events : GlobImageProp → List Event
  | GlobImageProp.glob name value =>
    [Event.string LaxJsonType.LaxJsonTypeProperty name.text,
     Event.string LaxJsonType.LaxJsonTypeString value]
  | GlobImageProp.anchor a => Event.string LaxJsonType.LaxJsonTypeProperty "anchor" :: a.events

/-- The events of an object of a `globImages` array. -/
def glob_image_entry_events (props : List GlobImageProp) : List Event :=
  Event.begin_value LaxJsonType.LaxJsonTypeObject ::
    (concat_events GlobImageProp.events props ++
      [Event.end_value LaxJsonType.LaxJsonTypeObject])

/-- The event of a `true` or `false`. -/
def bool_event (b : Bool) : Event :=
  Event.primitive (if b then LaxJsonType.LaxJsonTypeTrue else LaxJsonType.LaxJsonTypeFalse)

/-- The events of a property of a texture object. -/
def TextureProp.events : TextureProp → List Event
  | TextureProp.maxWidth n =>
    [Event.string LaxJsonType.LaxJsonTypeProperty "maxWidth", Event.number (n : Rat)]
  | TextureProp.maxHeight n =>
    [Event.string LaxJsonType.LaxJsonTypeProperty "maxHeight", Event.number (n : Rat)]
  | TextureProp.pow2 b => [Event.string LaxJsonType.LaxJsonTypeProperty "pow2", bool_event b]
  | TextureProp.allowRotate90 b =>
    [Event.string LaxJsonType.LaxJsonTypeProperty "allowRotate90", bool_event b]
  | TextureProp.images entries =>
    Event.string LaxJsonType.LaxJsonTypeProperty "images" ::
      Event.begin_value LaxJsonType.LaxJsonTypeObject ::
        (concat_events image_entry_events entries ++
          [Event.end_value LaxJsonType.LaxJsonTypeObject])
  | TextureProp.globImages entries =>
    Event.string LaxJsonType.LaxJsonTypeProperty "globImages" ::
      Event.begin_value LaxJsonType.LaxJsonTypeArray ::
        (concat_events glob_image_entry_events entries ++
          [Event.end_value LaxJsonType.LaxJsonTypeArray])

/-- The events of an entry of the `textures` object: the key and the texture
object. -/
def texture_entry_events (entry : String × List TextureProp) : List Event :=
  Event.string LaxJsonType.LaxJsonTypeProperty entry.1 ::
    Event.begin_value LaxJsonType.LaxJsonTypeObject ::
      (concat_events TextureProp.events entry.2 ++
        [Event.end_value LaxJsonType.LaxJsonTypeObject])

/-- The events of an entry of the `files` object: the key and the file
object. -/
def file_entry_events (entry : String × List String) : List Event :=
  Event.string LaxJsonType.LaxJsonTypeProperty entry.1 ::
    Event.begin_value LaxJsonType.LaxJsonTypeObject ::
      (path_prop_events entry.2 ++ [Event.end_value LaxJsonType.LaxJsonTypeObject])

/-- The events of a property of the top-level object. -/
def TopProp.events : TopProp → List Event
  | TopProp.textures entries =>
    Event.string LaxJsonType.LaxJsonTypeProperty "textures" ::
      Event.begin_value LaxJsonType.LaxJsonTypeObject ::
        (concat_events texture_entry_events entries ++
          [Event.end_value LaxJsonType.LaxJsonTypeObject])
  | TopProp.files entries =>
    Event.string LaxJsonType.LaxJsonTypeProperty "files" ::
      Event.begin_value LaxJsonType.LaxJsonTypeObject ::
        (concat_events file_entry_events entries ++
          [Event.end_value LaxJsonType.LaxJsonTypeObject])
  | TopProp.globFiles entries =>
    Event.string LaxJsonType.LaxJsonTypeProperty "globFiles" ::
      Event.begin_value LaxJsonType.LaxJsonTypeArray ::
        (concat_events glob_object_events entries ++
          [Event.end_value LaxJsonType.LaxJsonTypeArray])

/-- The events the parser delivers for the manifest whose top-level object
has the properties `props`. -/
def manifest_events (props : List TopProp) : List Event :=
  Event.begin_value LaxJsonType.LaxJsonTypeObject ::
    (concat_events TopProp.events props ++ [Event.end_value LaxJsonType.LaxJsonTypeObject])

/-- Whether an anchor is of the schema: a string is one of the nine anchor
strings. -/
def AnchorSpec.conforms : AnchorSpec → Bool
  | AnchorSpec.named value => decide (value ∈ anchor_strings)
  | AnchorSpec.point _ => true

/-- Whether the anchors of an image object are of the schema. -/
def ImageProp.conforms : ImageProp → Bool
  | ImageProp.path _ => true
  | ImageProp.anchor a => a.conforms

/-- Whether the anchors of a `globImages` object are of the schema. -/
def GlobImageProp.conforms : GlobImageProp → Bool
  | GlobImageProp.glob _ _ => true
  | GlobImageProp.anchor a => a.conforms

/-- Whether a number is an `int` of the C implementation. -/
def is_int (n : Int) : Bool := decide (-2147483648 ≤ n ∧ n ≤ 2147483647)

/-- Whether a property of a texture object is of the schema: the sizes are
`int`s, the anchors are of the schema. -/
def TextureProp.conforms : TextureProp → Bool
  | TextureProp.maxWidth n => is_int n
  | TextureProp.maxHeight n => is_int n
  | TextureProp.pow2 _ => true
  | TextureProp.allowRotate90 _ => true
  | TextureProp.images entries => entries.all (fun e => e.2.all ImageProp.conforms)
  | TextureProp.globImages entries => entries.all (fun e => e.all GlobImageProp.conforms)

/-- Whether a property of the top-level object is of the schema. -/
def TopProp.conforms : TopProp → Bool
  | TopProp.textures entries => entries.all (fun e => e.2.all TextureProp.conforms)
  | TopProp.files _ => true
  | TopProp.globFiles _ => true

/-- Every call of the library, of `malloc`, of `stat` and of `glob`
succeeds. -/
structure AllSucceed {B E : Type} (L : Lib B E) : Prop where
  texture_create : L.rucksack_texture_create ≠ none
  malloc : ∀ p, L.malloc_ok p = true
  add_image : ∀ t img, (L.rucksack_texture_add_image t img).1 = 0
  add_file : ∀ b k p, (L.rucksack_bundle_add_file b k p).1 = 0
  add_texture : ∀ b k t, (L.rucksack_bundle_add_texture b k t).1 = 0
  open_texture : ∀ b e, L.rucksack_file_open_texture b e ≠ none
  glob : ∀ pattern, ∃ first rest, L.glob pattern = GlobOutcome.matched first rest
  stat : ∀ path, L.stat (some path) ≠ none
  close : ∀ b, L.rucksack_bundle_close b = 0

/-- The run of the events `es` from any globals that satisfy `P` delivers
every event, each callback returning 0, ends in globals that satisfy `Q`, and
leaves the error flag as it was. -/
def Accepts {B E : Type} (L : Lib B E) (P Q : Driver B → Prop) (es : List Event) : Prop :=
  ∀ d, P d → ∃ d1, feed L es d = some (none, d1) ∧ Q d1 ∧
    d1.parse_err_occurred = d.parse_err_occurred

/-- The globals are in the state `s`. -/
def in_state {B : Type} (s : State) (d : Driver B) : Prop := d.state = s

/-- The globals are in the state `s` with a texture open. -/
def in_texture {B : Type} (s : State) (d : Driver B) : Prop :=
  d.state = s ∧ d.texture ≠ none

/-- The globals are in the state `s` with a texture open, and the state to
return to after an anchor is `n`. -/
def in_anchor {B : Type} (s n : State) (d : Driver B) : Prop :=
  d.state = s ∧ d.anchor_next_state = n ∧ d.texture ≠ none

/-- A library and a filesystem in which every call succeeds: every pattern
matches one regular file, every file can be read, and an entry of the bundle
opens as a texture with the default settings. -/
def succeedingLib : Lib (List ExampleEntry) ExampleEntry :=
  { exampleLib example_world with
    rucksack_file_open_texture := fun _ _ =>
      some { max_width := 1024, max_height := 1024, pow2 := 1, allow_r90 := 1, images := [] },
    rucksack_bundle_add_file := fun b key _ =>
      (0, example_put b { name := cstr_bytes key, mtime := 1, texture := none }),
    rucksack_bundle_add_texture := fun b key t =>
      (0, example_put b { name := cstr_bytes key, mtime := 0, texture := some t }),
    rucksack_texture_add_image := fun t img => (0, { t with images := t.images ++ [img] }),
    stat := fun _ => some { st_mtime := 1, is_dir := false },
    glob := fun pattern => GlobOutcome.matched (pattern ++ ".match") [] }

/-- A manifest with every kind of entry: a texture with settings, an image
with an anchor point, a `globImages` object with an anchor string, a file, a
`globFiles` object, and an empty `textures` object. -/
def example_manifest : List TopProp :=
  [TopProp.textures
     [("t",
       [TextureProp.maxWidth 512, TextureProp.pow2 false,
        TextureProp.images
          [("a", [ImageProp.path "a.png",
                  ImageProp.anchor (AnchorSpec.point [AnchorCoord.x 1, AnchorCoord.y 2])])],
        TextureProp.globImages
          [[GlobImageProp.glob GlobPropName.glob_str "*.png",
            GlobImageProp.anchor (AnchorSpec.named "top")]]])],
   TopProp.files [("f", ["f.txt"])],
   TopProp.globFiles [[(GlobPropName.glob_str, "*")]],
   TopProp.textures []]

/-! ## The `cat` and `ls` commands -/

/-- Modelled from the spec: a page of the packer's output as the texture entry
of `rucksack.c`, missing from the sources, stores it: its dimensions and its
encoded composite. -/
structure Page where
  width : Nat
  height : Nat
  encoded : List UInt8
  deriving DecidableEq, Repr

/-- Modelled from the spec: an image record of the texture entry of
`rucksack.c`, missing from the sources: the page, the rectangle, the rotation
flag, the anchor kind (0 to 9), the two anchor coordinates as the bit patterns
of their `f32`, and the bytes of the key. -/
structure ImageRecord where
  page_index : Nat
  x : Nat
  y : Nat
  w : Nat
  h : Nat
  rotated : Bool
  anchor_kind : Nat
  anchor_x : Nat
  anchor_y : Nat
  key : List UInt8
  deriving DecidableEq, Repr

/-- Modelled from the spec: the texture entry of `rucksack.c`, missing from the
sources, as it is serialized and as `file_open_texture` yields it: the four
settings, the pages and the image records. -/
structure TextureEntry where
  max_width : Nat
  max_height : Nat
  pow2 : Bool
  allow_r90 : Bool
  pages : List Page
  images : List ImageRecord
  deriving DecidableEq, Repr

/-- Modelled from the spec: the magic of the texture entry of `rucksack.c`,
missing from the sources: the four characters RSTX read as a little-endian
`u32`. -/
def TEXTURE_MAGIC : Nat := 0x58545352

/-- Modelled from the spec: the version of the texture entry of `rucksack.c`,
missing from the sources. -/
def TEXTURE_VERSION : Nat := 1

/-- Modelled from the spec: a `u32` of the texture entry of `rucksack.c`,
missing from the sources, little-endian. -/
def u32_le (n : Nat) : List UInt8 :=
  [UInt8.ofNat (n % 256), UInt8.ofNat (n / 256 % 256), UInt8.ofNat (n / 65536 % 256),
   UInt8.ofNat (n / 16777216 % 256)]

/-- Modelled from the spec: a `u8` flag (0/1) of the texture entry of
`rucksack.c`, missing from the sources. -/
def u8_flag (b : Bool) : List UInt8 := [if b then 1 else 0]

/-- Modelled from the spec: the items of a counted array of the texture entry
of `rucksack.c`, missing from the sources, one after the other. -/
def concat_bytes {α : Type} (f : α → List UInt8) : List α → List UInt8
  | [] => []
  | x :: xs => f x ++ concat_bytes f xs

/-- Modelled from the spec: the page header of the texture entry of
`rucksack.c`, missing from the sources: width, height, encoded length. -/
def encode_page_header (p : Page) : List UInt8 :=
  u32_le p.width ++ u32_le p.height ++ u32_le p.encoded.length

/-- Modelled from the spec: the serialized image record of the texture entry
of `rucksack.c`, missing from the sources, in the field order of section
4.3. -/
def encode_image (r : ImageRecord) : List UInt8 :=
  u32_le r.page_index ++ u32_le r.x ++ u32_le r.y ++ u32_le r.w ++ u32_le r.h ++
    u8_flag r.rotated ++ [UInt8.ofNat r.anchor_kind] ++ u32_le r.anchor_x ++
    u32_le r.anchor_y ++ u32_le r.key.length ++ r.key

/-- Modelled from the spec: the serialized form of a texture entry of
`rucksack.c`, missing from the sources (section 4.3). -/
def texture_encode (t : TextureEntry) : List UInt8 :=
  u32_le TEXTURE_MAGIC ++ u32_le TEXTURE_VERSION ++ u32_le t.max_width ++
    u32_le t.max_height ++ u8_flag t.pow2 ++ u8_flag t.allow_r90 ++ u32_le t.pages.length ++
    concat_bytes encode_page_header t.pages ++ u32_le t.images.length ++
    concat_bytes encode_image t.images ++ concat_bytes (fun p => p.encoded) t.pages

/-- Modelled from the spec: reading a `u32` of the texture entry of
`rucksack.c`, missing from the sources; the result is the value and the bytes
after it. -/
def read_u32 : List UInt8 → Option (Nat × List UInt8)
  | b0 :: b1 :: b2 :: b3 :: rest =>
    some (b0.toNat + 256 * b1.toNat + 65536 * b2.toNat + 16777216 * b3.toNat, rest)
  | _ => none

/-- Modelled from the spec: reading a `u8` of the texture entry of
`rucksack.c`, missing from the sources. -/
def read_u8 : List UInt8 → Option (Nat × List UInt8)
  | b :: rest => some (b.toNat, rest)
  | [] => none

/-- Modelled from the spec: reading a `u8` flag of the texture entry of
`rucksack.c`, missing from the sources; any non-zero byte counts as set. -/
def read_flag : List UInt8 → Option (Bool × List UInt8)
  | b :: rest => some (decide (b ≠ 0), rest)
  | [] => none

/-- Modelled from the spec: reading `n` bytes of the texture entry of
`rucksack.c`, missing from the sources. -/
def read_bytes (n : Nat) (bytes : List UInt8) : Option (List UInt8 × List UInt8) :=
  if n ≤ bytes.length then some (bytes.take n, bytes.drop n) else none

/-- Modelled from the spec: reading a counted array of the texture entry of
`rucksack.c`, missing from the sources. -/
def read_many {α : Type} (p : List UInt8 → Option (α × List UInt8)) :
    Nat → List UInt8 → Option (List α × List UInt8)
  | 0, bytes => some ([], bytes)
  | n + 1, bytes =>
    match p bytes with
    | none => none
    | some (x, rest) =>
      match read_many p n rest with
      | none => none
      | some (xs, rest2) => some (x :: xs, rest2)

/-- Modelled from the spec: reading a page header of the texture entry of
`rucksack.c`, missing from the sources; the page has no bytes yet, the third
component is its encoded length. -/
def read_page_header (bytes : List UInt8) : Option ((Nat × Nat × Nat) × List UInt8) :=
  match read_u32 bytes with
  | none => none
  | some (width, r1) =>
    match read_u32 r1 with
    | none => none
    | some (height, r2) =>
      match read_u32 r2 with
      | none => none
      | some (encoded_len, r3) => some ((width, height, encoded_len), r3)

/-- Modelled from the spec: reading an image record of the texture entry of
`rucksack.c`, missing from the sources. -/
def read_image (bytes : List UInt8) : Option (ImageRecord × List UInt8) :=
  match read_u32 bytes with
  | none => none
  | some (page_index, r1) =>
  match read_u32 r1 with
  | none => none
  | some (x, r2) =>
  match read_u32 r2 with
  | none => none
  | some (y, r3) =>
  match read_u32 r3 with
  | none => none
  | some (w, r4) =>
  match read_u32 r4 with
  | none => none
  | some (h, r5) =>
  match read_flag r5 with
  | none => none
  | some (rotated, r6) =>
  match read_u8 r6 with
  | none => none
  | some (anchor_kind, r7) =>
  match read_u32 r7 with
  | none => none
  | some (anchor_x, r8) =>
  match read_u32 r8 with
  | none => none
  | some (anchor_y, r9) =>
  match read_u32 r9 with
  | none => none
  | some (key_len, r10) =>
  match read_bytes key_len r10 with
  | none => none
  | some (key, r11) =>
    some ({ page_index := page_index, x := x, y := y, w := w, h := h, rotated := rotated,
            anchor_kind := anchor_kind, anchor_x := anchor_x, anchor_y := anchor_y,
            key := key }, r11)

/-- Modelled from the spec: reading the encoded pages of the texture entry of
`rucksack.c`, missing from the sources, one per page header. -/
def read_pages : List (Nat × Nat × Nat) → List UInt8 → Option (List Page × List UInt8)
  | [], bytes => some ([], bytes)
  | (width, height, encoded_len) :: rest, bytes =>
    match read_bytes encoded_len bytes with
    | none => none
    | some (encoded, r1) =>
      match read_pages rest r1 with
      | none => none
      | some (pages, r2) =>
        some ({ width := width, height := height, encoded := encoded } :: pages, r2)

/-- Modelled from the spec: deserializing a texture entry of `rucksack.c`,
missing from the sources; `none` stands for `BadFormat`: a mismatched magic or
version, or a payload that ends early. -/
def texture_decode (bytes : List UInt8) : Option TextureEntry :=
  match read_u32 bytes with
  | none => none
  | some (magic, r1) =>
  match read_u32 r1 with
  | none => none
  | some (version, r2) =>
  if magic ≠ TEXTURE_MAGIC ∨ version ≠ TEXTURE_VERSION then none
  else
  match read_u32 r2 with
  | none => none
  | some (max_width, r3) =>
  match read_u32 r3 with
  | none => none
  | some (max_height, r4) =>
  match read_flag r4 with
  | none => none
  | some (pow2, r5) =>
  match read_flag r5 with
  | none => none
  | some (allow_r90, r6) =>
  match read_u32 r6 with
  | none => none
  | some (page_count, r7) =>
  match read_many read_page_header page_count r7 with
  | none => none
  | some (headers, r8) =>
  match read_u32 r8 with
  | none => none
  | some (image_count, r9) =>
  match read_many read_image image_count r9 with
  | none => none
  | some (images, r10) =>
  match read_pages headers r10 with
  | none => none
  | some (pages, _) =>
    some { max_width := max_width, max_height := max_height, pow2 := pow2,
           allow_r90 := allow_r90, pages := pages, images := images }

/-- Modelled from the spec: whether a number fits a `u32` field of the texture
entry of `rucksack.c`, missing from the sources. -/
def fits_u32 (n : Nat) : Bool := decide (n < 4294967296)

/-- Modelled from the spec: whether every field of a page fits its width in
the texture entry of `rucksack.c`, missing from the sources. -/
def Page.fits (p : Page) : Bool :=
  fits_u32 p.width && fits_u32 p.height && fits_u32 p.encoded.length

/-- Modelled from the spec: whether every field of an image record fits its
width in the texture entry of `rucksack.c`, missing from the sources. -/
def ImageRecord.fits (r : ImageRecord) : Bool :=
  fits_u32 r.page_index && fits_u32 r.x && fits_u32 r.y && fits_u32 r.w && fits_u32 r.h &&
    decide (r.anchor_kind < 256) && fits_u32 r.anchor_x && fits_u32 r.anchor_y &&
    fits_u32 r.key.length

/-- Modelled from the spec: whether every field and count of a texture entry
fits its width in the serialized form of `rucksack.c`, missing from the
sources. -/
def TextureEntry.fits (t : TextureEntry) : Bool :=
  fits_u32 t.max_width && fits_u32 t.max_height && fits_u32 t.pages.length &&
    t.pages.all Page.fits && fits_u32 t.images.length && t.images.all ImageRecord.fits

/-- Modelled from the spec: an image as `rucksack_texture_add_image` of
`rucksack.c`, missing from the sources, takes it into a texture: the bytes of
its key, its intrinsic width and height (the decoded pixel dimensions), its
anchor, and the mtime of its source. -/
structure SourceImage where
  key : List UInt8
  width : Nat
  height : Nat
  anchor_kind : Nat
  anchor_x : Nat
  anchor_y : Nat
  mtime : Nat
  deriving DecidableEq, Repr

/-- Modelled from the spec: a texture under construction in `rucksack.c`,
missing from the sources: the four settings and the images added so far. -/
structure Texture where
  max_width : Nat
  max_height : Nat
  pow2 : Bool
  allow_r90 : Bool
  images : List SourceImage
  deriving DecidableEq, Repr

/-- Modelled from the spec: `rucksack_texture_create` of `rucksack.c`, missing
from the sources: the default settings and no image. -/
def texture_create : Texture :=
  { max_width := 1024, max_height := 1024, pow2 := true, allow_r90 := true, images := [] }

/-- Modelled from the spec: `rucksack_texture_add_image` of `rucksack.c`,
missing from the sources, on an image that decodes. -/
def texture_add_image (t : Texture) (img : SourceImage) : Texture :=
  { t with images := t.images ++ [img] }

/-- Modelled from the spec: the placement the packer of `rucksack.c`, missing
from the sources, gives a rectangle. -/
structure Placement where
  page_index : Nat
  x : Nat
  y : Nat
  rotated : Bool
  deriving DecidableEq, Repr

/-- Modelled from the spec: the output of the packer and the image codec of
`rucksack.c`, missing from the sources: the encoded pages, and for each
rectangle, in the order of the input, its placement. -/
structure Packing where
  pages : List Page
  placements : List Placement
  deriving DecidableEq, Repr

/-- Modelled from the spec: the image record `rucksack.c`, missing from the
sources, writes for an image and its placement: `w` and `h` are the image's
width and height, which reflect the decoded pixel dimensions; the rotation
flag tells that the placement swaps them on the page. -/
def image_record (img : SourceImage) (pl : Placement) : ImageRecord :=
  { page_index := pl.page_index, x := pl.x, y := pl.y, w := img.width, h := img.height,
    rotated := pl.rotated, anchor_kind := img.anchor_kind, anchor_x := img.anchor_x,
    anchor_y := img.anchor_y, key := img.key }

/-- Modelled from the spec: the order of keys by which the writer of
`rucksack.c`, missing from the sources, sorts image records: bytewise
lexicographic. -/
def key_le : List UInt8 → List UInt8 → Bool
  | [], _ => true
  | _ :: _, [] => false
  | a :: as, b :: bs =>
    if a.toNat < b.toNat then true else if b.toNat < a.toNat then false else key_le as bs

/-- Modelled from the spec: the texture entry `rucksack.c`, missing from the
sources, serializes for a texture and the packer's output: the settings, the
pages, and the image records sorted by key. -/
def texture_entry (t : Texture) (p : Packing) : TextureEntry :=
  { max_width := t.max_width, max_height := t.max_height, pow2 := t.pow2,
    allow_r90 := t.allow_r90, pages := p.pages,
    images := (List.zipWith image_record t.images p.placements).insertionSort
      (fun a b => key_le a.key b.key = true) }

/-- Modelled from the spec: the maximum of the source image mtimes of a
texture of `rucksack.c`, missing from the sources. -/
def texture_mtime (t : Texture) : Nat :=
  t.images.foldl (fun m img => max m img.mtime) 0

/-- Modelled from the spec: the failures of `add_texture` of `rucksack.c`,
missing from the sources. -/
inductive TextureError
  | CannotFit
  | KeyTooLong
  deriving DecidableEq, Repr

/-- Modelled from the spec: `add_texture(key, texture)` of `rucksack.c`,
missing from the sources, over the packer `pack`: serializes the texture, then
inserts or replaces an entry of kind texture with the maximum of the source
image mtimes. -/
def bundle_add_texture (pack : Texture → Option Packing) (b : Bundle) (key : String)
    (t : Texture) : Except TextureError Bundle :=
  if KEY_LIMIT < key.utf8ByteSize then Except.error TextureError.KeyTooLong
  else
    match pack t with
    | none => Except.error TextureError.CannotFit
    | some p =>
      Except.ok
        (bundle_put b key EntryKind.texture (texture_mtime t)
          (texture_encode (texture_entry t p)))

/-- Modelled from the spec: `file_open_texture(entry)` of `rucksack.c`,
missing from the sources: reads the entry and deserializes it. -/
def file_open_texture (b : Bundle) (e : Entry) : Except BundleError TextureEntry :=
  match file_read b e with
  | Except.error err => Except.error err
  | Except.ok bytes =>
    match texture_decode bytes with
    | none => Except.error BundleError.BadFormat
    | some t => Except.ok t

/-- Modelled from the spec: `rucksack_texture_image_count` of `rucksack.c`,
missing from the sources. -/
def texture_image_count (t : TextureEntry) : Nat := t.images.length

/-- Modelled from the spec: `rucksack_texture_get_images` of `rucksack.c`,
missing from the sources. -/
def texture_get_images (t : TextureEntry) : List ImageRecord := t.images

/-- A packer for the examples: one page of 32 by 32 with three encoded bytes,
the image of index `i` at (8 i, 0), unrotated. -/
def example_pack (t : Texture) : Option Packing :=
  some { pages := [{ width := 32, height := 32, encoded := [1, 2, 3] }],
         placements := (List.range t.images.length).map
           (fun i => { page_index := 0, x := 8 * i, y := 0, rotated := false }) }

/-- An image of the examples: the key `image` followed by a digit, no anchor
point, mtime 1000. -/
def example_source_image (digit : UInt8) (width height : Nat) : SourceImage :=
  { key := [105, 109, 97, 103, 101, digit], width := width, height := height,
    anchor_kind := 0, anchor_x := 0, anchor_y := 0, mtime := 1000 }

/-- The texture of `test_non_default_texture_props`: 256 by 128, no power of
two, no rotation, one image of 8 by 8. -/
def example_small_texture : Texture :=
  texture_add_image
    { texture_create with max_width := 256, max_height := 128, pow2 := false,
                          allow_r90 := false }
    (example_source_image 48 8 8)

/-- The images of `test_texture_packing`: 8 by 8, 16 by 16, 16 by 16 and 8 by
8, added in an order that is not the order of their keys. -/
def example_four_images : List SourceImage :=
  [example_source_image 49 16 16, example_source_image 48 8 8,
   example_source_image 51 8 8, example_source_image 50 16 16]

/-- The example filesystem with a pattern that matches the subdirectory
only. -/
def example_directory_world : ExampleWorld :=
  { example_world with globs := [("./s*", ["./sub"])] }

/-- The example globals at the end of a glob object whose pattern is `s*`. -/
def example_directory_driver : Driver (List ExampleEntry) :=
  { example_driver [] with state := State.StateGlobObjectProp, glob_glob := some "s*" }

/-- The texture `rucksack_texture_create` gives in the example library. -/
def example_default_texture : RuckSackTexture :=
  { max_width := 1024, max_height := 1024, pow2 := 1, allow_r90 := 1, images := [] }

/-- The example globals in `StateTextureMaxWidth` with that texture open. -/
def example_size_driver : Driver (List ExampleEntry) :=
  { example_driver [] with
    state := State.StateTextureMaxWidth, texture := some example_default_texture }

/-- The number 1/2. -/
def example_half : Rat := { num := 1, den := 2, den_nz := by decide, reduced := by decide }

/-- The states of the anchor sub-machine. -/
def anchor_states : List State :=
  [State.StateImagePropAnchor, State.StateImagePropAnchorObject, State.StateImagePropAnchorX,
   State.StateImagePropAnchorY]

/-- The anchor kind an anchor value stands for: that of its string, explicit
for an object. -/
def AnchorSpec.kind : AnchorSpec → RuckSackAnchor
  | AnchorSpec.named value => (anchor_of_string value).getD RuckSackAnchor.RuckSackAnchorCenter
  | AnchorSpec.point _ => RuckSackAnchor.RuckSackAnchorExplicit

/-- The globals are in the state `s`, the image has the anchor kind `A`, the
calls made are `c` and the texture is `t`. -/
def ready {B : Type} (s : State) (A : RuckSackAnchor) (c : List Call)
    (t : Option RuckSackTexture) (d : Driver B) : Prop :=
  d.state = s ∧ d.image.anchor = A ∧ d.calls = c ∧ d.texture = t

/-- As `ready`, inside the anchor sub-machine with the state `n` to return
to. -/
def anchored {B : Type} (s n : State) (A : RuckSackAnchor) (c : List Call)
    (t : Option RuckSackTexture) (d : Driver B) : Prop :=
  ready s A c t d ∧ d.anchor_next_state = n

/-- The states nested inside a texture object: those in which a callback
dereferences `texture`, and the states between them. -/
def in_texture_scope : State → Bool
  | State.StateExpectTextureObject => true
  | State.StateTextureProp => true
  | State.StateTextureMaxWidth => true
  | State.StateTextureMaxHeight => true
  | State.StateTexturePow2 => true
  | State.StateTextureAllowRotate90 => true
  | State.StateExpectImagesObject => true
  | State.StateImageName => true
  | State.StateImageObjectBegin => true
  | State.StateImagePropName => true
  | State.StateImagePropPath => true
  | State.StateImagePropAnchor => true
  | State.StateImagePropAnchorObject => true
  | State.StateImagePropAnchorX => true
  | State.StateImagePropAnchorY => true
  | State.StateExpectGlobImagesArray => true
  | State.StateGlobImageObject => true
  | State.StateGlobImageObjectProp => true
  | State.StateGlobImageValueGlob => true
  | State.StateGlobImageValuePath => true
  | State.StateGlobImageValuePrefix => true
  | _ => false

/-- The configurations the driver reaches from `d0`: those that callbacks
lead to, one event after the other, whatever they return. -/
inductive Reachable {B E : Type} (L : Lib B E) (d0 : Driver B) : Driver B → Prop
  | start : Reachable L d0 d0
  | step (d d1 : Driver B) (e : Event) (r : Int) :
      Reachable L d0 d → dispatch L d e = some (r, d1) → Reachable L d0 d1

/-- The events up to the begin of the texture object `t`. -/
def open_texture_events : List Event :=
  [Event.begin_value LaxJsonType.LaxJsonTypeObject,
   Event.string LaxJsonType.LaxJsonTypeProperty "textures",
   Event.begin_value LaxJsonType.LaxJsonTypeObject,
   Event.string LaxJsonType.LaxJsonTypeProperty "t",
   Event.begin_value LaxJsonType.LaxJsonTypeObject]

/-- The example globals after these events. -/
def example_open_texture_driver : Driver (List ExampleEntry) :=
  { example_driver [] with
    state := State.StateTextureProp,
    texture := some example_default_texture,
    texture_key := some "t",
    calls := [Call.texture_create true] }

/-- A filesystem in which `test.bundle` is a file of zero bytes, as
`test_empty_bundle` creates it. -/
def example_zero_byte_disk : Disk :=
  { bundles := fun p => if p = "test.bundle" then some DiskFile.zero_bytes else none,
    sources := fun _ => none }

/-! ## Staleness of files and textures -/

@[simp]
theorem verbose_print_calls {B : Type} (d : Driver B) (msg : CStr) :
    (verbose_print d msg).calls = d.calls := by
  unfold verbose_print; split <;> rfl

@[simp]
theorem verbose_print_bundle {B : Type} (d : Driver B) (msg : CStr) :
    (verbose_print d msg).bundle = d.bundle := by
  unfold verbose_print; split <;> rfl

@[simp]
theorem parse_error_fst {B : Type} (d : Driver B) (msg : CStr) :
    (parse_error d msg).1 = -1 := by
  unfold parse_error; split <;> rfl

@[simp]
theorem parse_error_calls {B : Type} (d : Driver B) (msg : CStr) :
    (parse_error d msg).2.calls = d.calls := by
  unfold parse_error; split <;> rfl

@[simp]
theorem parse_error_bundle {B : Type} (d : Driver B) (msg : CStr) :
    (parse_error d msg).2.bundle = d.bundle := by
  unfold parse_error; split <;> rfl

theorem add_file_call_calls {B E : Type} (L : Lib B E) (d : Driver B) (key : Option CStr)
    (path : Option String) :
    (add_file_call L d key path).2.calls =
      d.calls ++ [Call.bundle_add_file key path (L.rucksack_bundle_add_file d.bundle key path).1] ∧
    (add_file_call L d key path).2.bundle = (L.rucksack_bundle_add_file d.bundle key path).2 := by
  unfold add_file_call
  simp only []
  split <;> simp [log_call]

/-- C1. `add_file_if_outdated` calls `rucksack_bundle_add_file`, once and on
the given key and path, exactly when the bundle has no entry under the key or
the source's mtime is strictly greater than the stored entry's mtime; when the
entry exists and the source's mtime is at most the stored one (equality
included) it returns 0, makes no library call and leaves the bundle as it
was.  The source's mtime is the `st_mtime` that `stat` reports for the
path. -/
theorem add_file_if_outdated_calls_iff {B E : Type} (L : Lib B E) (d : Driver B)
    (key : Option CStr) (path : Option String) :
    (∀ st, L.stat path = some st → stat_mtime L path = st.st_mtime) ∧
    ((L.rucksack_bundle_find_file d.bundle key = none ∨
        ∃ e, L.rucksack_bundle_find_file d.bundle key = some e ∧
          L.rucksack_file_mtime e < stat_mtime L path) →
      (add_file_if_outdated L d key path).2.calls =
        d.calls ++
          [Call.bundle_add_file key path (L.rucksack_bundle_add_file d.bundle key path).1] ∧
      (add_file_if_outdated L d key path).2.bundle =
        (L.rucksack_bundle_add_file d.bundle key path).2) ∧
    (∀ e, L.rucksack_bundle_find_file d.bundle key = some e →
        stat_mtime L path ≤ L.rucksack_file_mtime e →
      (add_file_if_outdated L d key path).1 = 0 ∧
      (add_file_if_outdated L d key path).2.calls = d.calls ∧
      (add_file_if_outdated L d key path).2.bundle = d.bundle) := by
  refine ⟨?_, ?_, ?_⟩
  · intro st h
    simp [stat_mtime, h]
  · intro h
    unfold add_file_if_outdated
    rcases h with h | ⟨e, he, hlt⟩
    · simp only [h]
      simpa using
        add_file_call_calls L (verbose_print d (c_str "New file: " ++ cstr_bytes key)) key path
    · simp only [he, not_le.mpr hlt, if_false]
      simpa using
        add_file_call_calls L (verbose_print d (c_str "Updating file: " ++ cstr_bytes key)) key
          path
  · intro e he hle
    unfold add_file_if_outdated
    simp [he, hle]

/-- C2. The code at the failing input: the bundle stores a texture under the
key `tex` with mtime 10 and `pow2 = 1`; the new texture differs from it only
in `pow2 = 0`, and `latest_mtime` is 5.  `add_texture_if_outdated` returns 0,
makes no call of `rucksack_bundle_add_texture` and leaves the bundle as it was,
although a texture that differs only in `allow_r90` is replaced. -/
theorem add_texture_if_outdated_ignores_pow2 :
    (add_texture_if_outdated (exampleLib example_world)
        { example_driver example_texture_bundle with latest_mtime := 5 } (some "tex")
        { max_width := 1024, max_height := 1024, pow2 := 0, allow_r90 := 1, images := [] }).map
      (fun r => (r.1, r.2.calls, r.2.bundle)) = some (0, [], example_texture_bundle) ∧
    (add_texture_if_outdated (exampleLib example_world)
        { example_driver example_texture_bundle with latest_mtime := 5 } (some "tex")
        { max_width := 1024, max_height := 1024, pow2 := 1, allow_r90 := 0, images := [] }).map
      (fun r => (r.1, r.2.calls)) =
      some (0, [Call.bundle_add_texture (some "tex")
        { max_width := 1024, max_height := 1024, pow2 := 1, allow_r90 := 0, images := [] } 0]) := by
  constructor <;> rfl

/-! ## The bundle container: file round trip -/

theorem write_at_read (data : List UInt8) (offset : Nat) (payload : List UInt8) :
    offset + payload.length ≤ (write_at data offset payload).length ∧
    ((write_at data offset payload).drop offset).take payload.length = payload := by
  unfold write_at
  have hlen : (List.take offset (data ++ List.replicate (offset - data.length) 0)).length = offset := by
    rw [List.length_take, List.length_append, List.length_replicate]
    omega
  constructor
  · simp only [List.length_append, hlen]
    omega
  · rw [List.append_assoc, List.drop_append_of_le_length (by omega)]
    rw [List.drop_of_length_le (by omega)]
    simp

theorem find_replace_entry (key : String) (e1 : Entry) (h1 : e1.name = key) :
    ∀ (entries : List Entry) (e0 : Entry),
      entries.find? (fun e => e.name = key) = some e0 →
      (replace_entry key e1 entries).find? (fun e => e.name = key) = some e1
  | [], _, h => by simp at h
  | e :: es, e0, h => by
    unfold replace_entry
    by_cases hk : e.name = key
    · simp [hk, h1]
    · simp only [hk, if_false]
      rw [List.find?_cons_of_neg _ (by simpa using hk)] at h ⊢
      exact find_replace_entry key e1 h1 es e0 h

theorem allocate_capacity (free : List FreeRegion) (data : List UInt8) (n : Nat) :
    n ≤ (allocate free data n).2.1 := by
  unfold allocate
  split
  · rename_i r h
    have := List.find?_some h
    simpa using this
  · simp; omega

theorem le_live_end : ∀ (entries : List Entry) (e : Entry), e ∈ entries →
    e.offset + e.capacity ≤ live_end entries
  | [], _, h => by simp at h
  | x :: xs, e, h => by
    unfold live_end
    rcases List.mem_cons.mp h with h | h
    · subst h; exact le_max_left _ _
    · exact le_trans (le_live_end xs e h) (le_max_right _ _)

theorem bundle_put_entry (b : Bundle) (key : String) (kind : EntryKind) (mtime : Nat)
    (payload : List UInt8) :
    (bundle_put b key kind mtime payload).path = b.path ∧
    ∃ e, bundle_find (bundle_put b key kind mtime payload) key = some e ∧
      e.used = payload.length ∧ e.used ≤ e.capacity ∧
      e.offset + e.used ≤ (bundle_put b key kind mtime payload).data.length ∧
      ((bundle_put b key kind mtime payload).data.drop e.offset).take e.used = payload := by
  unfold bundle_put
  cases hf : bundle_find b key with
  | none =>
    refine ⟨rfl, Entry.mk key (allocate b.free b.data payload.length).1 payload.length
      (allocate b.free b.data payload.length).2.1 kind mtime, ?_, rfl,
      allocate_capacity _ _ _, ?_, ?_⟩
    · unfold bundle_find at hf ⊢
      simp only [List.find?_append, hf, Option.none_or]
      simp
    · exact (write_at_read _ _ _).1
    · exact (write_at_read _ _ _).2
  | some e0 =>
    have hname : e0.name = key := by
      have := List.find?_some hf
      simpa using this
    simp only []
    split
    · rename_i hfit
      refine ⟨rfl, Entry.mk e0.name e0.offset payload.length e0.capacity kind mtime, ?_, rfl,
        hfit, ?_, ?_⟩
      · refine find_replace_entry key _ ?_ _ e0 hf
        exact hname
      · exact (write_at_read _ _ _).1
      · exact (write_at_read _ _ _).2
    · refine ⟨rfl, Entry.mk e0.name
          (allocate (release b.free (FreeRegion.mk e0.offset e0.capacity)) b.data
            payload.length).1
          payload.length
          (allocate (release b.free (FreeRegion.mk e0.offset e0.capacity)) b.data
            payload.length).2.1
          kind mtime, ?_, rfl, allocate_capacity _ _ _, ?_, ?_⟩
      · refine find_replace_entry key _ ?_ _ e0 hf
        exact hname
      · exact (write_at_read _ _ _).1
      · exact (write_at_read _ _ _).2

theorem take_drop_take (data : List UInt8) (n offset len : Nat) (h : offset + len ≤ n) :
    ((data.take n).drop offset).take len = (data.drop offset).take len := by
  rw [List.drop_take, List.take_take]
  congr 1
  omega

/-- C3. File round trip, on the container modelled from the specification:
when `add_file(key, src)` succeeds on any bundle and `src` holds the bytes
`bytes`, then `find(key)` yields an entry, its `file_size` is the number of
bytes and `file_read` returns exactly `bytes`; and the same holds of the bundle
that `open` yields from the same path after `close`. -/
theorem file_round_trip (disk : Disk) (b b1 : Bundle) (key src : String) (mtime : Nat)
    (bytes : List UInt8) (hsrc : disk.sources src = some (mtime, bytes))
    (hadd : bundle_add_file disk b key src = Except.ok b1) :
    (∃ e, bundle_find b1 key = some e ∧ file_size e = bytes.length ∧
      file_read b1 e = Except.ok bytes) ∧
    (∃ b2 disk2 e, bundle_open (bundle_close disk b1) b1.path = Except.ok (b2, disk2) ∧
      bundle_find b2 key = some e ∧ file_size e = bytes.length ∧
      file_read b2 e = Except.ok bytes) := by
  unfold bundle_add_file at hadd
  split at hadd
  · cases hadd
  · rw [hsrc] at hadd
    simp only [Except.ok.injEq] at hadd
    subst hadd
    obtain ⟨_, e, hfind, hused, hcap, hlen, hread⟩ :=
      bundle_put_entry b key EntryKind.file mtime bytes
    have hmem : e ∈ (bundle_put b key EntryKind.file mtime bytes).entries :=
      List.mem_of_find?_eq_some hfind
    have hend := le_live_end _ e hmem
    refine ⟨⟨e, hfind, by simpa [file_size] using hused, ?_⟩, ?_⟩
    · unfold file_read
      rw [if_pos hlen, hread]
    · refine ⟨Bundle.mk (bundle_put b key EntryKind.file mtime bytes).path
          (bundle_put b key EntryKind.file mtime bytes).entries
          (free_complement (bundle_put b key EntryKind.file mtime bytes).entries
            (((bundle_put b key EntryKind.file mtime bytes).data.take
              (live_end (bundle_put b key EntryKind.file mtime bytes).entries)).length))
          ((bundle_put b key EntryKind.file mtime bytes).data.take
            (live_end (bundle_put b key EntryKind.file mtime bytes).entries)),
        bundle_close disk (bundle_put b key EntryKind.file mtime bytes), e, ?_, hfind,
        by simpa [file_size] using hused, ?_⟩
      · simp [bundle_open, bundle_close, disk_write]
      · unfold file_read
        simp only [List.length_take]
        rw [if_pos (by omega), take_drop_take _ _ _ _ (by omega), hread]

/-- C3 at a concrete input: the ten bytes of `blah.txt` added under the key
`blah` to a fresh bundle. -/
theorem file_round_trip_witness :
    example_disk.sources "../test/blah.txt" = some (1000, example_bytes) ∧
    bundle_add_file example_disk example_bundle "blah" "../test/blah.txt" =
      Except.ok (bundle_put example_bundle "blah" EntryKind.file 1000 example_bytes) ∧
    (∃ e, bundle_find (bundle_put example_bundle "blah" EntryKind.file 1000 example_bytes)
        "blah" = some e ∧ file_size e = example_bytes.length ∧
      file_read (bundle_put example_bundle "blah" EntryKind.file 1000 example_bytes) e =
        Except.ok example_bytes) ∧
    (∃ b2 disk2 e,
      bundle_open
        (bundle_close example_disk
          (bundle_put example_bundle "blah" EntryKind.file 1000 example_bytes))
        (bundle_put example_bundle "blah" EntryKind.file 1000 example_bytes).path =
        Except.ok (b2, disk2) ∧
      bundle_find b2 "blah" = some e ∧ file_size e = example_bytes.length ∧
      file_read b2 e = Except.ok example_bytes) :=
  ⟨rfl, rfl,
   file_round_trip example_disk example_bundle
     (bundle_put example_bundle "blah" EntryKind.file 1000 example_bytes) "blah"
     "../test/blah.txt" 1000 example_bytes rfl rfl⟩

/-! ## The accumulator `latest_mtime` -/

@[simp]
theorem parse_error_latest_mtime {B : Type} (d : Driver B) (msg : CStr) :
    (parse_error d msg).2.latest_mtime = d.latest_mtime := by
  unfold parse_error; split <;> rfl

@[simp]
theorem verbose_print_latest_mtime {B : Type} (d : Driver B) (msg : CStr) :
    (verbose_print d msg).latest_mtime = d.latest_mtime := by
  unfold verbose_print; split <;> rfl

theorem added_images_append (cs : List Call) (c : Call) :
    added_images (cs ++ [c]) = added_images cs ++ added_images [c] := by
  induction cs with
  | nil => simp [added_images]
  | cons x xs ih =>
    cases x <;> simp [added_images, ih]
    split <;> simp

theorem mtime_invariant_of_frame {B E : Type} (L : Lib B E) (d d1 : Driver B)
    (h : mtime_invariant L d) (h1 : d1.latest_mtime = d.latest_mtime)
    (h2 : added_images d1.calls = added_images d.calls) : mtime_invariant L d1 := by
  unfold mtime_invariant at *
  rw [h1, h2, h]

theorem on_string_frame {B E : Type} (L : Lib B E) (d d1 : Driver B) (t : LaxJsonType)
    (value : String) (r : Int) (h : on_string L d t value = some (r, d1)) :
    d1.latest_mtime = d.latest_mtime ∧ added_images d1.calls = added_images d.calls := by
  unfold on_string at h
  simp only [goto] at h
  repeat' split at h
  all_goals
    simp only [Option.some.injEq] at h
    have h2 := congrArg Prod.snd h
    simp only at h2
    subst h2
    simp [log_call, added_images_append, added_images]

theorem on_number_frame {B : Type} (d d1 : Driver B) (x : Rat) (r : Int)
    (h : on_number d x = some (r, d1)) :
    d1.latest_mtime = d.latest_mtime ∧ d1.calls = d.calls := by
  unfold on_number at h
  repeat' split at h
  all_goals
    first
    | (simp only [Option.some.injEq] at h
       have h2 := congrArg Prod.snd h
       simp only at h2
       subst h2
       simp)
    | simp at h

theorem on_primitive_frame {B : Type} (d d1 : Driver B) (t : LaxJsonType) (r : Int)
    (h : on_primitive d t = some (r, d1)) :
    d1.latest_mtime = d.latest_mtime ∧ d1.calls = d.calls := by
  unfold on_primitive at h
  repeat' split at h
  all_goals
    first
    | (simp only [Option.some.injEq] at h
       have h2 := congrArg Prod.snd h
       simp only at h2
       subst h2
       simp)
    | simp at h

theorem on_begin_frame {B : Type} (d d1 : Driver B) (t : LaxJsonType) (r : Int)
    (h : on_begin d t = some (r, d1)) :
    d1.latest_mtime = d.latest_mtime ∧ d1.calls = d.calls := by
  unfold on_begin at h
  simp only [goto] at h
  repeat' split at h
  all_goals
    first
    | (simp only [Option.some.injEq] at h
       have h2 := congrArg Prod.snd h
       simp only at h2
       subst h2
       simp)
    | simp at h

theorem glob_loop_preserves {B E : Type} (L : Lib B E)
    (cb : Driver B → CStr → String → Option (Int × Driver B)) (P : Driver B → Prop)
    (hpe : ∀ d msg, P d → P (parse_error d msg).2)
    (hcb : ∀ d key path r d1, P d → cb d key path = some (r, d1) → P d1)
    (strbuf3 pre : String) :
    ∀ (paths : List String) (d : Driver B) (r : Int) (d1 : Driver B), P d →
      (glob_loop L cb strbuf3 pre paths d).1 = some (r, d1) → P d1
  | [], d, r, d1, hd, h => by
    simp only [glob_loop, Option.some.injEq, Prod.mk.injEq] at h
    obtain ⟨_, rfl⟩ := h
    exact hd
  | path :: rest, d, r, d1, hd, h => by
    unfold glob_loop at h
    split at h
    · simp only [Option.some.injEq] at h
      have h2 := congrArg Prod.snd h
      simp only at h2
      subst h2
      exact hpe _ _ hd
    · split at h
      · exact glob_loop_preserves L cb P hpe hcb strbuf3 pre rest d r d1 hd h
      · split at h
        · simp at h
        · rename_i err d2 hc
          have hd2 := hcb _ _ _ _ _ hd hc
          split at h
          · simp only [Option.some.injEq, Prod.mk.injEq] at h
            obtain ⟨_, rfl⟩ := h
            exact hd2
          · exact glob_loop_preserves L cb P hpe hcb strbuf3 pre rest d2 r d1 hd2 h

theorem perform_glob_preserves {B E : Type} (L : Lib B E)
    (cb : Driver B → CStr → String → Option (Int × Driver B)) (P : Driver B → Prop)
    (hpe : ∀ d msg, P d → P (parse_error d msg).2)
    (hlog : ∀ d pattern, P d → P (log_call d (Call.glob pattern)))
    (hcb : ∀ d key path r d1, P d → cb d key path = some (r, d1) → P d1)
    (d : Driver B) (r : Int) (d1 : Driver B) (hd : P d)
    (h : perform_glob L cb d = some (r, d1)) : P d1 := by
  unfold perform_glob perform_glob_trace at h
  simp only at h
  split at h
  · simp only [Option.some.injEq] at h
    have h2 := congrArg Prod.snd h
    simp only at h2
    subst h2
    exact hpe _ _ (hlog _ _ hd)
  · simp only [Option.some.injEq] at h
    have h2 := congrArg Prod.snd h
    simp only at h2
    subst h2
    exact hpe _ _ (hlog _ _ hd)
  · simp only [Option.some.injEq] at h
    have h2 := congrArg Prod.snd h
    simp only at h2
    subst h2
    exact hpe _ _ (hlog _ _ hd)
  · exact glob_loop_preserves L cb P hpe hcb _ _ _ _ r d1 (hlog _ _ hd) h

@[simp]
theorem parse_error_image {B : Type} (d : Driver B) (msg : CStr) :
    (parse_error d msg).2.image = d.image := by
  unfold parse_error; split <;> rfl

theorem max_mtime_append {B E : Type} (L : Lib B E) (base : Int) (images : List RuckSackImage)
    (image : RuckSackImage) :
    max_mtime L base (images ++ [image]) =
      max (max_mtime L base images) (stat_mtime L image.path) := by
  simp [max_mtime, List.foldl_append]

theorem check_latest_mtime_spec {B E : Type} (L : Lib B E) (d : Driver B)
    (path : Option String) :
    (check_latest_mtime L d path).latest_mtime = max d.latest_mtime (stat_mtime L path) ∧
    (check_latest_mtime L d path).calls = d.calls ∧
    (check_latest_mtime L d path).image = d.image := by
  unfold check_latest_mtime
  simp only
  split
  · rename_i h
    refine ⟨?_, rfl, rfl⟩
    simp only
    rw [max_eq_right (le_of_lt h)]
  · rename_i h
    refine ⟨?_, rfl, rfl⟩
    rw [max_eq_left (not_lt.mp h)]

theorem texture_add_image_call_spec {B E : Type} (L : Lib B E) (d d1 : Driver B) (err : Int)
    (h : texture_add_image_call L d = some (err, d1)) :
    ∃ t, d.texture = some t ∧ d1.latest_mtime = d.latest_mtime ∧ d1.image = d.image ∧
      d1.calls =
        d.calls ++ [Call.texture_add_image d.image (L.rucksack_texture_add_image t d.image).1] ∧
      (err = 0 ↔ (L.rucksack_texture_add_image t d.image).1 = 0) := by
  unfold texture_add_image_call at h
  split at h
  · simp at h
  · rename_i t ht
    refine ⟨t, ht, ?_⟩
    simp only at h
    split at h
    · rename_i hne
      simp only [Option.some.injEq] at h
      have h1 := congrArg Prod.fst h
      have h2 := congrArg Prod.snd h
      simp only [parse_error_fst] at h1 h2
      subst h1 h2
      simp [log_call, hne]
    · rename_i hne
      simp only [Option.some.injEq, Prod.mk.injEq] at h
      obtain ⟨rfl, rfl⟩ := h
      simp only [ne_eq, not_not] at hne
      simp [log_call, hne]

theorem mtime_invariant_parse_error {B E : Type} (L : Lib B E) (d : Driver B) (msg : CStr)
    (h : mtime_invariant L d) : mtime_invariant L (parse_error d msg).2 :=
  mtime_invariant_of_frame L d _ h (by simp) (by simp)

theorem mtime_invariant_add_image {B E : Type} (L : Lib B E) (d d1 : Driver B) (err : Int)
    (hd : mtime_invariant L d) (h : texture_add_image_call L d = some (err, d1)) :
    (err ≠ 0 → mtime_invariant L d1) ∧
    (err = 0 → mtime_invariant L (check_latest_mtime L d1 d.image.path)) := by
  obtain ⟨t, _, hl, _, hc, herr⟩ := texture_add_image_call_spec L d d1 err h
  unfold mtime_invariant at *
  constructor
  · intro hne
    have : ¬ (L.rucksack_texture_add_image t d.image).1 = 0 := fun h0 => hne (herr.mpr h0)
    rw [hl, hc, added_images_append, hd]
    simp [added_images, this]
  · intro h0
    have h1 := herr.mp h0
    rw [(check_latest_mtime_spec L d1 _).1, (check_latest_mtime_spec L d1 _).2.1, hl, hc,
      added_images_append, hd]
    simp [added_images, h1, max_mtime_append]

theorem add_glob_match_to_texture_mtime_invariant {B E : Type} (L : Lib B E) (d d1 : Driver B)
    (key : CStr) (path : String) (r : Int) (hd : mtime_invariant L d)
    (h : add_glob_match_to_texture L d key path = some (r, d1)) : mtime_invariant L d1 := by
  unfold add_glob_match_to_texture at h
  simp only at h
  split at h
  · simp at h
  · rename_i err d2 hc
    have hinv := fun hd0 => mtime_invariant_add_image L _ d2 err hd0 hc
    replace hinv := hinv (mtime_invariant_of_frame L d _ hd rfl rfl)
    split at h
    · rename_i hne
      simp only [Option.some.injEq, Prod.mk.injEq] at h
      obtain ⟨_, rfl⟩ := h
      exact hinv.1 hne
    · rename_i hne
      simp only [ne_eq, not_not] at hne
      simp only [Option.some.injEq, Prod.mk.injEq] at h
      obtain ⟨_, rfl⟩ := h
      have h2 := hinv.2 hne
      unfold mtime_invariant at h2 ⊢
      simpa using h2

theorem add_file_call_frame {B E : Type} (L : Lib B E) (d : Driver B) (key : Option CStr)
    (path : Option String) :
    (add_file_call L d key path).2.latest_mtime = d.latest_mtime ∧
    added_images (add_file_call L d key path).2.calls = added_images d.calls := by
  unfold add_file_call
  simp only
  split <;> simp [log_call, added_images_append, added_images]

theorem add_file_if_outdated_frame {B E : Type} (L : Lib B E) (d : Driver B)
    (key : Option CStr) (path : Option String) :
    (add_file_if_outdated L d key path).2.latest_mtime = d.latest_mtime ∧
    added_images (add_file_if_outdated L d key path).2.calls = added_images d.calls := by
  unfold add_file_if_outdated
  split
  · simp only
    split
    · simp
    · simpa using add_file_call_frame L (verbose_print d _) key path
  · simpa using add_file_call_frame L (verbose_print d _) key path

theorem add_texture_call_frame {B E : Type} (L : Lib B E) (d : Driver B) (key : Option CStr)
    (texture : RuckSackTexture) :
    (add_texture_call L d key texture).2.latest_mtime = d.latest_mtime ∧
    added_images (add_texture_call L d key texture).2.calls = added_images d.calls := by
  unfold add_texture_call
  simp only
  split <;> simp [log_call, added_images_append, added_images]

theorem add_texture_if_outdated_frame {B E : Type} (L : Lib B E) (d d1 : Driver B)
    (key : Option CStr) (texture : RuckSackTexture) (r : Int)
    (h : add_texture_if_outdated L d key texture = some (r, d1)) :
    d1.latest_mtime = d.latest_mtime ∧ added_images d1.calls = added_images d.calls := by
  unfold add_texture_if_outdated at h
  split at h
  · split at h
    · simp at h
    · simp only at h
      split at h
      · simp only [Option.some.injEq, Prod.mk.injEq] at h
        obtain ⟨_, rfl⟩ := h
        simp
      · simp only [Option.some.injEq] at h
        have h2 := congrArg Prod.snd h
        simp only at h2
        subst h2
        simpa using add_texture_call_frame L (verbose_print d _) key texture
  · simp only [Option.some.injEq] at h
    have h2 := congrArg Prod.snd h
    simp only at h2
    subst h2
    simpa using add_texture_call_frame L (verbose_print d _) key texture

theorem on_end_mtime_invariant {B E : Type} (L : Lib B E) (d d1 : Driver B) (t : LaxJsonType)
    (r : Int) (hd : mtime_invariant L d) (h : on_end L d t = some (r, d1)) :
    mtime_invariant L d1 := by
  have hpe : ∀ (d : Driver B) (msg : CStr), mtime_invariant L d →
      mtime_invariant L (parse_error d msg).2 := mtime_invariant_parse_error L
  have hlog : ∀ (d : Driver B) (pattern : String), mtime_invariant L d →
      mtime_invariant L (log_call d (Call.glob pattern)) := fun d p hd =>
    mtime_invariant_of_frame L d _ hd rfl (by simp [log_call, added_images_append, added_images])
  unfold on_end at h
  simp only [goto] at h
  split at h
  case h_4 =>
    split at h
    · simp at h
    · rename_i err d2 hc
      have hinv := mtime_invariant_add_image L d d2 err hd hc
      have himg := (texture_add_image_call_spec L d d2 err hc).choose_spec.2.2.1
      split at h
      · rename_i hne
        simp only [Option.some.injEq, Prod.mk.injEq] at h
        obtain ⟨_, rfl⟩ := h
        exact hinv.1 hne
      · rename_i hne
        simp only [ne_eq, not_not] at hne
        simp only [Option.some.injEq, Prod.mk.injEq] at h
        obtain ⟨_, rfl⟩ := h
        have h2 := hinv.2 hne
        rw [← himg] at h2
        unfold mtime_invariant at h2 ⊢
        simpa using h2
  case h_5 =>
    have hf := add_file_if_outdated_frame L d d.file_key d.file_path
    split at h
    · simp only [Option.some.injEq] at h
      have h2 := congrArg Prod.snd h
      simp only at h2
      subst h2
      exact mtime_invariant_of_frame L d _ hd hf.1 hf.2
    · simp only [Option.some.injEq, Prod.mk.injEq] at h
      obtain ⟨_, rfl⟩ := h
      exact mtime_invariant_of_frame L d _ hd hf.1 hf.2
  case h_8 =>
    split at h
    · simp at h
    · split at h
      · simp at h
      · rename_i texture _ err d2 hc
        have hf := add_texture_if_outdated_frame L d d2 _ _ _ hc
        split at h
        · simp only [Option.some.injEq, Prod.mk.injEq] at h
          obtain ⟨_, rfl⟩ := h
          exact mtime_invariant_of_frame L d _ hd hf.1 hf.2
        · simp only [Option.some.injEq, Prod.mk.injEq] at h
          obtain ⟨_, rfl⟩ := h
          exact mtime_invariant_of_frame L d _ hd hf.1 hf.2
  case h_9 =>
    split at h
    · simp at h
    · rename_i err d2 hc
      have hd2 : mtime_invariant L d2 :=
        perform_glob_preserves L (add_glob_match_to_bundle L) (mtime_invariant L) hpe hlog
          (fun d key path r d1 hd h => by
            simp only [add_glob_match_to_bundle, Option.some.injEq] at h
            have h2 := congrArg Prod.snd h
            simp only at h2
            subst h2
            exact mtime_invariant_of_frame L d _ hd
              (add_file_if_outdated_frame L d _ _).1 (add_file_if_outdated_frame L d _ _).2)
          d err d2 hd hc
      split at h
      · simp only [Option.some.injEq, Prod.mk.injEq] at h
        obtain ⟨_, rfl⟩ := h
        exact hd2
      · simp only [Option.some.injEq, Prod.mk.injEq] at h
        obtain ⟨_, rfl⟩ := h
        exact mtime_invariant_of_frame L d2 _ hd2 rfl rfl
  case h_10 =>
    split at h
    · simp at h
    · rename_i err d2 hc
      have hd2 : mtime_invariant L d2 :=
        perform_glob_preserves L (add_glob_match_to_texture L) (mtime_invariant L) hpe hlog
          (fun d key path r d1 hd h =>
            add_glob_match_to_texture_mtime_invariant L d d1 key path r hd h)
          d err d2 hd hc
      split at h
      · simp only [Option.some.injEq, Prod.mk.injEq] at h
        obtain ⟨_, rfl⟩ := h
        exact hd2
      · simp only [Option.some.injEq, Prod.mk.injEq] at h
        obtain ⟨_, rfl⟩ := h
        exact mtime_invariant_of_frame L d2 _ hd2 rfl rfl
  all_goals
    simp only [Option.some.injEq] at h
    have h2 := congrArg Prod.snd h
    simp only at h2
    subst h2
    exact mtime_invariant_of_frame L d _ hd (by simp) (by simp)

theorem dispatch_mtime_invariant {B E : Type} (L : Lib B E) (d d1 : Driver B) (e : Event)
    (r : Int) (hd : mtime_invariant L d) (h : dispatch L d e = some (r, d1)) :
    mtime_invariant L d1 := by
  cases e with
  | string t v =>
    have hf := on_string_frame L d d1 t v r h
    exact mtime_invariant_of_frame L d d1 hd hf.1 hf.2
  | number x =>
    have hf := on_number_frame d d1 x r h
    exact mtime_invariant_of_frame L d d1 hd hf.1 (by rw [hf.2])
  | primitive t =>
    have hf := on_primitive_frame d d1 t r h
    exact mtime_invariant_of_frame L d d1 hd hf.1 (by rw [hf.2])
  | begin_value t =>
    have hf := on_begin_frame d d1 t r h
    exact mtime_invariant_of_frame L d d1 hd hf.1 (by rw [hf.2])
  | end_value t => exact on_end_mtime_invariant L d d1 t r hd h

theorem feed_preserves {B E : Type} (L : Lib B E) (P : Driver B → Prop)
    (hstep : ∀ d e r d1, P d → dispatch L d e = some (r, d1) → P d1) :
    ∀ (events : List Event) (d : Driver B) (r : Option LaxJsonError) (d1 : Driver B), P d →
      feed L events d = some (r, d1) → P d1
  | [], d, r, d1, hd, h => by
    simp only [feed, Option.some.injEq, Prod.mk.injEq] at h
    obtain ⟨_, rfl⟩ := h
    exact hd
  | e :: es, d, r, d1, hd, h => by
    unfold feed at h
    split at h
    · simp at h
    · rename_i r2 d2 hc
      have hd2 := hstep _ _ _ _ hd hc
      split at h
      · simp only [Option.some.injEq, Prod.mk.injEq] at h
        obtain ⟨_, rfl⟩ := h
        exact hd2
      · exact feed_preserves L P hstep es d2 r d1 hd2 h

/-- C4 (amended). In every configuration the driver reaches from its initial
globals, in particular when a texture object is about to close and
`add_texture_if_outdated` reads `latest_mtime`, `latest_mtime` is the maximum
of 0 and the source mtimes of all images the library has accepted so far in
the run, those of earlier textures included. -/
theorem latest_mtime_is_max_over_run {B E : Type} (L : Lib B E) (bundle : B)
    (image : RuckSackImage) (a : BundleArgs) (events : List Event) (r : Option LaxJsonError)
    (d : Driver B) (h : feed L events (initial_driver bundle image a) = some (r, d)) :
    d.latest_mtime = max_mtime L 0 (added_images d.calls) :=
  feed_preserves L (mtime_invariant L)
    (fun d e r d1 hd h => dispatch_mtime_invariant L d d1 e r hd h) events
    (initial_driver bundle image a) r d (show (0 : Int) = 0 from rfl) h

/-- C4, as stated, fails: in a manifest with the textures `t1` (image `a.png`,
mtime 100) and `t2` (image `b.png`, mtime 50), when `t2` is about to close the
only image added to it has mtime 50, yet `latest_mtime` is 100. -/
theorem latest_mtime_not_per_texture :
    (feed (exampleLib example_world) two_texture_events (example_driver [])).map
      (fun r => (r.1, r.2.state, r.2.texture_key, r.2.latest_mtime,
        (current_texture_images r.2.calls).map
          (fun i => (i.key, stat_mtime (exampleLib example_world) i.path)),
        max_mtime (exampleLib example_world) 0 (current_texture_images r.2.calls))) =
    some (none, State.StateTextureProp, some (c_str "t2"), 100, [(some (c_str "b"), 50)], 50) := by
  rfl

/-- C4 (amended) at a concrete input: the run over the manifest with two
textures, where `latest_mtime` ends at 100. -/
theorem latest_mtime_is_max_over_run_witness :
    ∃ r d, feed (exampleLib example_world) two_texture_events (example_driver []) = some (r, d) ∧
      d.latest_mtime = 100 ∧
      d.latest_mtime = max_mtime (exampleLib example_world) 0 (added_images d.calls) := by
  cases h : feed (exampleLib example_world) two_texture_events (example_driver []) with
  | none =>
    have hs : (feed (exampleLib example_world) two_texture_events
      (example_driver [])).isSome = true := rfl
    rw [h] at hs
    cases hs
  | some p =>
    have hl : ((feed (exampleLib example_world) two_texture_events
      (example_driver [])).map (fun r => r.2.latest_mtime)) = some 100 := rfl
    rw [h] at hl
    simp only [Option.map_some', Option.some.injEq] at hl
    exact ⟨p.1, p.2, rfl, hl,
      latest_mtime_is_max_over_run (exampleLib example_world) [] example_image _
        two_texture_events p.1 p.2 h⟩

/-! ## Anchors -/

/-- C5. The code at the failing input: for an image whose anchor is the
object x = 3, y = 7, the image handed to `rucksack_texture_add_image` has the
explicit anchor kind, but `anchor_x` is 7 and `anchor_y` is still the 0 the
image held before: `on_number` stores the y value into `anchor_x`. -/
theorem anchor_y_stored_in_anchor_x :
    (feed (exampleLib example_world) anchor_object_events (example_driver [])).map
      (fun r => (r.1, r.2.calls)) =
    some (none,
      [Call.texture_create true,
       Call.texture_add_image
         { path := some "./a.png", key := some "a", key_size := -1,
           anchor := RuckSackAnchor.RuckSackAnchorExplicit, anchor_x := 7, anchor_y := 0 } 0]) := by
  rfl

theorem feed_glob_props {B E : Type} (L : Lib B E) (rest : List Event) :
    ∀ (props : List (GlobPropName × String)) (d : Driver B),
      d.state = State.StateGlobObjectProp →
      feed L (glob_prop_events props ++ rest) d =
        feed L rest { d with
          glob_glob := assigned GlobPropName.glob_str props d.glob_glob,
          glob_path := assigned GlobPropName.glob_path props d.glob_path,
          glob_prefix := assigned GlobPropName.glob_prefix props d.glob_prefix }
  | [], d, _ => by simp [glob_prop_events, assigned]
  | (n, v) :: props, d, hs => by
    cases n <;>
    · simp only [glob_prop_events, List.cons_append, feed, dispatch, on_string, hs,
        GlobPropName.text, goto]
      simp only [String.reduceEq, if_true, if_false, ne_eq, not_true_eq_false,
        reduceCtorEq]
      refine (feed_glob_props L rest props _ rfl).trans ?_
      simp [assigned, hs]

theorem feed_glob_image_props {B E : Type} (L : Lib B E) (rest : List Event) :
    ∀ (props : List (GlobPropName × String)) (d : Driver B),
      d.state = State.StateGlobImageObjectProp →
      feed L (glob_prop_events props ++ rest) d =
        feed L rest { d with
          glob_glob := assigned GlobPropName.glob_str props d.glob_glob,
          glob_path := assigned GlobPropName.glob_path props d.glob_path,
          glob_prefix := assigned GlobPropName.glob_prefix props d.glob_prefix }
  | [], d, _ => by simp [glob_prop_events, assigned]
  | (n, v) :: props, d, hs => by
    cases n <;>
    · simp only [glob_prop_events, List.cons_append, feed, dispatch, on_string, hs,
        GlobPropName.text, goto]
      simp only [String.reduceEq, if_true, if_false, ne_eq, not_true_eq_false,
        reduceCtorEq]
      refine (feed_glob_image_props L rest props _ rfl).trans ?_
      simp [assigned, hs]
@[simp]
theorem parse_error_state {B : Type} (d : Driver B) (msg : CStr) :
    (parse_error d msg).2.state = d.state := by
  unfold parse_error; split <;> rfl

@[simp]
theorem parse_error_latched {B : Type} (d : Driver B) (msg : CStr) :
    (parse_error d msg).2.parse_err_occurred = true := by
  unfold parse_error; split
  · rename_i h; simpa using h
  · rfl

theorem glob_loop_invocations {B E : Type} (L : Lib B E)
    (cb : Driver B → CStr → String → Option (Int × Driver B)) (strbuf3 pre : String) :
    ∀ (paths : List String) (d : Driver B),
      (glob_loop L cb strbuf3 pre paths d).2 <+:
        (paths.filter (is_file L)).map (fun m => (glob_key L strbuf3 pre m, m)) ∧
      (∀ d1, (glob_loop L cb strbuf3 pre paths d).1 = some (0, d1) →
        (glob_loop L cb strbuf3 pre paths d).2 =
          (paths.filter (is_file L)).map (fun m => (glob_key L strbuf3 pre m, m)))
  | [], d => by simp [glob_loop]
  | path :: rest, d => by
    unfold glob_loop
    cases hst : L.stat (some path) with
    | none =>
      simp only [List.nil_prefix, true_and]
      intro d1 h
      simp only [Option.some.injEq] at h
      have h1 := congrArg Prod.fst h
      simp at h1
    | some st =>
      simp only
      by_cases hdir : st.is_dir = true
      · have hf : is_file L path = false := by simp [is_file, hst, hdir]
        simp only [hdir, if_true, List.filter_cons, hf]
        exact glob_loop_invocations L cb strbuf3 pre rest d
      · have hdir2 : st.is_dir = false := by simpa using hdir
        have hf : is_file L path = true := by simp [is_file, hst, hdir2]
        simp only [hdir2, Bool.false_eq_true, if_false, List.filter_cons, hf, if_true,
          List.map_cons]
        cases hc : cb d (glob_key L strbuf3 pre path) path with
        | none =>
          simp only
          constructor
          · simp [List.prefix_cons_iff]
          · intro d1 h
            simp at h
        | some p =>
          obtain ⟨err, d2⟩ := p
          simp only
          by_cases he : err = 0
          · subst he
            simp only [ne_eq, not_true_eq_false, if_false]
            have ih := glob_loop_invocations L cb strbuf3 pre rest d2
            constructor
            · exact (List.prefix_cons_inj _).mpr ih.1
            · intro d1 h
              rw [ih.2 d1 h]
          · simp only [ne_eq, he, not_false_eq_true, if_true]
            constructor
            · simp [List.prefix_cons_iff]
            · intro d1 h
              simp only [Option.some.injEq, Prod.mk.injEq] at h
              exact absurd h.1 he

theorem perform_glob_trace_invocations {B E : Type} (L : Lib B E)
    (cb : Driver B → CStr → String → Option (Int × Driver B)) (d : Driver B) :
    (perform_glob_trace L cb d).2 <+: expected_invocations L d ∧
    (∀ d1, perform_glob L cb d = some (0, d1) →
      (perform_glob_trace L cb d).2 = expected_invocations L d) := by
  unfold perform_glob perform_glob_trace expected_invocations
  simp only
  cases hg : L.glob (glob_pattern L d) with
  | GLOB_NOSPACE =>
    simp only [List.nil_prefix, true_and]
    intro d1 h
    have h1 := congrArg Prod.fst (Option.some.inj h)
    simp at h1
  | GLOB_ABORTED =>
    simp only [List.nil_prefix, true_and]
    intro d1 h
    have h1 := congrArg Prod.fst (Option.some.inj h)
    simp at h1
  | GLOB_NOMATCH =>
    simp only [List.nil_prefix, true_and]
    intro d1 h
    have h1 := congrArg Prod.fst (Option.some.inj h)
    simp at h1
  | matched first rest =>
    exact glob_loop_invocations L cb _ _ (first :: rest) _

theorem assigned_missing (n : GlobPropName) :
    ∀ (props : List (GlobPropName × String)) (init : Option String),
      n ∉ props.map Prod.fst → assigned n props init = init
  | [], _, _ => rfl
  | (m, v) :: rest, init, h => by
    simp only [List.map_cons, List.mem_cons, not_or] at h
    have hm : ¬ m = n := fun e => h.1 e.symm
    simp only [assigned, hm, if_false]
    exact assigned_missing n rest init h.2

/-- C8. Glob defaults.  Whatever the three glob strings held before, after the
begin of a glob object (in `globFiles` or in `globImages`) and its properties
each of them holds the value the object gave it last, and is `NULL` when the
object does not give it; `perform_glob` then uses `*` for a missing `glob`,
the empty string for a missing `path` and the empty string for a missing
`prefix`, hands `glob` the pattern joined from `path_prefix`, the path and the
glob string, and runs its loop with that directory and key prefix. -/
theorem glob_defaults_and_reset {B E : Type} (L : Lib B E) :
    (∀ (d : Driver B) (props : List (GlobPropName × String)),
      d.state = State.StateGlobObject →
      feed L (Event.begin_value LaxJsonType.LaxJsonTypeObject :: glob_prop_events props) d =
        some (none, { d with
          state := State.StateGlobObjectProp,
          glob_glob := assigned GlobPropName.glob_str props none,
          glob_path := assigned GlobPropName.glob_path props none,
          glob_prefix := assigned GlobPropName.glob_prefix props none })) ∧
    (∀ (d : Driver B) (props : List (GlobPropName × String)),
      d.state = State.StateGlobImageObject →
      feed L (Event.begin_value LaxJsonType.LaxJsonTypeObject :: glob_prop_events props) d =
        some (none, { d with
          state := State.StateGlobImageObjectProp,
          glob_glob := assigned GlobPropName.glob_str props none,
          glob_path := assigned GlobPropName.glob_path props none,
          glob_prefix := assigned GlobPropName.glob_prefix props none,
          image := { d.image with anchor := RuckSackAnchor.RuckSackAnchorCenter } })) ∧
    (∀ (n : GlobPropName) (props : List (GlobPropName × String)),
      n ∉ props.map Prod.fst → assigned n props none = none) ∧
    (∀ (d : Driver B) (props : List (GlobPropName × String)),
      d.state = State.StateGlobObject ∨ d.state = State.StateGlobImageObject →
      ∃ d1,
        feed L (Event.begin_value LaxJsonType.LaxJsonTypeObject :: glob_prop_events props) d =
          some (none, d1) ∧
        use_glob_str d1 = (assigned GlobPropName.glob_str props none).getD "*" ∧
        use_glob_path d1 = (assigned GlobPropName.glob_path props none).getD "" ∧
        use_glob_prefix d1 = (assigned GlobPropName.glob_prefix props none).getD "" ∧
        glob_pattern L d1 =
          L.path_join
            (L.path_join d.path_prefix ((assigned GlobPropName.glob_path props none).getD ""))
            ((assigned GlobPropName.glob_str props none).getD "*")) ∧
    (∀ d : Driver B,
      (d.glob_glob = none → use_glob_str d = "*") ∧
      (d.glob_path = none → use_glob_path d = "") ∧
      (d.glob_prefix = none → use_glob_prefix d = "") ∧
      (∀ v, d.glob_glob = some v → use_glob_str d = v) ∧
      (∀ v, d.glob_path = some v → use_glob_path d = v) ∧
      (∀ v, d.glob_prefix = some v → use_glob_prefix d = v) ∧
      glob_pattern L d =
        L.path_join (L.path_join d.path_prefix (use_glob_path d)) (use_glob_str d) ∧
      ∀ cb first rest,
        L.glob (L.path_join (L.path_join d.path_prefix (use_glob_path d)) (use_glob_str d)) =
          GlobOutcome.matched first rest →
        perform_glob_trace L cb d =
          glob_loop L cb (L.path_join d.path_prefix (use_glob_path d)) ( use_glob_prefix d)
            (first :: rest)
            (log_call d (Call.glob
              (L.path_join (L.path_join d.path_prefix (use_glob_path d)) (use_glob_str d))))) := by
  have hfiles : ∀ (d : Driver B) (props : List (GlobPropName × String)),
      d.state = State.StateGlobObject →
      feed L (Event.begin_value LaxJsonType.LaxJsonTypeObject :: glob_prop_events props) d =
        some (none, { d with
          state := State.StateGlobObjectProp,
          glob_glob := assigned GlobPropName.glob_str props none,
          glob_path := assigned GlobPropName.glob_path props none,
          glob_prefix := assigned GlobPropName.glob_prefix props none }) := by
    intro d props hs
    have h := feed_glob_props L [] props
      { d with state := State.StateGlobObjectProp, glob_glob := none, glob_path := none,
               glob_prefix := none } rfl
    simp only [List.append_nil] at h
    simp only [feed, dispatch, on_begin, hs, goto]
    simp only [ne_eq, not_true_eq_false, if_false, reduceCtorEq]
    exact h
  have himages : ∀ (d : Driver B) (props : List (GlobPropName × String)),
      d.state = State.StateGlobImageObject →
      feed L (Event.begin_value LaxJsonType.LaxJsonTypeObject :: glob_prop_events props) d =
        some (none, { d with
          state := State.StateGlobImageObjectProp,
          glob_glob := assigned GlobPropName.glob_str props none,
          glob_path := assigned GlobPropName.glob_path props none,
          glob_prefix := assigned GlobPropName.glob_prefix props none,
          image := { d.image with anchor := RuckSackAnchor.RuckSackAnchorCenter } }) := by
    intro d props hs
    have h := feed_glob_image_props L [] props
      { d with state := State.StateGlobImageObjectProp, glob_glob := none, glob_path := none,
               glob_prefix := none,
               image := { d.image with anchor := RuckSackAnchor.RuckSackAnchorCenter } } rfl
    simp only [List.append_nil] at h
    simp only [feed, dispatch, on_begin, hs, goto]
    simp only [ne_eq, not_true_eq_false, if_false, reduceCtorEq]
    exact h
  refine ⟨hfiles, himages, ?_, ?_, ?_⟩
  · intro n props h
    exact assigned_missing n props none h
  · intro d props hs
    rcases hs with hs | hs
    · refine ⟨_, hfiles d props hs, ?_, ?_, ?_, ?_⟩
      · simp only [use_glob_str]
        cases assigned GlobPropName.glob_str props none <;> rfl
      · simp only [use_glob_path]
        cases assigned GlobPropName.glob_path props none <;> rfl
      · simp only [ use_glob_prefix]
        cases assigned GlobPropName.glob_prefix props none <;> rfl
      · simp only [glob_pattern, glob_dir, use_glob_str, use_glob_path]
        cases assigned GlobPropName.glob_str props none <;>
          cases assigned GlobPropName.glob_path props none <;> rfl
    · refine ⟨_, himages d props hs, ?_, ?_, ?_, ?_⟩
      · simp only [use_glob_str]
        cases assigned GlobPropName.glob_str props none <;> rfl
      · simp only [use_glob_path]
        cases assigned GlobPropName.glob_path props none <;> rfl
      · simp only [ use_glob_prefix]
        cases assigned GlobPropName.glob_prefix props none <;> rfl
      · simp only [glob_pattern, glob_dir, use_glob_str, use_glob_path]
        cases assigned GlobPropName.glob_str props none <;>
          cases assigned GlobPropName.glob_path props none <;> rfl
  · intro d
    refine ⟨?_, ?_, ?_, ?_, ?_, ?_, rfl, ?_⟩
    · intro h; simp [use_glob_str, h]
    · intro h; simp [use_glob_path, h]
    · intro h; simp [ use_glob_prefix, h]
    · intro v h; simp [use_glob_str, h]
    · intro v h; simp [use_glob_path, h]
    · intro v h; simp [ use_glob_prefix, h]
    · intro cb first rest h
      unfold perform_glob_trace
      simp only [glob_pattern, glob_dir, h]

/-- C8 at a concrete input: of two glob objects the first gives `glob` and
`prefix`, the second nothing; the second is expanded with the pattern `*` and
without key prefix, and a begin event resets strings left over. -/
theorem glob_defaults_and_reset_witness :
    (feed (exampleLib example_world) two_glob_events (example_driver [])).map
      (fun r => (r.1, r.2.state, r.2.calls)) =
      some (none, State.StateDone,
        [Call.glob "./*.txt",
         Call.bundle_add_file (some "p/b.txt") (some "./b.txt") 0,
         Call.bundle_add_file (some "p/a.txt") (some "./a.txt") 0,
         Call.glob "./*",
         Call.bundle_add_file (some "b.txt") (some "./b.txt") 0,
         Call.bundle_add_file (some "a.txt") (some "./a.txt") 0]) ∧
    feed (exampleLib example_world)
        (Event.begin_value LaxJsonType.LaxJsonTypeObject :: glob_prop_events [])
        { example_driver [] with
          state := State.StateGlobObject, glob_glob := some "*.txt", glob_prefix := some "p/" } =
      some (none, { example_driver [] with state := State.StateGlobObjectProp }) :=
  ⟨rfl,
   (glob_defaults_and_reset (exampleLib example_world)).1
     { example_driver [] with
       state := State.StateGlobObject, glob_glob := some "*.txt", glob_prefix := some "p/" }
     [] rfl⟩

/-! ## Callbacks that return 0 report no error -/

@[simp]
theorem verbose_print_flag {B : Type} (d : Driver B) (msg : CStr) :
    (verbose_print d msg).parse_err_occurred = d.parse_err_occurred := by
  unfold verbose_print; split <;> rfl

theorem parse_error_ne_zero {B : Type} (d d1 : Driver B) (msg : CStr)
    (h : parse_error d msg = (0, d1)) : False := by
  have h1 := congrArg Prod.fst h
  simp at h1

theorem on_string_zero {B E : Type} (L : Lib B E) (d d1 : Driver B) (t : LaxJsonType)
    (value : String) (h : on_string L d t value = some (0, d1)) :
    d1.parse_err_occurred = d.parse_err_occurred := by
  unfold on_string at h
  simp only [goto] at h
  repeat' split at h
  all_goals
    simp only [Option.some.injEq] at h
    first
    | exact (parse_error_ne_zero _ _ _ h).elim
    | (have h2 := congrArg Prod.snd h
       simp only at h2
       subst h2
       simp [log_call])

theorem on_number_zero {B : Type} (d d1 : Driver B) (x : Rat)
    (h : on_number d x = some (0, d1)) : d1.parse_err_occurred = d.parse_err_occurred := by
  unfold on_number at h
  repeat' split at h
  all_goals
    first
    | (simp only [Option.some.injEq] at h
       exact (parse_error_ne_zero _ _ _ h).elim)
    | (simp only [Option.some.injEq] at h
       have h2 := congrArg Prod.snd h
       simp only at h2
       subst h2
       simp)
    | simp at h

theorem on_primitive_zero {B : Type} (d d1 : Driver B) (t : LaxJsonType)
    (h : on_primitive d t = some (0, d1)) : d1.parse_err_occurred = d.parse_err_occurred := by
  unfold on_primitive at h
  repeat' split at h
  all_goals
    first
    | (simp only [Option.some.injEq] at h
       exact (parse_error_ne_zero _ _ _ h).elim)
    | (simp only [Option.some.injEq] at h
       have h2 := congrArg Prod.snd h
       simp only at h2
       subst h2
       simp)
    | simp at h

theorem on_begin_zero {B : Type} (d d1 : Driver B) (t : LaxJsonType)
    (h : on_begin d t = some (0, d1)) : d1.parse_err_occurred = d.parse_err_occurred := by
  unfold on_begin at h
  simp only [goto] at h
  repeat' split at h
  all_goals
    first
    | (simp only [Option.some.injEq] at h
       exact (parse_error_ne_zero _ _ _ h).elim)
    | (simp only [Option.some.injEq] at h
       have h2 := congrArg Prod.snd h
       simp only at h2
       subst h2
       simp)
    | simp at h
theorem add_file_if_outdated_zero {B E : Type} (L : Lib B E) (d : Driver B)
    (key : Option CStr) (path : Option String) (h : (add_file_if_outdated L d key path).1 = 0) :
    (add_file_if_outdated L d key path).2.parse_err_occurred = d.parse_err_occurred := by
  have hc : ∀ d0 : Driver B, (add_file_call L d0 key path).1 = 0 →
      (add_file_call L d0 key path).2.parse_err_occurred = d0.parse_err_occurred := by
    intro d0 h0
    unfold add_file_call at h0 ⊢
    simp only at h0 ⊢
    split
    · rename_i hne
      simp [hne] at h0
    · simp [log_call]
  unfold add_file_if_outdated at h ⊢
  split
  · rename_i e he
    simp only [he] at h
    simp only
    split
    · simp
    · rename_i hlt
      simp only [hlt, if_false] at h
      simpa using hc _ h
  · rename_i he
    simp only [he] at h
    simpa using hc _ h

theorem add_texture_if_outdated_zero {B E : Type} (L : Lib B E) (d d1 : Driver B)
    (key : Option CStr) (texture : RuckSackTexture)
    (h : add_texture_if_outdated L d key texture = some (0, d1)) :
    d1.parse_err_occurred = d.parse_err_occurred := by
  have hc : ∀ d0 d1 : Driver B, add_texture_call L d0 key texture = (0, d1) →
      d1.parse_err_occurred = d0.parse_err_occurred := by
    intro d0 d1 h0
    unfold add_texture_call at h0
    simp only at h0
    split at h0
    · exact (parse_error_ne_zero _ _ _ h0).elim
    · have h2 := congrArg Prod.snd h0
      simp only at h2
      subst h2
      simp [log_call]
  unfold add_texture_if_outdated at h
  split at h
  · split at h
    · simp at h
    · simp only at h
      split at h
      · simp only [Option.some.injEq, Prod.mk.injEq] at h
        obtain ⟨_, rfl⟩ := h
        simp
      · simp only [Option.some.injEq] at h
        simpa using hc _ _ h
  · simp only [Option.some.injEq] at h
    simpa using hc _ _ h

theorem texture_add_image_call_zero {B E : Type} (L : Lib B E) (d d1 : Driver B)
    (h : texture_add_image_call L d = some (0, d1)) :
    d1.parse_err_occurred = d.parse_err_occurred := by
  unfold texture_add_image_call at h
  split at h
  · simp at h
  · simp only at h
    split at h
    · simp only [Option.some.injEq] at h
      exact (parse_error_ne_zero _ _ _ h).elim
    · simp only [Option.some.injEq, Prod.mk.injEq] at h
      obtain ⟨_, rfl⟩ := h
      simp [log_call]

theorem check_latest_mtime_flag {B E : Type} (L : Lib B E) (d : Driver B)
    (path : Option String) :
    (check_latest_mtime L d path).parse_err_occurred = d.parse_err_occurred := by
  unfold check_latest_mtime
  simp only
  split <;> rfl

theorem glob_loop_zero {B E : Type} (L : Lib B E)
    (cb : Driver B → CStr → String → Option (Int × Driver B)) (P : Driver B → Prop)
    (hcb : ∀ d key path d1, P d → cb d key path = some (0, d1) → P d1)
    (strbuf3 pre : String) :
    ∀ (paths : List String) (d : Driver B) (d1 : Driver B), P d →
      (glob_loop L cb strbuf3 pre paths d).1 = some (0, d1) → P d1
  | [], d, d1, hd, h => by
    simp only [glob_loop, Option.some.injEq, Prod.mk.injEq] at h
    obtain ⟨_, rfl⟩ := h
    exact hd
  | path :: rest, d, d1, hd, h => by
    unfold glob_loop at h
    split at h
    · simp only [Option.some.injEq] at h
      exact (parse_error_ne_zero _ _ _ h).elim
    · split at h
      · exact glob_loop_zero L cb P hcb strbuf3 pre rest d d1 hd h
      · split at h
        · simp at h
        · rename_i err d2 hc
          split at h
          · rename_i hne
            simp only [Option.some.injEq, Prod.mk.injEq] at h
            exact absurd h.1 hne
          · rename_i hne
            simp only [ne_eq, not_not] at hne
            subst hne
            exact glob_loop_zero L cb P hcb strbuf3 pre rest d2 d1 (hcb _ _ _ _ hd hc) h

theorem perform_glob_zero {B E : Type} (L : Lib B E)
    (cb : Driver B → CStr → String → Option (Int × Driver B)) (P : Driver B → Prop)
    (hlog : ∀ d pattern, P d → P (log_call d (Call.glob pattern)))
    (hcb : ∀ d key path d1, P d → cb d key path = some (0, d1) → P d1)
    (d : Driver B) (d1 : Driver B) (hd : P d)
    (h : perform_glob L cb d = some (0, d1)) : P d1 := by
  unfold perform_glob perform_glob_trace at h
  simp only at h
  split at h
  · simp only [Option.some.injEq] at h
    exact (parse_error_ne_zero _ _ _ h).elim
  · simp only [Option.some.injEq] at h
    exact (parse_error_ne_zero _ _ _ h).elim
  · simp only [Option.some.injEq] at h
    exact (parse_error_ne_zero _ _ _ h).elim
  · exact glob_loop_zero L cb P hcb _ _ _ _ d1 (hlog _ _ hd) h

theorem add_glob_match_to_texture_zero {B E : Type} (L : Lib B E) (d d1 : Driver B)
    (key : CStr) (path : String) (h : add_glob_match_to_texture L d key path = some (0, d1)) :
    d1.parse_err_occurred = d.parse_err_occurred := by
  unfold add_glob_match_to_texture at h
  simp only at h
  split at h
  · simp at h
  · rename_i err d2 hc
    split at h
    · rename_i hne
      simp only [Option.some.injEq, Prod.mk.injEq] at h
      exact absurd h.1 hne
    · rename_i hne
      simp only [ne_eq, not_not] at hne
      subst hne
      simp only [Option.some.injEq, Prod.mk.injEq] at h
      obtain ⟨_, rfl⟩ := h
      have := texture_add_image_call_zero L _ d2 hc
      simpa [check_latest_mtime_flag] using this

theorem on_end_zero {B E : Type} (L : Lib B E) (d d1 : Driver B) (t : LaxJsonType)
    (h : on_end L d t = some (0, d1)) : d1.parse_err_occurred = d.parse_err_occurred := by
  unfold on_end at h
  simp only [goto] at h
  split at h
  case h_4 =>
    split at h
    · simp at h
    · rename_i err d2 hc
      split at h
      · rename_i hne
        simp only [Option.some.injEq, Prod.mk.injEq] at h
        exact absurd h.1 hne
      · rename_i hne
        simp only [ne_eq, not_not] at hne
        subst hne
        simp only [Option.some.injEq, Prod.mk.injEq] at h
        obtain ⟨_, rfl⟩ := h
        have := texture_add_image_call_zero L _ d2 hc
        simpa [check_latest_mtime_flag] using this
  case h_5 =>
    split at h
    · rename_i hne
      simp only [Option.some.injEq] at h
      have h1 := congrArg Prod.fst h
      exact absurd h1 hne
    · rename_i hne
      simp only [ne_eq, not_not] at hne
      simp only [Option.some.injEq, Prod.mk.injEq] at h
      obtain ⟨_, rfl⟩ := h
      simpa using add_file_if_outdated_zero L d _ _ hne
  case h_8 =>
    split at h
    · simp at h
    · split at h
      · simp at h
      · rename_i texture _ err d2 hc
        split at h
        · rename_i hne
          simp only [Option.some.injEq, Prod.mk.injEq] at h
          exact absurd h.1 hne
        · rename_i hne
          simp only [ne_eq, not_not] at hne
          subst hne
          simp only [Option.some.injEq, Prod.mk.injEq] at h
          obtain ⟨_, rfl⟩ := h
          simpa using add_texture_if_outdated_zero L d d2 _ _ hc
  case h_9 =>
    split at h
    · simp at h
    · rename_i err d2 hc
      split at h
      · rename_i hne
        simp only [Option.some.injEq, Prod.mk.injEq] at h
        exact absurd h.1 hne
      · rename_i hne
        simp only [ne_eq, not_not] at hne
        subst hne
        simp only [Option.some.injEq, Prod.mk.injEq] at h
        obtain ⟨_, rfl⟩ := h
        exact perform_glob_zero L (add_glob_match_to_bundle L)
          (fun x => x.parse_err_occurred = d.parse_err_occurred)
          (fun x _ hx => by simpa [log_call] using hx)
          (fun x key path x1 hx hh => by
            simp only [add_glob_match_to_bundle, Option.some.injEq] at hh
            have h1 := congrArg Prod.fst hh
            have h2 := congrArg Prod.snd hh
            simp only at h1 h2
            rw [← h2, add_file_if_outdated_zero L x _ _ h1]
            exact hx)
          d d2 rfl hc
  case h_10 =>
    split at h
    · simp at h
    · rename_i err d2 hc
      split at h
      · rename_i hne
        simp only [Option.some.injEq, Prod.mk.injEq] at h
        exact absurd h.1 hne
      · rename_i hne
        simp only [ne_eq, not_not] at hne
        subst hne
        simp only [Option.some.injEq, Prod.mk.injEq] at h
        obtain ⟨_, rfl⟩ := h
        exact perform_glob_zero L (add_glob_match_to_texture L)
          (fun x => x.parse_err_occurred = d.parse_err_occurred)
          (fun x _ hx => by simpa [log_call] using hx)
          (fun x key path x1 hx hh =>
            (add_glob_match_to_texture_zero L x x1 key path hh).trans hx)
          d d2 rfl hc
  all_goals
    simp only [Option.some.injEq] at h
    first
    | exact (parse_error_ne_zero _ _ _ h).elim
    | (have h2 := congrArg Prod.snd h
       simp only at h2
       subst h2
       simp)

theorem dispatch_zero {B E : Type} (L : Lib B E) (d d1 : Driver B) (e : Event)
    (h : dispatch L d e = some (0, d1)) : d1.parse_err_occurred = d.parse_err_occurred := by
  cases e with
  | string t v => exact on_string_zero L d d1 t v h
  | number x => exact on_number_zero d d1 x h
  | primitive t => exact on_primitive_zero d d1 t h
  | begin_value t => exact on_begin_zero d d1 t h
  | end_value t => exact on_end_zero L d d1 t h

theorem feed_none_flag {B E : Type} (L : Lib B E) :
    ∀ (events : List Event) (d d1 : Driver B), feed L events d = some (none, d1) →
      d1.parse_err_occurred = d.parse_err_occurred
  | [], d, d1, h => by
    simp only [feed, Option.some.injEq, Prod.mk.injEq, true_and] at h
    rw [h]
  | e :: es, d, d1, h => by
    unfold feed at h
    split at h
    · simp at h
    · rename_i r d2 hc
      split at h
      · simp at h
      · rename_i hne
        simp only [ne_eq, not_not] at hne
        subst hne
        rw [feed_none_flag L es d2 d1 h, dispatch_zero L d d2 e hc]

theorem feed_append {B E : Type} (L : Lib B E) (rest : List Event) :
    ∀ (pre : List Event) (d d1 : Driver B), feed L pre d = some (none, d1) →
      feed L (pre ++ rest) d = feed L rest d1
  | [], d, d1, h => by
    simp only [feed, Option.some.injEq, Prod.mk.injEq, true_and] at h
    rw [h]; rfl
  | e :: es, d, d1, h => by
    unfold feed at h
    simp only [List.cons_append]
    conv => lhs; unfold feed
    split at h
    · simp at h
    · rename_i r d2 hc
      split at h
      · simp at h
      · rename_i hne
        simp only [hne, if_false]
        exact feed_append L rest es d2 d1 h
/-! ## A glob without matches -/

theorem perform_glob_no_match {B E : Type} (L : Lib B E)
    (cb : Driver B → CStr → String → Option (Int × Driver B)) (d : Driver B)
    (h : L.glob (glob_pattern L d) = GlobOutcome.GLOB_NOMATCH) :
    perform_glob_trace L cb d =
      (some (parse_error (log_call d (Call.glob (glob_pattern L d))) "no patterns matched"),
       []) := by
  unfold perform_glob_trace
  simp only [h]

theorem parse_error_stderr {B : Type} (d : Driver B) (msg : CStr)
    (h : d.parse_err_occurred = false) :
    (parse_error d msg).2.stderr = d.stderr ++ [StderrLine.located msg] := by
  unfold parse_error
  simp [h]

theorem parse_error_latched_id {B : Type} (d : Driver B) (msg : CStr)
    (h : d.parse_err_occurred = true) : (parse_error d msg).2 = d := by
  unfold parse_error
  simp [h]

theorem feed_end_glob_no_match {B E : Type} (L : Lib B E) (d : Driver B) (t : LaxJsonType)
    (post : List Event)
    (hs : d.state = State.StateGlobObjectProp ∨ d.state = State.StateGlobImageObjectProp)
    (h : L.glob (glob_pattern L d) = GlobOutcome.GLOB_NOMATCH) :
    feed L (Event.end_value t :: post) d =
      some (some LaxJsonError.LaxJsonErrorAborted,
        (parse_error (log_call d (Call.glob (glob_pattern L d))) "no patterns matched").2) := by
  rcases hs with hs | hs
  · simp only [feed, dispatch, on_end, hs, glob_insert_files, perform_glob,
      perform_glob_no_match L _ d h]
    simp
  · simp only [feed, dispatch, on_end, hs, glob_insert_images, perform_glob,
      perform_glob_no_match L _ d h]
    simp

/-- C9. A glob that matches nothing is fatal.  When `glob` reports
`GLOB_NOMATCH`, `perform_glob` invokes the handler zero times, returns -1 and
latches the parse error, printing `no patterns matched` unless an earlier
error was printed.  In a run of `command_bundle`, when a glob object closes on
such a glob the command prints that message, does not close the bundle and
returns 1. -/
theorem glob_no_match_is_fatal {B E : Type} (L : Lib B E) :
    (∀ (cb : Driver B → CStr → String → Option (Int × Driver B)) (d : Driver B),
      L.glob (glob_pattern L d) = GlobOutcome.GLOB_NOMATCH →
      (perform_glob_trace L cb d).2 = [] ∧
      ∃ d1, perform_glob L cb d = some (-1, d1) ∧ d1.parse_err_occurred = true ∧
        (d.parse_err_occurred = false →
          d1.stderr = d.stderr ++ [StderrLine.located "no patterns matched"])) ∧
    (∀ (image : RuckSackImage) (arg0 : String) (argv : List String) (a : BundleArgs)
      (input_filename bundle_filename : String) (m : Manifest) (bundle : B)
      (pre post : List Event) (t : LaxJsonType) (d : Driver B),
      bundle_args argv default_bundle_args = some a →
      a.input_filename = some input_filename →
      a.bundle_filename = some bundle_filename →
      (if input_filename = "-" then some L.stdin else L.fopen input_filename) = some m →
      L.rucksack_bundle_open bundle_filename = Except.ok bundle →
      m.events = pre ++ Event.end_value t :: post →
      feed L pre (initial_driver bundle image a) = some (none, d) →
      (d.state = State.StateGlobObjectProp ∨ d.state = State.StateGlobImageObjectProp) →
      L.glob (glob_pattern L d) = GlobOutcome.GLOB_NOMATCH →
      ∃ run, command_bundle L image arg0 argv = some run ∧ run.status = 1 ∧
        run.closed = false ∧
        run.stderr = d.stderr ++ [StderrLine.located "no patterns matched"]) := by
  constructor
  · intro cb d h
    unfold perform_glob
    rw [perform_glob_no_match L cb d h]
    refine ⟨rfl,
      (parse_error (log_call d (Call.glob (glob_pattern L d))) "no patterns matched").2,
      ?_, parse_error_latched _ _, ?_⟩
    · simp only [Option.some.injEq]
      exact Prod.ext (by simp) rfl
    · intro hf
      rw [parse_error_stderr _ _ (by simpa [log_call] using hf)]
      simp [log_call]
  · intro image arg0 argv a input_filename bundle_filename m bundle pre post t d hargs hin hbn
      hm hopen hev hpre hs hglob
    have hflag : d.parse_err_occurred = false := feed_none_flag L pre _ d hpre
    have hfeed : feed L m.events (initial_driver bundle image a) =
        some (some LaxJsonError.LaxJsonErrorAborted,
          (parse_error (log_call d (Call.glob (glob_pattern L d))) "no patterns matched").2) := by
      rw [hev, feed_append L _ pre _ d hpre]
      exact feed_end_glob_no_match L d t post hs hglob
    have hrun : command_bundle L image arg0 argv =
        some { status := 1,
               stderr := (parse_error (parse_error (log_call d (Call.glob (glob_pattern L d)))
                 "no patterns matched").2 (ERR_STR LaxJsonError.LaxJsonErrorAborted)).2.stderr,
               driver := some (parse_error (parse_error (log_call d
                 (Call.glob (glob_pattern L d))) "no patterns matched").2
                 (ERR_STR LaxJsonError.LaxJsonErrorAborted)).2,
               closed := false } := by
      unfold command_bundle
      simp only [hargs, hin, hbn, hm, hopen]
      unfold bundle_manifest
      simp only [hfeed]
    refine ⟨_, hrun, rfl, rfl, ?_⟩
    simp only [parse_error_latched_id _ _ (parse_error_latched _ _)]
    rw [parse_error_stderr _ _ (by simpa [log_call] using hflag)]
    simp [log_call]

/-- C9 at a concrete input: the command on a manifest whose glob matches
nothing returns 1 and prints the message. -/
theorem glob_no_match_is_fatal_witness :
    ∃ run, command_bundle (exampleLib example_no_match_world) example_image "rucksack"
        ["-", "out.bundle"] = some run ∧ run.status = 1 ∧ run.closed = false ∧
      run.stderr = [] ++ [StderrLine.located "no patterns matched"] :=
  (glob_no_match_is_fatal (exampleLib example_no_match_world)).2 example_image "rucksack"
    ["-", "out.bundle"]
    { input_filename := some "-", bundle_filename := some "out.bundle", verbose := false,
      path_prefix := "." }
    "-" "out.bundle" { events := no_match_events, error := none } []
    (no_match_events.take 6) (no_match_events.drop 7) LaxJsonType.LaxJsonTypeObject
    { initial_driver [] example_image default_bundle_args with
      state := State.StateGlobObjectProp, glob_glob := some "*.none" }
    rfl rfl rfl rfl rfl rfl rfl (Or.inl rfl) rfl
/-- C10 (amended). The paths on which `perform_glob` invokes the handler
follow the order in which `glob`, called with `GLOB_NOSORT`, returned the
matches: they are a sublist of `gl_pathv`, and when `perform_glob` returns 0
they are exactly the matches that are not directories, in the order of
`gl_pathv`.  No sorting takes place. -/
theorem perform_glob_keeps_glob_order {B E : Type} (L : Lib B E)
    (cb : Driver B → CStr → String → Option (Int × Driver B)) (d : Driver B) :
    List.Sublist ((perform_glob_trace L cb d).2.map Prod.snd)
      (L.glob (glob_pattern L d)).gl_pathv ∧
    (∀ d1, perform_glob L cb d = some (0, d1) →
      (perform_glob_trace L cb d).2.map Prod.snd =
        (L.glob (glob_pattern L d)).gl_pathv.filter (is_file L)) := by
  have h := perform_glob_trace_invocations L cb d
  have hmap : (expected_invocations L d).map Prod.snd =
      (L.glob (glob_pattern L d)).gl_pathv.filter (is_file L) := by
    simp [expected_invocations, List.map_map, Function.comp_def]
  constructor
  · have h1 : (perform_glob_trace L cb d).2.map Prod.snd <+:
        (expected_invocations L d).map Prod.snd := by
      obtain ⟨t, ht⟩ := h.1
      exact ⟨t.map Prod.snd, by rw [← ht, List.map_append]⟩
    rw [hmap] at h1
    exact h1.sublist.trans (List.filter_sublist _)
  · intro d1 h0
    rw [h.2 d1 h0, hmap]

/-- C10, as stated, fails: `glob` returns `b.txt` before `a.txt`, and the
handler is invoked on `b.txt` first, so the paths handled are not in
lexicographic order. -/
theorem perform_glob_not_sorted :
    (perform_glob_trace (exampleLib example_world)
        (add_glob_match_to_bundle (exampleLib example_world)) (example_driver [])).2.map
      Prod.snd = ["./b.txt", "./a.txt"] ∧
    ¬ List.Sorted (fun a b : String => a.data ≤ b.data)
      ((perform_glob_trace (exampleLib example_world)
        (add_glob_match_to_bundle (exampleLib example_world)) (example_driver [])).2.map
      Prod.snd) := by
  have h : (perform_glob_trace (exampleLib example_world)
        (add_glob_match_to_bundle (exampleLib example_world)) (example_driver [])).2.map
      Prod.snd = ["./b.txt", "./a.txt"] := rfl
  refine ⟨h, ?_⟩
  rw [h]
  decide

/-! ## The latch of parse errors -/

theorem on_string_latched {B E : Type} (L : Lib B E) (d d1 : Driver B) (t : LaxJsonType)
    (value : String) (r : Int) (h : on_string L d t value = some (r, d1))
    (hf : d.parse_err_occurred = true) : d1.parse_err_occurred = true := by
  unfold on_string at h
  simp only [goto] at h
  repeat' split at h
  all_goals
    simp only [Option.some.injEq] at h
    have h2 := congrArg Prod.snd h
    simp only at h2
    subst h2
    simp [log_call, hf]

theorem on_number_latched {B : Type} (d d1 : Driver B) (x : Rat) (r : Int)
    (h : on_number d x = some (r, d1)) (hf : d.parse_err_occurred = true) :
    d1.parse_err_occurred = true := by
  unfold on_number at h
  repeat' split at h
  all_goals
    first
    | (simp only [Option.some.injEq] at h
       have h2 := congrArg Prod.snd h
       simp only at h2
       subst h2
       simp [hf])
    | simp at h

theorem on_primitive_latched {B : Type} (d d1 : Driver B) (t : LaxJsonType) (r : Int)
    (h : on_primitive d t = some (r, d1)) (hf : d.parse_err_occurred = true) :
    d1.parse_err_occurred = true := by
  unfold on_primitive at h
  repeat' split at h
  all_goals
    first
    | (simp only [Option.some.injEq] at h
       have h2 := congrArg Prod.snd h
       simp only at h2
       subst h2
       simp [hf])
    | simp at h

theorem on_begin_latched {B : Type} (d d1 : Driver B) (t : LaxJsonType) (r : Int)
    (h : on_begin d t = some (r, d1)) (hf : d.parse_err_occurred = true) :
    d1.parse_err_occurred = true := by
  unfold on_begin at h
  simp only [goto] at h
  repeat' split at h
  all_goals
    first
    | (simp only [Option.some.injEq] at h
       have h2 := congrArg Prod.snd h
       simp only at h2
       subst h2
       simp [hf])
    | simp at h

theorem add_file_if_outdated_latched {B E : Type} (L : Lib B E) (d : Driver B)
    (key : Option CStr) (path : Option String) (hf : d.parse_err_occurred = true) :
    (add_file_if_outdated L d key path).2.parse_err_occurred = true := by
  have hc : ∀ d0 : Driver B, d0.parse_err_occurred = true →
      (add_file_call L d0 key path).2.parse_err_occurred = true := by
    intro d0 h0
    unfold add_file_call
    simp only
    split
    · simp
    · simpa [log_call] using h0
  unfold add_file_if_outdated
  split
  · simp only
    split
    · simpa using hf
    · exact hc _ (by simpa using hf)
  · exact hc _ (by simpa using hf)

theorem add_texture_if_outdated_latched {B E : Type} (L : Lib B E) (d d1 : Driver B)
    (key : Option CStr) (texture : RuckSackTexture) (r : Int)
    (h : add_texture_if_outdated L d key texture = some (r, d1))
    (hf : d.parse_err_occurred = true) : d1.parse_err_occurred = true := by
  have hc : ∀ d0 : Driver B, d0.parse_err_occurred = true →
      (add_texture_call L d0 key texture).2.parse_err_occurred = true := by
    intro d0 h0
    unfold add_texture_call
    simp only
    split
    · simp
    · simpa [log_call] using h0
  unfold add_texture_if_outdated at h
  split at h
  · split at h
    · simp at h
    · simp only at h
      split at h
      · simp only [Option.some.injEq, Prod.mk.injEq] at h
        obtain ⟨_, rfl⟩ := h
        simpa using hf
      · simp only [Option.some.injEq] at h
        have h2 := congrArg Prod.snd h
        simp only at h2
        subst h2
        exact hc _ (by simpa using hf)
  · simp only [Option.some.injEq] at h
    have h2 := congrArg Prod.snd h
    simp only at h2
    subst h2
    exact hc _ (by simpa using hf)

theorem texture_add_image_call_latched {B E : Type} (L : Lib B E) (d d1 : Driver B) (err : Int)
    (h : texture_add_image_call L d = some (err, d1)) (hf : d.parse_err_occurred = true) :
    d1.parse_err_occurred = true := by
  unfold texture_add_image_call at h
  split at h
  · simp at h
  · simp only at h
    split at h
    · simp only [Option.some.injEq] at h
      have h2 := congrArg Prod.snd h
      simp only at h2
      subst h2
      simp
    · simp only [Option.some.injEq, Prod.mk.injEq] at h
      obtain ⟨_, rfl⟩ := h
      simpa [log_call] using hf

theorem add_glob_match_to_texture_latched {B E : Type} (L : Lib B E) (d d1 : Driver B)
    (key : CStr) (path : String) (r : Int) (hf : d.parse_err_occurred = true)
    (h : add_glob_match_to_texture L d key path = some (r, d1)) :
    d1.parse_err_occurred = true := by
  unfold add_glob_match_to_texture at h
  simp only at h
  split at h
  · simp at h
  · rename_i err d2 hc
    have hd2 := texture_add_image_call_latched L _ d2 err hc hf
    split at h
    · simp only [Option.some.injEq, Prod.mk.injEq] at h
      obtain ⟨_, rfl⟩ := h
      exact hd2
    · simp only [Option.some.injEq, Prod.mk.injEq] at h
      obtain ⟨_, rfl⟩ := h
      simpa [check_latest_mtime_flag] using hd2

theorem on_end_latched {B E : Type} (L : Lib B E) (d d1 : Driver B) (t : LaxJsonType)
    (r : Int) (hf : d.parse_err_occurred = true) (h : on_end L d t = some (r, d1)) :
    d1.parse_err_occurred = true := by
  have hlog : ∀ (x : Driver B) (pattern : String), x.parse_err_occurred = true →
      (log_call x (Call.glob pattern)).parse_err_occurred = true := fun x p hx => by
    simpa [log_call] using hx
  unfold on_end at h
  simp only [goto] at h
  split at h
  case h_4 =>
    split at h
    · simp at h
    · rename_i err d2 hc
      have hd2 := texture_add_image_call_latched L d d2 err hc hf
      split at h
      · simp only [Option.some.injEq, Prod.mk.injEq] at h
        obtain ⟨_, rfl⟩ := h
        exact hd2
      · simp only [Option.some.injEq, Prod.mk.injEq] at h
        obtain ⟨_, rfl⟩ := h
        simpa [check_latest_mtime_flag] using hd2
  case h_5 =>
    have hd2 := add_file_if_outdated_latched L d d.file_key d.file_path hf
    split at h
    · simp only [Option.some.injEq] at h
      have h2 := congrArg Prod.snd h
      simp only at h2
      subst h2
      exact hd2
    · simp only [Option.some.injEq, Prod.mk.injEq] at h
      obtain ⟨_, rfl⟩ := h
      exact hd2
  case h_8 =>
    split at h
    · simp at h
    · split at h
      · simp at h
      · rename_i texture _ err d2 hc
        have hd2 := add_texture_if_outdated_latched L d d2 _ _ _ hc hf
        split at h
        · simp only [Option.some.injEq, Prod.mk.injEq] at h
          obtain ⟨_, rfl⟩ := h
          exact hd2
        · simp only [Option.some.injEq, Prod.mk.injEq] at h
          obtain ⟨_, rfl⟩ := h
          exact hd2
  case h_9 =>
    split at h
    · simp at h
    · rename_i err d2 hc
      have hd2 : d2.parse_err_occurred = true :=
        perform_glob_preserves L (add_glob_match_to_bundle L)
          (fun x => x.parse_err_occurred = true) (fun x msg _ => parse_error_latched x msg) hlog
          (fun x key path r x1 hx hh => by
            simp only [add_glob_match_to_bundle, Option.some.injEq] at hh
            have h2 := congrArg Prod.snd hh
            simp only at h2
            subst h2
            exact add_file_if_outdated_latched L x _ _ hx)
          d err d2 hf hc
      split at h
      · simp only [Option.some.injEq, Prod.mk.injEq] at h
        obtain ⟨_, rfl⟩ := h
        exact hd2
      · simp only [Option.some.injEq, Prod.mk.injEq] at h
        obtain ⟨_, rfl⟩ := h
        exact hd2
  case h_10 =>
    split at h
    · simp at h
    · rename_i err d2 hc
      have hd2 : d2.parse_err_occurred = true :=
        perform_glob_preserves L (add_glob_match_to_texture L)
          (fun x => x.parse_err_occurred = true) (fun x msg _ => parse_error_latched x msg) hlog
          (fun x key path r x1 hx hh =>
            add_glob_match_to_texture_latched L x x1 key path r hx hh)
          d err d2 hf hc
      split at h
      · simp only [Option.some.injEq, Prod.mk.injEq] at h
        obtain ⟨_, rfl⟩ := h
        exact hd2
      · simp only [Option.some.injEq, Prod.mk.injEq] at h
        obtain ⟨_, rfl⟩ := h
        exact hd2
  all_goals
    simp only [Option.some.injEq] at h
    have h2 := congrArg Prod.snd h
    simp only at h2
    subst h2
    simp [hf]

theorem dispatch_latched {B E : Type} (L : Lib B E) (d : Driver B) (e : Event) (r : Int)
    (d1 : Driver B) (hf : d.parse_err_occurred = true) (h : dispatch L d e = some (r, d1)) :
    d1.parse_err_occurred = true := by
  cases e with
  | string t v => exact on_string_latched L d d1 t v r h hf
  | number x => exact on_number_latched d d1 x r h hf
  | primitive t => exact on_primitive_latched d d1 t r h hf
  | begin_value t => exact on_begin_latched d d1 t r h hf
  | end_value t => exact on_end_latched L d d1 t r hf h

theorem bundle_manifest_spec {B E : Type} (L : Lib B E) (m : Manifest) (d0 d1 : Driver B)
    (r : Option LaxJsonError) (h : feed L m.events d0 = some (r, d1)) :
    ∃ run, bundle_manifest L m d0 = some run ∧
      run.driver = some (final_driver m r d1) ∧
      run.closed = !(final_driver m r d1).parse_err_occurred ∧
      run.status =
        if (final_driver m r d1).parse_err_occurred = true ∨
            L.rucksack_bundle_close (final_driver m r d1).bundle ≠ 0 then 1 else 0 := by
  unfold bundle_manifest
  rw [h]
  cases r with
  | some err =>
    simp only [final_driver]
    exact ⟨_, rfl, rfl, by simp, by simp⟩
  | none =>
    cases hm : m.error with
    | some err =>
      simp only [final_driver, hm]
      exact ⟨_, rfl, rfl, by simp, by simp⟩
    | none =>
      simp only [final_driver, hm]
      generalize (if d1.state ≠ State.StateDone then (parse_error d1 "unexpected EOF").2
          else d1) = d2
      by_cases hf : d2.parse_err_occurred = true
      · rw [if_pos hf]
        exact ⟨_, rfl, rfl, by simp [hf], by simp [hf]⟩
      · rw [if_neg hf]
        by_cases hc : L.rucksack_bundle_close d2.bundle ≠ 0
        · rw [if_pos hc]
          exact ⟨_, rfl, rfl, by simp [hf], by rw [if_pos (Or.inr hc)]⟩
        · rw [if_neg hc]
          exact ⟨_, rfl, rfl, by simp [hf], by rw [if_neg (fun hh => hh.elim hf hc)]⟩

theorem bundle_manifest_some {B E : Type} (L : Lib B E) (m : Manifest) (d0 : Driver B)
    (run : BundleRun B) (h : bundle_manifest L m d0 = some run) :
    ∃ r d1, feed L m.events d0 = some (r, d1) := by
  cases hf : feed L m.events d0 with
  | none =>
    unfold bundle_manifest at h
    rw [hf] at h
    cases h
  | some p => exact ⟨p.1, p.2, rfl⟩

theorem bundle_manifest_latched {B E : Type} (L : Lib B E) (m : Manifest) (d0 : Driver B)
    (run : BundleRun B) (d : Driver B) (h : bundle_manifest L m d0 = some run)
    (hd : run.driver = some d) (hf : d.parse_err_occurred = true) :
    run.status = 1 ∧ run.closed = false := by
  obtain ⟨r, d1, hfeed⟩ := bundle_manifest_some L m d0 run h
  obtain ⟨run2, h2, hdrv, hcl, hst⟩ := bundle_manifest_spec L m d0 d1 r hfeed
  rw [h] at h2
  simp only [Option.some.injEq] at h2
  subst h2
  rw [hd] at hdrv
  simp only [Option.some.injEq] at hdrv
  subst hdrv
  rw [hst, hcl]
  simp [hf]

theorem command_bundle_cases {B E : Type} (L : Lib B E) (image : RuckSackImage)
    (arg0 : String) (argv : List String) (run : BundleRun B)
    (h : command_bundle L image arg0 argv = some run) :
    (run.status = 1 ∧ run.driver = none ∧ run.closed = false) ∨
    ∃ a input_filename bundle_filename m bundle,
      bundle_args argv default_bundle_args = some a ∧
      a.input_filename = some input_filename ∧ a.bundle_filename = some bundle_filename ∧
      (if input_filename = "-" then some L.stdin else L.fopen input_filename) = some m ∧
      L.rucksack_bundle_open bundle_filename = Except.ok bundle ∧
      bundle_manifest L m (initial_driver bundle image a) = some run := by
  unfold command_bundle at h
  simp only at h
  split at h
  · simp only [Option.some.injEq] at h
    subst h
    exact Or.inl ⟨rfl, rfl, rfl⟩
  · rename_i a ha
    split at h
    · simp only [Option.some.injEq] at h
      subst h
      exact Or.inl ⟨rfl, rfl, rfl⟩
    · simp only [Option.some.injEq] at h
      subst h
      exact Or.inl ⟨rfl, rfl, rfl⟩
    · rename_i input_filename bundle_filename hin hbn
      split at h
      · simp only [Option.some.injEq] at h
        subst h
        exact Or.inl ⟨rfl, rfl, rfl⟩
      · rename_i m hm
        split at h
        · simp only [Option.some.injEq] at h
          subst h
          exact Or.inl ⟨rfl, rfl, rfl⟩
        · rename_i bundle hopen
          exact Or.inr ⟨a, input_filename, bundle_filename, m, bundle, ha, hin, hbn, hm, hopen, h⟩

/-- C11. Parse errors are latched.  `parse_error` always returns -1 and leaves
the flag set; it prints its message when the flag was clear and changes
nothing when the flag was set.  No callback clears the flag, so it stays set
through every run of events.  When the flag is set in the globals at the
return of `command_bundle`, the command returns 1. -/
theorem parse_errors_are_latched {B E : Type} (L : Lib B E) :
    (∀ (d : Driver B) (msg : CStr),
      (parse_error d msg).1 = -1 ∧ (parse_error d msg).2.parse_err_occurred = true ∧
      (d.parse_err_occurred = false →
        (parse_error d msg).2.stderr = d.stderr ++ [StderrLine.located msg]) ∧
      (d.parse_err_occurred = true → (parse_error d msg).2 = d)) ∧
    (∀ (d d1 : Driver B) (e : Event) (r : Int),
      dispatch L d e = some (r, d1) → d.parse_err_occurred = true →
      d1.parse_err_occurred = true) ∧
    (∀ (events : List Event) (d d1 : Driver B) (r : Option LaxJsonError),
      feed L events d = some (r, d1) → d.parse_err_occurred = true →
      d1.parse_err_occurred = true) ∧
    (∀ (image : RuckSackImage) (arg0 : String) (argv : List String) (run : BundleRun B)
      (d : Driver B),
      command_bundle L image arg0 argv = some run → run.driver = some d →
      d.parse_err_occurred = true → run.status = 1) := by
  refine ⟨?_, ?_, ?_, ?_⟩
  · intro d msg
    exact ⟨parse_error_fst d msg, parse_error_latched d msg, parse_error_stderr d msg,
      parse_error_latched_id d msg⟩
  · intro d d1 e r h hf
    exact dispatch_latched L d e r d1 hf h
  · intro events d d1 r h hf
    exact feed_preserves L (fun x => x.parse_err_occurred = true)
      (fun x e r x1 hx hh => dispatch_latched L x e r x1 hx hh) events d r d1 hf h
  · intro image arg0 argv run d h hd hf
    rcases command_bundle_cases L image arg0 argv run h with ⟨_, hnone, _⟩ |
      ⟨a, i, bf, m, b, _, _, _, _, _, hm⟩
    · rw [hnone] at hd
      cases hd
    · exact (bundle_manifest_latched L m _ run d hm hd hf).1

/-! ## Errors and the close of the bundle -/

theorem command_bundle_open {B E : Type} (L : Lib B E) (image : RuckSackImage)
    (arg0 : String) (argv : List String) (a : BundleArgs) (input_filename bundle_filename : String)
    (m : Manifest) (bundle : B)
    (ha : bundle_args argv default_bundle_args = some a)
    (hin : a.input_filename = some input_filename)
    (hbn : a.bundle_filename = some bundle_filename)
    (hm : (if input_filename = "-" then some L.stdin else L.fopen input_filename) = some m)
    (hopen : L.rucksack_bundle_open bundle_filename = Except.ok bundle) :
    command_bundle L image arg0 argv = bundle_manifest L m (initial_driver bundle image a) := by
  unfold command_bundle
  simp only [ha]
  split
  · rename_i h1
    rw [hin] at h1
    cases h1
  · rename_i h1 h2
    rw [hbn] at h2
    cases h2
  · rename_i i2 b2 h1 h2
    rw [hin] at h1
    rw [hbn] at h2
    simp only [Option.some.injEq] at h1 h2
    subst h1
    subst h2
    simp only [hm, hopen]

theorem feed_abort {B E : Type} (L : Lib B E) (pre post : List Event) (e : Event)
    (d0 d d1 : Driver B) (r : Int) (hpre : feed L pre d0 = some (none, d))
    (he : dispatch L d e = some (r, d1)) (hr : r ≠ 0) :
    feed L (pre ++ e :: post) d0 = some (some LaxJsonError.LaxJsonErrorAborted, d1) := by
  rw [feed_append L (e :: post) pre d0 d hpre]
  unfold feed
  simp only [he, hr, ne_eq, not_false_eq_true, if_true]

theorem add_file_call_fails {B E : Type} (L : Lib B E) (d : Driver B) (key : Option CStr) (path : Option String)
    (h : (L.rucksack_bundle_add_file d.bundle key path).1 ≠ 0) :
    (add_file_call L d key path).1 = -1 ∧
    (add_file_call L d key path).2.parse_err_occurred = true := by
  unfold add_file_call
  simp only [h, ne_eq, not_false_eq_true, if_true]
  exact ⟨parse_error_fst _ _, parse_error_latched _ _⟩

theorem add_texture_call_fails {B E : Type} (L : Lib B E) (d : Driver B) (key : Option CStr)
    (texture : RuckSackTexture)
    (h : (L.rucksack_bundle_add_texture d.bundle key texture).1 ≠ 0) :
    (add_texture_call L d key texture).1 = -1 ∧
    (add_texture_call L d key texture).2.parse_err_occurred = true := by
  unfold add_texture_call
  simp only [h, ne_eq, not_false_eq_true, if_true]
  exact ⟨parse_error_fst _ _, parse_error_latched _ _⟩

theorem add_texture_call_calls {B E : Type} (L : Lib B E) (d : Driver B) (key : Option CStr)
    (texture : RuckSackTexture) :
    (add_texture_call L d key texture).2.calls =
      d.calls ++ [Call.bundle_add_texture key texture
        (L.rucksack_bundle_add_texture d.bundle key texture).1] ∧
    (add_texture_call L d key texture).2.bundle =
      (L.rucksack_bundle_add_texture d.bundle key texture).2 := by
  unfold add_texture_call
  simp only
  split
  · simp [parse_error_calls, parse_error_bundle, log_call]
  · simp [log_call]

theorem add_file_if_outdated_outdated {B E : Type} (L : Lib B E) (d : Driver B)
    (key : Option CStr) (path : Option String) (h : file_outdated L d key path) :
    ∃ msg, add_file_if_outdated L d key path = add_file_call L (verbose_print d msg) key path := by
  unfold add_file_if_outdated
  rcases h with h | ⟨e, he, hlt⟩
  · simp only [h]
    exact ⟨_, rfl⟩
  · simp only [he, not_le.mpr hlt, if_false]
    exact ⟨_, rfl⟩

theorem add_texture_if_outdated_outdated {B E : Type} (L : Lib B E) (d : Driver B)
    (key : Option CStr) (texture : RuckSackTexture) (h : texture_outdated L d key texture) :
    ∃ msg, add_texture_if_outdated L d key texture =
      some (add_texture_call L (verbose_print d msg) key texture) := by
  unfold add_texture_if_outdated
  rcases h with h | ⟨e, bt, he, hbt, hne⟩
  · simp only [h]
    exact ⟨_, rfl⟩
  · simp only [he, hbt]
    have : (decide (d.latest_mtime ≤ L.rucksack_file_mtime e) &&
        decide (bt.max_width = texture.max_width) &&
        decide (bt.max_height = texture.max_height) &&
        decide (bt.allow_r90 = texture.allow_r90) &&
        decide (bt.allow_r90 = texture.allow_r90)) = false := by
      by_contra hc
      simp only [Bool.not_eq_false, Bool.and_eq_true, decide_eq_true_eq] at hc
      exact hne ⟨hc.1.1.1.1, hc.1.1.1.2, hc.1.1.2, hc.1.2⟩
    simp only [this]
    exact ⟨_, rfl⟩

theorem final_driver_calls {B : Type} (m : Manifest) (r : Option LaxJsonError) (d1 : Driver B) :
    (final_driver m r d1).calls = d1.calls ∧ (final_driver m r d1).bundle = d1.bundle ∧
    (final_driver m r d1).state = d1.state := by
  unfold final_driver
  repeat' split
  all_goals simp [parse_error_calls, parse_error_bundle, parse_error_state]

theorem final_driver_flag {B : Type} (m : Manifest) (r : Option LaxJsonError) (d1 : Driver B) :
    (final_driver m r d1).parse_err_occurred = false ↔
      r = none ∧ m.error = none ∧ d1.parse_err_occurred = false ∧ d1.state = State.StateDone := by
  unfold final_driver
  cases r with
  | some err => simp [parse_error_latched]
  | none =>
    cases hm : m.error with
    | some err => simp [parse_error_latched]
    | none =>
      by_cases hs : d1.state = State.StateDone
      · simp [hs]
      · simp [hs, parse_error_latched]

/-- C12 (amended). A bundle mutation error ends the run.  When the file entry
that closes is outdated and `rucksack_bundle_add_file` fails for it, `on_end`
returns -1 with the error latched, after exactly that one call; the same holds
for a texture entry and `rucksack_bundle_add_texture`.  Whenever a callback
returns non-zero, `command_bundle` returns 1 without closing the bundle, and
the library calls of the run are those made up to that callback: no entry
after it is processed. -/
theorem mutation_error_ends_run {B E : Type} (L : Lib B E) :
    (∀ (d : Driver B) (t : LaxJsonType), d.state = State.StateFilePropName →
      file_outdated L d d.file_key d.file_path →
      (L.rucksack_bundle_add_file d.bundle d.file_key d.file_path).1 ≠ 0 →
      ∃ d1, on_end L d t = some (-1, d1) ∧ d1.parse_err_occurred = true ∧
        d1.calls = d.calls ++ [Call.bundle_add_file d.file_key d.file_path
          (L.rucksack_bundle_add_file d.bundle d.file_key d.file_path).1]) ∧
    (∀ (d : Driver B) (t : LaxJsonType) (texture : RuckSackTexture),
      d.state = State.StateTextureProp → d.texture = some texture →
      texture_outdated L d d.texture_key texture →
      (L.rucksack_bundle_add_texture d.bundle d.texture_key texture).1 ≠ 0 →
      ∃ d1, on_end L d t = some (-1, d1) ∧ d1.parse_err_occurred = true ∧
        d1.calls = d.calls ++ [Call.bundle_add_texture d.texture_key texture
          (L.rucksack_bundle_add_texture d.bundle d.texture_key texture).1]) ∧
    (∀ (image : RuckSackImage) (arg0 : String) (argv : List String) (a : BundleArgs)
      (input_filename bundle_filename : String) (m : Manifest) (bundle : B)
      (pre post : List Event) (e : Event) (d d1 : Driver B) (r : Int),
      bundle_args argv default_bundle_args = some a →
      a.input_filename = some input_filename → a.bundle_filename = some bundle_filename →
      (if input_filename = "-" then some L.stdin else L.fopen input_filename) = some m →
      L.rucksack_bundle_open bundle_filename = Except.ok bundle →
      m.events = pre ++ e :: post →
      feed L pre (initial_driver bundle image a) = some (none, d) →
      dispatch L d e = some (r, d1) → r ≠ 0 →
      ∃ run d2, command_bundle L image arg0 argv = some run ∧ run.status = 1 ∧
        run.closed = false ∧ run.driver = some d2 ∧ d2.calls = d1.calls ∧
        d2.bundle = d1.bundle) := by
  refine ⟨?_, ?_, ?_⟩
  · intro d t hs hout hfail
    obtain ⟨msg, hcall⟩ := add_file_if_outdated_outdated L d d.file_key d.file_path hout
    have hb : (verbose_print d msg).bundle = d.bundle := verbose_print_bundle d msg
    have hfail2 : (L.rucksack_bundle_add_file (verbose_print d msg).bundle d.file_key
        d.file_path).1 ≠ 0 := by rw [hb]; exact hfail
    have h1 := add_file_call_fails L (verbose_print d msg) d.file_key d.file_path hfail2
    have h2 := add_file_call_calls L (verbose_print d msg) d.file_key d.file_path
    refine ⟨(add_file_call L (verbose_print d msg) d.file_key d.file_path).2, ?_, h1.2, ?_⟩
    · unfold on_end
      simp only [hs, hcall, h1.1]
      rw [if_pos (by decide)]
      rw [← h1.1]
    · rw [h2.1, hb, verbose_print_calls]
  · intro d t texture hs ht hout hfail
    obtain ⟨msg, hcall⟩ := add_texture_if_outdated_outdated L d d.texture_key texture hout
    have hb : (verbose_print d msg).bundle = d.bundle := verbose_print_bundle d msg
    have hfail2 : (L.rucksack_bundle_add_texture (verbose_print d msg).bundle d.texture_key
        texture).1 ≠ 0 := by rw [hb]; exact hfail
    have h1 := add_texture_call_fails L (verbose_print d msg) d.texture_key texture hfail2
    have h2 := add_texture_call_calls L (verbose_print d msg) d.texture_key texture
    refine ⟨(add_texture_call L (verbose_print d msg) d.texture_key texture).2, ?_, h1.2, ?_⟩
    · unfold on_end
      simp only [hs, ht, hcall]
      have hp : add_texture_call L (verbose_print d msg) d.texture_key texture =
          (-1, (add_texture_call L (verbose_print d msg) d.texture_key texture).2) := by
        rw [← h1.1]
      rw [hp]
      simp
    · rw [h2.1, hb, verbose_print_calls]
  · intro image arg0 argv a input_filename bundle_filename m bundle pre post e d d1 r
      ha hin hbn hm hopen hev hpre he hr
    have hfeed := feed_abort L pre post e _ d d1 r hpre he hr
    rw [← hev] at hfeed
    obtain ⟨run, hrun, hdrv, hcl, hst⟩ := bundle_manifest_spec L m _ d1 _ hfeed
    have hflag : (final_driver m (some LaxJsonError.LaxJsonErrorAborted) d1).parse_err_occurred
        = true := by
      simp [final_driver, parse_error_latched]
    refine ⟨run, _, ?_, ?_, ?_, hdrv, (final_driver_calls m _ d1).1, (final_driver_calls m _ d1).2.1⟩
    · rw [command_bundle_open L image arg0 argv a input_filename bundle_filename m bundle
        ha hin hbn hm hopen]
      exact hrun
    · rw [hst, if_pos (Or.inl hflag)]
    · rw [hcl, hflag]
      rfl

/-- C12. The code against the claim: the manifest lists the files `b` and `a`
and the source of `b` cannot be read.  The run makes the one call for `b`,
which fails, prints its error, returns 1 and does not close the bundle; no
call is made for `a`. -/
theorem mutation_error_skips_later_entries :
    (command_bundle (exampleLib example_two_file_world) example_image "rucksack"
        ["-", "out.bundle"]).map
      (fun run => (run.status, run.closed, run.driver.map (fun d => d.calls), run.stderr)) =
    some (1, false, some [Call.bundle_add_file (some "b") (some "./b.txt") 1],
      [StderrLine.located "unable to add ./b.txt: error"]) ∧
    (command_bundle (exampleLib example_two_file_ok_world) example_image "rucksack"
        ["-", "out.bundle"]).map
      (fun run => (run.status, run.closed, run.driver.map (fun d => d.calls), run.stderr)) =
    some (0, true, some [Call.bundle_add_file (some "b") (some "./b.txt") 0,
      Call.bundle_add_file (some "a") (some "./a.txt") 0], []) := by
  constructor <;> rfl

/-- C13 (amended). When `command_bundle` returns after `rucksack_bundle_open`
succeeded, it has called `rucksack_bundle_close` exactly when no parse error
is latched in the final globals; on a path with an error latched (a callback
error, a parser error, a manifest that ends early) it returns 1 without
closing.  The globals exist at the return exactly when the arguments were
accepted and the manifest and the bundle opened. -/
theorem bundle_closed_iff_no_error {B E : Type} (L : Lib B E) (image : RuckSackImage)
    (arg0 : String) (argv : List String) (run : BundleRun B)
    (h : command_bundle L image arg0 argv = some run) :
    (run.closed = true ↔ ∃ d, run.driver = some d ∧ d.parse_err_occurred = false) ∧
    (∀ d, run.driver = some d → d.parse_err_occurred = true →
      run.closed = false ∧ run.status = 1) ∧
    ((∃ d, run.driver = some d) ↔
      ∃ a input_filename bundle_filename m bundle,
        bundle_args argv default_bundle_args = some a ∧
        a.input_filename = some input_filename ∧ a.bundle_filename = some bundle_filename ∧
        (if input_filename = "-" then some L.stdin else L.fopen input_filename) = some m ∧
        L.rucksack_bundle_open bundle_filename = Except.ok bundle) := by
  rcases command_bundle_cases L image arg0 argv run h with ⟨hst, hnone, hcl⟩ |
    ⟨a, i, bf, m, b, ha, hin, hbn, hm, hopen, hrun⟩
  · refine ⟨?_, ?_, ?_⟩
    · rw [hcl, hnone]
      simp
    · intro d hd
      rw [hnone] at hd
      cases hd
    · rw [hnone]
      constructor
      · rintro ⟨d, hd⟩
        cases hd
      · rintro ⟨a, i, bf, m, b, ha, hin, hbn, hm, hopen⟩
        rw [command_bundle_open L image arg0 argv a i bf m b ha hin hbn hm hopen] at h
        obtain ⟨r, d1, hfeed⟩ := bundle_manifest_some L m _ run h
        obtain ⟨run2, h2, hdrv, _, _⟩ := bundle_manifest_spec L m _ d1 r hfeed
        rw [h] at h2
        simp only [Option.some.injEq] at h2
        subst h2
        rw [hnone] at hdrv
        cases hdrv
  · obtain ⟨r, d1, hfeed⟩ := bundle_manifest_some L m _ run hrun
    obtain ⟨run2, h2, hdrv, hcl, hst⟩ := bundle_manifest_spec L m _ d1 r hfeed
    rw [hrun] at h2
    simp only [Option.some.injEq] at h2
    subst h2
    refine ⟨?_, ?_, ?_⟩
    · rw [hcl, hdrv]
      simp
    · intro d hd hf
      rw [hdrv] at hd
      simp only [Option.some.injEq] at hd
      subst hd
      rw [hcl, hst, hf]
      simp
    · exact ⟨fun _ => ⟨a, i, bf, m, b, ha, hin, hbn, hm, hopen⟩, fun _ => ⟨_, hdrv⟩⟩

/-- C13. The code against the claim: the bundle opens, the manifest starts
with an unknown top-level property, and the run returns 1 without calling
`rucksack_bundle_close`. -/
theorem parse_error_skips_close :
    (exampleLib example_unknown_property_world).rucksack_bundle_open "out.bundle" =
      Except.ok [] ∧
    (command_bundle (exampleLib example_unknown_property_world) example_image "rucksack"
        ["-", "out.bundle"]).map
      (fun run => (run.status, run.closed, run.driver.map (fun d => d.state), run.stderr)) =
    some (1, false, some State.StateTopLevelProp,
      [StderrLine.located "unknown top level property: bogus"]) := by
  constructor <;> rfl

/-- C13 (amended), at the run of the manifest with the files `b` and `a`, all
sources readable. -/
theorem bundle_closed_iff_no_error_witness :
    ∃ run, command_bundle (exampleLib example_two_file_ok_world) example_image "rucksack"
        ["-", "out.bundle"] = some run ∧ run.closed = true ∧
      (run.closed = true ↔ ∃ d, run.driver = some d ∧ d.parse_err_occurred = false) := by
  cases h : command_bundle (exampleLib example_two_file_ok_world) example_image "rucksack"
      ["-", "out.bundle"] with
  | none => exact absurd h (by rw [show command_bundle (exampleLib example_two_file_ok_world)
      example_image "rucksack" ["-", "out.bundle"] = some _ from rfl]; simp)
  | some run =>
    have hc : run.closed = true := by
      have h2 : (command_bundle (exampleLib example_two_file_ok_world) example_image "rucksack"
        ["-", "out.bundle"]).map (fun r => r.closed) = some true := rfl
      rw [h] at h2
      simpa using h2
    exact ⟨run, rfl, hc, (bundle_closed_iff_no_error _ _ _ _ run h).1⟩

/-- C14. `command_bundle` fails to return only when a callback does not
return.  When it returns, it returns 0 or 1; it returns 0 exactly when the
arguments are accepted with both file names, the manifest and the bundle
open, the parser delivers every event and reports no error, no parse error is
latched, the final state is `StateDone`, and `rucksack_bundle_close` returns
0; and a run that ends in a state other than `StateDone` returns 1. -/
theorem command_bundle_status {B E : Type} (L : Lib B E) (image : RuckSackImage)
    (arg0 : String) (argv : List String) :
    (command_bundle L image arg0 argv = none ↔
      ∃ a input_filename bundle_filename m bundle,
        bundle_args argv default_bundle_args = some a ∧
        a.input_filename = some input_filename ∧ a.bundle_filename = some bundle_filename ∧
        (if input_filename = "-" then some L.stdin else L.fopen input_filename) = some m ∧
        L.rucksack_bundle_open bundle_filename = Except.ok bundle ∧
        feed L m.events (initial_driver bundle image a) = none) ∧
    (∀ run, command_bundle L image arg0 argv = some run →
      (run.status = 0 ∨ run.status = 1) ∧
      (run.status = 0 ↔
        ∃ a input_filename bundle_filename m bundle d,
          bundle_args argv default_bundle_args = some a ∧
          a.input_filename = some input_filename ∧ a.bundle_filename = some bundle_filename ∧
          (if input_filename = "-" then some L.stdin else L.fopen input_filename) = some m ∧
          L.rucksack_bundle_open bundle_filename = Except.ok bundle ∧
          feed L m.events (initial_driver bundle image a) = some (none, d) ∧
          m.error = none ∧ d.parse_err_occurred = false ∧ d.state = State.StateDone ∧
          L.rucksack_bundle_close d.bundle = 0) ∧
      (∀ d, run.driver = some d → d.state ≠ State.StateDone → run.status = 1)) := by
  constructor
  · constructor
    · intro h
      cases hc : command_bundle L image arg0 argv with
      | some run => rw [hc] at h; cases h
      | none =>
        clear hc
        unfold command_bundle at h
        simp only at h
        split at h
        · cases h
        · rename_i a ha
          split at h
          · cases h
          · cases h
          · rename_i i bf hin hbn
            split at h
            · cases h
            · rename_i m hm
              split at h
              · cases h
              · rename_i b hopen
                refine ⟨a, i, bf, m, b, ha, hin, hbn, hm, hopen, ?_⟩
                cases hf : feed L m.events (initial_driver b image a) with
                | none => rfl
                | some p =>
                  obtain ⟨run, hrun, _⟩ := bundle_manifest_spec L m _ p.2 p.1 hf
                  rw [hrun] at h
                  cases h
    · rintro ⟨a, i, bf, m, b, ha, hin, hbn, hm, hopen, hf⟩
      rw [command_bundle_open L image arg0 argv a i bf m b ha hin hbn hm hopen]
      unfold bundle_manifest
      rw [hf]
  · intro run h
    rcases command_bundle_cases L image arg0 argv run h with ⟨hst, hnone, hcl⟩ |
      ⟨a, i, bf, m, b, ha, hin, hbn, hm, hopen, hrun⟩
    · refine ⟨Or.inr hst, ?_, ?_⟩
      · constructor
        · intro h0
          rw [hst] at h0
          cases h0
        · rintro ⟨a, i, bf, m, b, d, ha, hin, hbn, hm, hopen, hf, _⟩
          rw [command_bundle_open L image arg0 argv a i bf m b ha hin hbn hm hopen] at h
          obtain ⟨run2, h2, hdrv, _, _⟩ := bundle_manifest_spec L m _ d none hf
          rw [h] at h2
          simp only [Option.some.injEq] at h2
          subst h2
          rw [hnone] at hdrv
          cases hdrv
      · intro d hd
        rw [hnone] at hd
        cases hd
    · obtain ⟨r, d1, hfeed⟩ := bundle_manifest_some L m _ run hrun
      obtain ⟨run2, h2, hdrv, hcl, hst⟩ := bundle_manifest_spec L m _ d1 r hfeed
      rw [hrun] at h2
      simp only [Option.some.injEq] at h2
      subst h2
      have hflag := final_driver_flag m r d1
      have hfin := final_driver_calls m r d1
      refine ⟨?_, ?_, ?_⟩
      · rw [hst]
        split
        · exact Or.inr rfl
        · exact Or.inl rfl
      · constructor
        · intro h0
          rw [hst] at h0
          split at h0
          · cases h0
          · rename_i hn
            simp only [not_or, Bool.not_eq_true, ne_eq, not_not] at hn
            obtain ⟨hr, hme, hpf, hsd⟩ := hflag.mp hn.1
            subst hr
            refine ⟨a, i, bf, m, b, d1, ha, hin, hbn, hm, hopen, hfeed, hme, hpf, hsd, ?_⟩
            rw [← hfin.2.1]
            exact hn.2
        · rintro ⟨a2, i2, bf2, m2, b2, d, ha2, hin2, hbn2, hm2, hopen2, hf2, hme, hpf, hsd, hclose⟩
          rw [ha] at ha2
          simp only [Option.some.injEq] at ha2
          subst ha2
          rw [hin] at hin2
          rw [hbn] at hbn2
          simp only [Option.some.injEq] at hin2 hbn2
          subst hin2
          subst hbn2
          rw [hm] at hm2
          rw [hopen] at hopen2
          simp only [Option.some.injEq, Except.ok.injEq] at hm2 hopen2
          subst hm2
          subst hopen2
          rw [hfeed] at hf2
          simp only [Option.some.injEq, Prod.mk.injEq] at hf2
          obtain ⟨hr, hd⟩ := hf2
          subst hr
          subst hd
          have hff := hflag.mpr ⟨rfl, hme, hpf, hsd⟩
          rw [hst, if_neg]
          rw [hff, hfin.2.1]
          simp [hclose]
      · intro d hd hsd
        rw [hdrv] at hd
        simp only [Option.some.injEq] at hd
        subst hd
        rw [hfin.2.2] at hsd
        have hne : (final_driver m r d1).parse_err_occurred ≠ false := by
          intro hc
          exact hsd (hflag.mp hc).2.2.2
        rw [hst, if_pos]
        left
        simpa using hne

/-! ## Property names -/

/-- C17. In each of the seven property-name states, `on_string` with a string
of the state's allowed set returns 0 and neither latches nor prints an error;
with any other string it is a `parse_error`: it returns -1 with the error
latched. -/
theorem unknown_properties_rejected {B E : Type} (L : Lib B E) (d : Driver B)
    (t : LaxJsonType) (value : String) (h : d.state ∈ property_states) :
    (value ∈ allowed_properties d.state →
      ∃ d1, on_string L d t value = some (0, d1) ∧
        d1.parse_err_occurred = d.parse_err_occurred ∧ d1.stderr = d.stderr) ∧
    (value ∉ allowed_properties d.state →
      ∃ msg, on_string L d t value = some (parse_error d msg) ∧
        (parse_error d msg).1 = -1 ∧ (parse_error d msg).2.parse_err_occurred = true) := by
  simp only [property_states, List.mem_cons, List.mem_singleton, List.not_mem_nil,
    or_false] at h
  rcases h with h | h | h | h | h | h | h
  all_goals
    refine ⟨?_, ?_⟩
    · intro hv
      simp only [h, allowed_properties, List.mem_cons, List.mem_singleton, List.not_mem_nil,
        or_false] at hv
      simp only [on_string, h, goto]
      split_ifs
      all_goals first
        | exact ⟨_, rfl, rfl, rfl⟩
        | (exfalso; simp_all)
    · intro hv
      simp only [h, allowed_properties, List.mem_cons, List.mem_singleton, List.not_mem_nil,
        or_false, not_or] at hv
      simp only [on_string, h, goto]
      split_ifs
      all_goals first
        | exact ⟨_, rfl, parse_error_fst _ _, parse_error_latched _ _⟩
        | (exfalso; simp_all)

/-- C17 at the example globals in the state `StateGlobImageObjectProp`, with
the strings `anchor` and `images`. -/
theorem unknown_properties_rejected_witness :
    (on_string (exampleLib example_world) example_property_driver
        LaxJsonType.LaxJsonTypeProperty "anchor").map (fun p => (p.1, p.2.stderr)) =
      some (0, []) ∧
    (on_string (exampleLib example_world) example_property_driver
        LaxJsonType.LaxJsonTypeProperty "images").map (fun p => (p.1, p.2.stderr)) =
      some (-1, [StderrLine.located "unknown globImages property: images"]) ∧
    ("images" ∉ allowed_properties example_property_driver.state →
      ∃ msg, on_string (exampleLib example_world) example_property_driver
          LaxJsonType.LaxJsonTypeProperty "images" =
        some (parse_error example_property_driver msg) ∧
        (parse_error example_property_driver msg).1 = -1 ∧
        (parse_error example_property_driver msg).2.parse_err_occurred = true) :=
  ⟨rfl, rfl,
   (unknown_properties_rejected (exampleLib example_world) example_property_driver
     LaxJsonType.LaxJsonTypeProperty "images" (by decide)).2⟩

/-! ## Completion of entries -/

theorem on_string_actions {B E : Type} (L : Lib B E) (d d1 : Driver B) (t : LaxJsonType)
    (value : String) (r : Int) (h : on_string L d t value = some (r, d1)) :
    d1.bundle = d.bundle ∧ d1.latest_mtime = d.latest_mtime ∧
    d1.calls.filter is_action = d.calls.filter is_action := by
  unfold on_string at h
  simp only [goto] at h
  repeat' split at h
  all_goals
    simp only [Option.some.injEq] at h
    have h2 := congrArg Prod.snd h
    simp only at h2
    subst h2
    simp [log_call, List.filter_append, is_action]

theorem on_number_actions {B : Type} (d d1 : Driver B) (x : Rat) (r : Int)
    (h : on_number d x = some (r, d1)) :
    d1.bundle = d.bundle ∧ d1.latest_mtime = d.latest_mtime ∧ d1.calls = d.calls := by
  unfold on_number at h
  repeat' split at h
  all_goals
    first
    | (simp only [Option.some.injEq] at h
       have h2 := congrArg Prod.snd h
       simp only at h2
       subst h2
       simp)
    | simp at h

theorem on_primitive_actions {B : Type} (d d1 : Driver B) (t : LaxJsonType) (r : Int)
    (h : on_primitive d t = some (r, d1)) :
    d1.bundle = d.bundle ∧ d1.latest_mtime = d.latest_mtime ∧ d1.calls = d.calls := by
  unfold on_primitive at h
  repeat' split at h
  all_goals
    first
    | (simp only [Option.some.injEq] at h
       have h2 := congrArg Prod.snd h
       simp only at h2
       subst h2
       simp)
    | simp at h

theorem on_begin_actions {B : Type} (d d1 : Driver B) (t : LaxJsonType) (r : Int)
    (h : on_begin d t = some (r, d1)) :
    d1.bundle = d.bundle ∧ d1.latest_mtime = d.latest_mtime ∧ d1.calls = d.calls := by
  unfold on_begin at h
  simp only [goto] at h
  repeat' split at h
  all_goals
    first
    | (simp only [Option.some.injEq] at h
       have h2 := congrArg Prod.snd h
       simp only at h2
       subst h2
       simp)
    | simp at h

theorem on_end_other_states {B E : Type} (L : Lib B E) (d d1 : Driver B) (t : LaxJsonType)
    (r : Int) (hs : d.state ∉ completion_states) (h : on_end L d t = some (r, d1)) :
    d1.bundle = d.bundle ∧ d1.latest_mtime = d.latest_mtime ∧ d1.calls = d.calls := by
  simp only [completion_states, List.mem_cons, List.mem_singleton, List.not_mem_nil, or_false,
    not_or] at hs
  obtain ⟨h1, h2, h3, h4, h5⟩ := hs
  unfold on_end at h
  simp only [goto] at h
  split at h
  case h_4 => rename_i hc; exact absurd hc h1
  case h_5 => rename_i hc; exact absurd hc h3
  case h_8 => rename_i hc; exact absurd hc h2
  case h_9 => rename_i hc; exact absurd hc h4
  case h_10 => rename_i hc; exact absurd hc h5
  all_goals
    simp only [Option.some.injEq] at h
    have h2 := congrArg Prod.snd h
    simp only at h2
    subst h2
    simp

theorem texture_add_image_call_some {B E : Type} (L : Lib B E) (d : Driver B)
    (texture : RuckSackTexture) (ht : d.texture = some texture) :
    ∃ p, texture_add_image_call L d = some p ∧
      p.2.calls = d.calls ++
        [Call.texture_add_image d.image (L.rucksack_texture_add_image texture d.image).1] ∧
      p.2.bundle = d.bundle ∧ p.2.latest_mtime = d.latest_mtime ∧ p.2.image = d.image ∧
      ((L.rucksack_texture_add_image texture d.image).1 = 0 →
        p.1 = 0 ∧ p.2.texture = some (L.rucksack_texture_add_image texture d.image).2) ∧
      ((L.rucksack_texture_add_image texture d.image).1 ≠ 0 → p.1 = -1) := by
  unfold texture_add_image_call
  simp only [ht]
  by_cases he : (L.rucksack_texture_add_image texture d.image).1 = 0
  · rw [if_neg (not_not.mpr he)]
    refine ⟨_, rfl, ?_, ?_, ?_, ?_, fun _ => ⟨rfl, ?_⟩, fun hh => absurd he hh⟩ <;>
      simp [log_call]
  · rw [if_pos he]
    refine ⟨_, rfl, ?_, ?_, ?_, ?_, fun hh => absurd hh he, fun _ => ?_⟩ <;>
      simp [log_call, parse_error_image]

theorem add_file_if_outdated_calls {B E : Type} (L : Lib B E) (d : Driver B)
    (key : Option CStr) (path : Option String) :
    (add_file_if_outdated L d key path).2.calls = d.calls ∨
    (add_file_if_outdated L d key path).2.calls =
      d.calls ++ [Call.bundle_add_file key path (L.rucksack_bundle_add_file d.bundle key path).1] := by
  unfold add_file_if_outdated
  split
  · simp only
    split
    · left
      exact verbose_print_calls _ _
    · right
      simpa [verbose_print_calls] using (add_file_call_calls L (verbose_print d _) key path).1
  · right
    simpa [verbose_print_calls] using (add_file_call_calls L (verbose_print d _) key path).1

theorem add_texture_if_outdated_calls {B E : Type} (L : Lib B E) (d d1 : Driver B)
    (key : Option CStr) (texture : RuckSackTexture) (r : Int)
    (h : add_texture_if_outdated L d key texture = some (r, d1)) :
    d1.calls = d.calls ∨
    d1.calls = d.calls ++
      [Call.bundle_add_texture key texture (L.rucksack_bundle_add_texture d.bundle key texture).1] := by
  unfold add_texture_if_outdated at h
  split at h
  · split at h
    · simp at h
    · simp only at h
      split at h
      · simp only [Option.some.injEq, Prod.mk.injEq] at h
        obtain ⟨_, rfl⟩ := h
        left
        exact verbose_print_calls _ _
      · simp only [Option.some.injEq] at h
        have h2 := congrArg Prod.snd h
        simp only at h2
        subst h2
        right
        simpa [verbose_print_calls] using
          (add_texture_call_calls L (verbose_print d _) key texture).1
  · simp only [Option.some.injEq] at h
    have h2 := congrArg Prod.snd h
    simp only at h2
    subst h2
    right
    simpa [verbose_print_calls] using
      (add_texture_call_calls L (verbose_print d _) key texture).1

/-- C15. Entries are completed by `on_end` only.  In `StateImagePropName`,
with a texture open, `on_end` makes exactly one call of
`rucksack_texture_add_image`, with the current image, and on its success
raises `latest_mtime` to the mtime of the image's path.  In `StateTextureProp`
it runs `add_texture_if_outdated` with the current texture key and texture,
which makes at most one call of `rucksack_bundle_add_texture`.  In
`StateFilePropName` it runs `add_file_if_outdated` with the current file key
and file path, which makes at most one call of `rucksack_bundle_add_file`; the
file path is the one `on_string` resolved against the prefix.  In
`StateGlobObjectProp` and `StateGlobImageObjectProp` it runs `perform_glob`
with the handler for files and for images.  In every other state `on_end`,
and in every state `on_string`, `on_number`, `on_primitive` and `on_begin`,
leave the bundle and `latest_mtime` as they are and make none of these
calls. -/
theorem entry_completion_on_end {B E : Type} (L : Lib B E) (d : Driver B) (t : LaxJsonType) :
    (d.state = State.StateImagePropName → ∀ texture, d.texture = some texture →
      ∃ r d1, on_end L d t = some (r, d1) ∧
        d1.calls = d.calls ++
          [Call.texture_add_image d.image (L.rucksack_texture_add_image texture d.image).1] ∧
        d1.bundle = d.bundle ∧
        ((L.rucksack_texture_add_image texture d.image).1 = 0 →
          r = 0 ∧ d1.texture = some (L.rucksack_texture_add_image texture d.image).2 ∧
          d1.latest_mtime = max d.latest_mtime (stat_mtime L d.image.path)) ∧
        ((L.rucksack_texture_add_image texture d.image).1 ≠ 0 →
          r = -1 ∧ d1.latest_mtime = d.latest_mtime)) ∧
    (d.state = State.StateTextureProp → ∀ texture, d.texture = some texture →
      on_end L d t =
        (add_texture_if_outdated L d d.texture_key texture).map (fun p =>
          if p.1 ≠ 0 then p
          else (0, { p.2 with
            texture := none, texture_key := none, state := State.StateTextureName })) ∧
      ∀ r d1, on_end L d t = some (r, d1) →
        d1.calls = d.calls ∨
        d1.calls = d.calls ++ [Call.bundle_add_texture d.texture_key texture
          (L.rucksack_bundle_add_texture d.bundle d.texture_key texture).1]) ∧
    (d.state = State.StateFilePropName →
      on_end L d t =
        some (if (add_file_if_outdated L d d.file_key d.file_path).1 ≠ 0 then
            add_file_if_outdated L d d.file_key d.file_path
          else (0, { (add_file_if_outdated L d d.file_key d.file_path).2 with
            file_path := none, file_key := none, state := State.StateFileName })) ∧
      ∀ r d1, on_end L d t = some (r, d1) →
        d1.calls = d.calls ∨
        d1.calls = d.calls ++ [Call.bundle_add_file d.file_key d.file_path
          (L.rucksack_bundle_add_file d.bundle d.file_key d.file_path).1]) ∧
    (d.state = State.StateFilePropPath → ∀ value, L.malloc_ok value = true →
      on_string L d t value =
        some (0, { d with
          file_path := some (L.path_resolve d.path_prefix value),
          state := State.StateFilePropName })) ∧
    (d.state = State.StateGlobObjectProp →
      on_end L d t =
        (perform_glob L (fun d2 key path =>
            some (add_file_if_outdated L d2 (some key) (some path))) d).map (fun p =>
          if p.1 ≠ 0 then p else (0, { p.2 with state := State.StateGlobObject }))) ∧
    (d.state = State.StateGlobImageObjectProp →
      on_end L d t =
        (perform_glob L (add_glob_match_to_texture L) d).map (fun p =>
          if p.1 ≠ 0 then p else (0, { p.2 with state := State.StateGlobImageObject }))) ∧
    (d.state ∉ completion_states → ∀ r d1, on_end L d t = some (r, d1) →
      d1.bundle = d.bundle ∧ d1.latest_mtime = d.latest_mtime ∧ d1.calls = d.calls) ∧
    (∀ value r d1, on_string L d t value = some (r, d1) →
      d1.bundle = d.bundle ∧ d1.latest_mtime = d.latest_mtime ∧
      d1.calls.filter is_action = d.calls.filter is_action) ∧
    (∀ x r d1, on_number d x = some (r, d1) →
      d1.bundle = d.bundle ∧ d1.latest_mtime = d.latest_mtime ∧ d1.calls = d.calls) ∧
    (∀ r d1, on_primitive d t = some (r, d1) →
      d1.bundle = d.bundle ∧ d1.latest_mtime = d.latest_mtime ∧ d1.calls = d.calls) ∧
    (∀ r d1, on_begin d t = some (r, d1) →
      d1.bundle = d.bundle ∧ d1.latest_mtime = d.latest_mtime ∧ d1.calls = d.calls) := by
  refine ⟨?_, ?_, ?_, ?_, ?_, ?_, ?_, ?_, ?_, ?_, ?_⟩
  · intro hs texture ht
    obtain ⟨⟨r, d1⟩, hc, hcalls, hb, hm, himg, hok, hfail⟩ :=
      texture_add_image_call_some L d texture ht
    simp only at hcalls hb hm himg hok hfail
    by_cases he : (L.rucksack_texture_add_image texture d.image).1 = 0
    · obtain ⟨hr, htex⟩ := hok he
      subst hr
      refine ⟨0, { check_latest_mtime L d1 d1.image.path with
          image := { (check_latest_mtime L d1 d1.image.path).image with
            path := none, key := none },
          state := State.StateImageName }, ?_, ?_, ?_, fun _ => ⟨rfl, ?_, ?_⟩,
        fun hh => absurd he hh⟩
      · simp only [on_end, hs, hc]
        rfl
      · simp only
        rw [(check_latest_mtime_spec L d1 d1.image.path).2.1, hcalls]
      · simp only [check_latest_mtime]
        split <;> exact hb
      · simp only [check_latest_mtime]
        split <;> exact htex
      · simp only
        rw [(check_latest_mtime_spec L d1 d1.image.path).1, hm, himg]
    · have hr := hfail he
      subst hr
      refine ⟨-1, d1, ?_, hcalls, hb, fun hh => absurd hh he, fun _ => ⟨rfl, hm⟩⟩
      simp only [on_end, hs, hc]
      rfl
  · intro hs texture ht
    have heq : on_end L d t =
        (add_texture_if_outdated L d d.texture_key texture).map (fun p =>
          if p.1 ≠ 0 then p
          else (0, { p.2 with
            texture := none, texture_key := none, state := State.StateTextureName })) := by
      simp only [on_end, hs, ht]
      cases add_texture_if_outdated L d d.texture_key texture with
      | none => rfl
      | some p =>
        obtain ⟨err, d2⟩ := p
        simp only [Option.map_some']
        split <;> rfl
    refine ⟨heq, ?_⟩
    intro r d1 h
    rw [heq] at h
    cases hc : add_texture_if_outdated L d d.texture_key texture with
    | none => rw [hc] at h; simp at h
    | some p =>
      obtain ⟨err, d2⟩ := p
      have hcalls := add_texture_if_outdated_calls L d d2 d.texture_key texture err hc
      rw [hc] at h
      simp only [Option.map_some', Option.some.injEq] at h
      split at h
      · simp only [Prod.mk.injEq] at h
        obtain ⟨_, rfl⟩ := h
        exact hcalls
      · simp only [Prod.mk.injEq] at h
        obtain ⟨_, rfl⟩ := h
        exact hcalls
  · intro hs
    have heq : on_end L d t =
        some (if (add_file_if_outdated L d d.file_key d.file_path).1 ≠ 0 then
            add_file_if_outdated L d d.file_key d.file_path
          else (0, { (add_file_if_outdated L d d.file_key d.file_path).2 with
            file_path := none, file_key := none, state := State.StateFileName })) := by
      simp only [on_end, hs]
      split <;> rfl
    refine ⟨heq, ?_⟩
    intro r d1 h
    rw [heq] at h
    have hcalls := add_file_if_outdated_calls L d d.file_key d.file_path
    simp only [Option.some.injEq] at h
    split at h
    · rw [h] at hcalls
      exact hcalls
    · simp only [Prod.mk.injEq] at h
      obtain ⟨_, rfl⟩ := h
      exact hcalls
  · intro hs value hm
    simp only [on_string, hs, resolve_path, hm, if_true]
  · intro hs
    simp only [on_end, hs, glob_insert_files]
    have hcb : add_glob_match_to_bundle L = fun d2 key path =>
        some (add_file_if_outdated L d2 (some key) (some path)) := by
      funext d2 key path
      rfl
    rw [hcb]
    cases perform_glob L (fun d2 key path =>
        some (add_file_if_outdated L d2 (some key) (some path))) d with
    | none => rfl
    | some p =>
      obtain ⟨err, d2⟩ := p
      simp only [Option.map_some']
      split <;> rfl
  · intro hs
    simp only [on_end, hs, glob_insert_images]
    cases perform_glob L (add_glob_match_to_texture L) d with
    | none => rfl
    | some p =>
      obtain ⟨err, d2⟩ := p
      simp only [Option.map_some']
      split <;> rfl
  · intro hs r d1 h
    exact on_end_other_states L d d1 t r hs h
  · intro value r d1 h
    exact on_string_actions L d d1 t value r h
  · intro x r d1 h
    exact on_number_actions d d1 x r h
  · intro r d1 h
    exact on_primitive_actions d d1 t r h
  · intro r d1 h
    exact on_begin_actions d d1 t r h

/-! ## Acceptance of well-formed manifests -/

theorem accepts_nil {B E : Type} (L : Lib B E) (P : Driver B → Prop) : Accepts L P P [] :=
  fun d hd => ⟨d, rfl, hd, rfl⟩

theorem accepts_append {B E : Type} (L : Lib B E) (P Q R : Driver B → Prop)
    (a b : List Event) (h1 : Accepts L P Q a) (h2 : Accepts L Q R b) :
    Accepts L P R (a ++ b) := by
  intro d hd
  obtain ⟨d1, hf1, hq, hp1⟩ := h1 d hd
  obtain ⟨d2, hf2, hr, hp2⟩ := h2 d1 hq
  exact ⟨d2, by rw [feed_append L b a d d1 hf1]; exact hf2, hr, hp2.trans hp1⟩

theorem accepts_cons {B E : Type} (L : Lib B E) (P Q R : Driver B → Prop) (e : Event)
    (es : List Event)
    (h1 : ∀ d, P d → ∃ d1, dispatch L d e = some (0, d1) ∧ Q d1 ∧
      d1.parse_err_occurred = d.parse_err_occurred)
    (h2 : Accepts L Q R es) : Accepts L P R (e :: es) := by
  intro d hd
  obtain ⟨d1, hdis, hq, hp1⟩ := h1 d hd
  obtain ⟨d2, hf2, hr, hp2⟩ := h2 d1 hq
  refine ⟨d2, ?_, hr, hp2.trans hp1⟩
  conv => lhs; unfold feed
  simp only [hdis, ne_eq, not_true_eq_false, if_false]
  exact hf2

theorem accepts_single {B E : Type} (L : Lib B E) (P Q : Driver B → Prop) (e : Event)
    (h1 : ∀ d, P d → ∃ d1, dispatch L d e = some (0, d1) ∧ Q d1 ∧
      d1.parse_err_occurred = d.parse_err_occurred) : Accepts L P Q [e] :=
  accepts_cons L P Q Q e [] h1 (accepts_nil L Q)

theorem accepts_concat {B E : Type} {α : Type} (L : Lib B E) (P : Driver B → Prop)
    (f : α → List Event) :
    ∀ (xs : List α), (∀ x ∈ xs, Accepts L P P (f x)) → Accepts L P P (concat_events f xs)
  | [], _ => accepts_nil L P
  | x :: xs, h =>
    accepts_append L P P P (f x) (concat_events f xs) (h x (List.mem_cons_self x xs))
      (accepts_concat L P f xs (fun y hy => h y (List.mem_cons_of_mem x hy)))

/-- An object or array from `open_event` to `close_event` around items. -/
theorem accepts_block {B E : Type} {α : Type} (L : Lib B E) (P Q R : Driver B → Prop)
    (f : α → List Event) (xs : List α) (open_event close_event : Event)
    (hopen : ∀ d, P d → ∃ d1, dispatch L d open_event = some (0, d1) ∧ Q d1 ∧
      d1.parse_err_occurred = d.parse_err_occurred)
    (hitems : ∀ x ∈ xs, Accepts L Q Q (f x))
    (hclose : ∀ d, Q d → ∃ d1, dispatch L d close_event = some (0, d1) ∧ R d1 ∧
      d1.parse_err_occurred = d.parse_err_occurred) :
    Accepts L P R (open_event :: (concat_events f xs ++ [close_event])) :=
  accepts_cons L P Q R open_event _ hopen
    (accepts_append L Q Q R _ _ (accepts_concat L Q f xs hitems)
      (accepts_single L Q R close_event hclose))

theorem anchor_of_string_some (value : String) (h : value ∈ anchor_strings) :
    ∃ a, anchor_of_string value = some a := by
  simp only [anchor_strings, List.mem_cons, List.mem_singleton, List.not_mem_nil,
    or_false] at h
  rcases h with h | h | h | h | h | h | h | h | h <;> subst h <;> exact ⟨_, rfl⟩

theorem double_to_int_cast (n : Int) (h : is_int n = true) :
    double_to_int (n : Rat) = some n := by
  simp only [is_int, decide_eq_true_eq] at h
  simp [double_to_int, h.1, h.2]

theorem accepts_anchor_coord {B E : Type} (L : Lib B E) (n : State) (c : AnchorCoord) :
    Accepts L (@in_anchor B State.StateImagePropAnchorObject n)
      (in_anchor State.StateImagePropAnchorObject n) c.events := by
  cases c with
  | x v =>
    refine accepts_cons L _ (in_anchor State.StateImagePropAnchorX n) _ _ _ ?_
      (accepts_single L _ _ _ ?_)
    · rintro d ⟨hs, hn, ht⟩
      simp only [dispatch, on_string, hs, goto, if_true]
      exact ⟨_, rfl, ⟨rfl, hn, ht⟩, rfl⟩
    · rintro d ⟨hs, hn, ht⟩
      simp only [dispatch, on_number, hs]
      exact ⟨_, rfl, ⟨rfl, hn, ht⟩, rfl⟩
  | y v =>
    refine accepts_cons L _ (in_anchor State.StateImagePropAnchorY n) _ _ _ ?_
      (accepts_single L _ _ _ ?_)
    · rintro d ⟨hs, hn, ht⟩
      simp only [dispatch, on_string, hs, goto, String.reduceEq, if_true, if_false]
      exact ⟨_, rfl, ⟨rfl, hn, ht⟩, rfl⟩
    · rintro d ⟨hs, hn, ht⟩
      simp only [dispatch, on_number, hs]
      exact ⟨_, rfl, ⟨rfl, hn, ht⟩, rfl⟩

theorem accepts_anchor {B E : Type} (L : Lib B E) (n : State) (a : AnchorSpec)
    (hc : a.conforms = true) :
    Accepts L (@in_anchor B State.StateImagePropAnchor n) (in_texture n) a.events := by
  cases a with
  | named value =>
    simp only [AnchorSpec.conforms, decide_eq_true_eq] at hc
    obtain ⟨k, hk⟩ := anchor_of_string_some value hc
    refine accepts_single L _ _ _ ?_
    rintro d ⟨hs, hn, ht⟩
    simp only [dispatch, on_string, hs, hk]
    exact ⟨_, rfl, ⟨hn, ht⟩, rfl⟩
  | point coords =>
    refine accepts_block L _ (in_anchor State.StateImagePropAnchorObject n) _
      AnchorCoord.events coords _ _ ?_ (fun c _ => accepts_anchor_coord L n c) ?_
    · rintro d ⟨hs, hn, ht⟩
      simp only [dispatch, on_begin, hs, reduceCtorEq, if_false, ne_eq, not_true_eq_false]
      exact ⟨_, rfl, ⟨rfl, hn, ht⟩, rfl⟩
    · rintro d ⟨hs, hn, ht⟩
      simp only [dispatch, on_end, hs, goto]
      exact ⟨_, rfl, ⟨hn, ht⟩, rfl⟩

theorem accepts_image_prop {B E : Type} (L : Lib B E) (hL : AllSucceed L) (p : ImageProp)
    (hc : p.conforms = true) :
    Accepts L (@in_texture B State.StateImagePropName)
      (in_texture State.StateImagePropName) p.events := by
  cases p with
  | path value =>
    refine accepts_cons L _ (in_texture State.StateImagePropPath) _ _ _ ?_
      (accepts_single L _ _ _ ?_)
    · rintro d ⟨hs, ht⟩
      simp only [dispatch, on_string, hs, goto, String.reduceEq, if_true, if_false]
      exact ⟨_, rfl, ⟨rfl, ht⟩, rfl⟩
    · rintro d ⟨hs, ht⟩
      simp only [dispatch, on_string, hs, resolve_path, hL.malloc, if_true]
      exact ⟨_, rfl, ⟨rfl, ht⟩, rfl⟩
  | anchor a =>
    refine accepts_cons L _ (in_anchor State.StateImagePropAnchor State.StateImagePropName)
      _ _ _ ?_ (accepts_anchor L _ a hc)
    rintro d ⟨hs, ht⟩
    simp only [dispatch, on_string, hs, if_true]
    exact ⟨_, rfl, ⟨rfl, rfl, ht⟩, rfl⟩

theorem texture_add_image_call_succeeds {B E : Type} (L : Lib B E) (hL : AllSucceed L)
    (d : Driver B) (ht : d.texture ≠ none) :
    ∃ d1, texture_add_image_call L d = some (0, d1) ∧ d1.state = d.state ∧
      d1.texture ≠ none ∧ d1.parse_err_occurred = d.parse_err_occurred := by
  cases htex : d.texture with
  | none => exact absurd htex ht
  | some texture =>
    unfold texture_add_image_call
    simp only [htex, hL.add_image, ne_eq, not_true_eq_false, if_false]
    exact ⟨_, rfl, rfl, by simp [log_call], rfl⟩

theorem check_latest_mtime_fields {B E : Type} (L : Lib B E) (d : Driver B)
    (path : Option String) :
    (check_latest_mtime L d path).state = d.state ∧
    (check_latest_mtime L d path).texture = d.texture ∧
    (check_latest_mtime L d path).parse_err_occurred = d.parse_err_occurred := by
  unfold check_latest_mtime
  simp only
  split <;> exact ⟨rfl, rfl, rfl⟩

theorem accepts_image_entry {B E : Type} (L : Lib B E) (hL : AllSucceed L)
    (entry : String × List ImageProp) (hc : entry.2.all ImageProp.conforms = true) :
    Accepts L (@in_texture B State.StateImageName) (in_texture State.StateImageName)
      (image_entry_events entry) := by
  refine accepts_cons L _ (in_texture State.StateImageObjectBegin) _ _ _ ?_
    (accepts_block L _ (in_texture State.StateImagePropName) _ ImageProp.events entry.2 _ _
      ?_ ?_ ?_)
  · rintro d ⟨hs, ht⟩
    simp only [dispatch, on_string, hs]
    exact ⟨_, rfl, ⟨rfl, ht⟩, rfl⟩
  · rintro d ⟨hs, ht⟩
    simp only [dispatch, on_begin, hs, goto, reduceCtorEq, if_false, ne_eq, not_true_eq_false]
    exact ⟨_, rfl, ⟨rfl, ht⟩, rfl⟩
  · intro p hp
    exact accepts_image_prop L hL p (List.all_eq_true.mp hc p hp)
  · rintro d ⟨hs, ht⟩
    obtain ⟨d1, hcall, hs1, ht1, hp1⟩ := texture_add_image_call_succeeds L hL d ht
    have hfields := check_latest_mtime_fields L d1 d1.image.path
    simp only [dispatch, on_end, hs, hcall, ne_eq, not_true_eq_false, if_false]
    exact ⟨_, rfl, ⟨rfl, by simpa [hfields.2.1] using ht1⟩, by simpa [hfields.2.2] using hp1⟩

theorem accepts_glob_image_prop {B E : Type} (L : Lib B E) (p : GlobImageProp)
    (hc : p.conforms = true) :
    Accepts L (@in_texture B State.StateGlobImageObjectProp)
      (in_texture State.StateGlobImageObjectProp) p.events := by
  cases p with
  | glob name value =>
    cases name
    · refine accepts_cons L _ (in_texture State.StateGlobImageValueGlob) _ _ _ ?_
        (accepts_single L _ _ _ ?_)
      · rintro d ⟨hs, ht⟩
        simp only [dispatch, on_string, hs, goto, GlobPropName.text, String.reduceEq, if_true,
          if_false]
        exact ⟨_, rfl, ⟨rfl, ht⟩, rfl⟩
      · rintro d ⟨hs, ht⟩
        simp only [dispatch, on_string, hs]
        exact ⟨_, rfl, ⟨rfl, ht⟩, rfl⟩
    · refine accepts_cons L _ (in_texture State.StateGlobImageValuePath) _ _ _ ?_
        (accepts_single L _ _ _ ?_)
      · rintro d ⟨hs, ht⟩
        simp only [dispatch, on_string, hs, goto, GlobPropName.text, String.reduceEq, if_true,
          if_false]
        exact ⟨_, rfl, ⟨rfl, ht⟩, rfl⟩
      · rintro d ⟨hs, ht⟩
        simp only [dispatch, on_string, hs]
        exact ⟨_, rfl, ⟨rfl, ht⟩, rfl⟩
    · refine accepts_cons L _ (in_texture State.StateGlobImageValuePrefix) _ _ _ ?_
        (accepts_single L _ _ _ ?_)
      · rintro d ⟨hs, ht⟩
        simp only [dispatch, on_string, hs, goto, GlobPropName.text, String.reduceEq, if_true,
          if_false]
        exact ⟨_, rfl, ⟨rfl, ht⟩, rfl⟩
      · rintro d ⟨hs, ht⟩
        simp only [dispatch, on_string, hs]
        exact ⟨_, rfl, ⟨rfl, ht⟩, rfl⟩
  | anchor a =>
    refine accepts_cons L _
      (in_anchor State.StateImagePropAnchor State.StateGlobImageObjectProp)
      _ _ _ ?_ (accepts_anchor L _ a hc)
    rintro d ⟨hs, ht⟩
    simp only [dispatch, on_string, hs, String.reduceEq, if_true, if_false]
    exact ⟨_, rfl, ⟨rfl, rfl, ht⟩, rfl⟩

theorem glob_loop_succeeds {B E : Type} (L : Lib B E) (hL : AllSucceed L)
    (cb : Driver B → CStr → String → Option (Int × Driver B)) (Inv : Driver B → Prop)
    (hcb : ∀ d key path, Inv d → ∃ d1, cb d key path = some (0, d1) ∧ Inv d1)
    (strbuf3 pre : String) :
    ∀ (paths : List String) (d : Driver B), Inv d →
      ∃ d1, (glob_loop L cb strbuf3 pre paths d).1 = some (0, d1) ∧ Inv d1
  | [], d, hd => ⟨d, rfl, hd⟩
  | path :: rest, d, hd => by
    unfold glob_loop
    cases hst : L.stat (some path) with
    | none => exact absurd hst (hL.stat path)
    | some s =>
      simp only
      by_cases hdir : s.is_dir = true
      · rw [if_pos hdir]
        exact glob_loop_succeeds L hL cb Inv hcb strbuf3 pre rest d hd
      · rw [if_neg hdir]
        obtain ⟨d1, hc, hd1⟩ := hcb d (glob_key L strbuf3 pre path) path hd
        simp only [hc, ne_eq, not_true_eq_false, if_false]
        exact glob_loop_succeeds L hL cb Inv hcb strbuf3 pre rest d1 hd1

theorem perform_glob_succeeds {B E : Type} (L : Lib B E) (hL : AllSucceed L)
    (cb : Driver B → CStr → String → Option (Int × Driver B)) (Inv : Driver B → Prop)
    (hlog : ∀ d c, Inv d → Inv (log_call d c))
    (hcb : ∀ d key path, Inv d → ∃ d1, cb d key path = some (0, d1) ∧ Inv d1)
    (d : Driver B) (hd : Inv d) :
    ∃ d1, perform_glob L cb d = some (0, d1) ∧ Inv d1 := by
  unfold perform_glob perform_glob_trace
  obtain ⟨first, rest, hg⟩ := hL.glob (glob_pattern L d)
  simp only [hg]
  exact glob_loop_succeeds L hL cb Inv hcb _ _ _ _ (hlog d _ hd)

theorem verbose_print_fields {B : Type} (d : Driver B) (msg : CStr) :
    (verbose_print d msg).state = d.state ∧ (verbose_print d msg).texture = d.texture ∧
    (verbose_print d msg).parse_err_occurred = d.parse_err_occurred := by
  unfold verbose_print
  split <;> exact ⟨rfl, rfl, rfl⟩

theorem add_file_call_succeeds {B E : Type} (L : Lib B E) (hL : AllSucceed L) (d : Driver B)
    (key : Option CStr) (path : Option String) :
    (add_file_call L d key path).1 = 0 ∧ (add_file_call L d key path).2.state = d.state ∧
    (add_file_call L d key path).2.texture = d.texture ∧
    (add_file_call L d key path).2.parse_err_occurred = d.parse_err_occurred := by
  unfold add_file_call
  simp only [hL.add_file, ne_eq, not_true_eq_false, if_false]
  exact ⟨trivial, rfl, rfl, rfl⟩

theorem add_file_if_outdated_succeeds {B E : Type} (L : Lib B E) (hL : AllSucceed L)
    (d : Driver B) (key : Option CStr) (path : Option String) :
    (add_file_if_outdated L d key path).1 = 0 ∧
    (add_file_if_outdated L d key path).2.state = d.state ∧
    (add_file_if_outdated L d key path).2.texture = d.texture ∧
    (add_file_if_outdated L d key path).2.parse_err_occurred = d.parse_err_occurred := by
  unfold add_file_if_outdated
  split
  · simp only
    split
    · exact ⟨rfl, (verbose_print_fields d _).1, (verbose_print_fields d _).2.1,
        (verbose_print_fields d _).2.2⟩
    · have h := add_file_call_succeeds L hL (verbose_print d (c_str "Updating file: " ++ cstr_bytes key))
        key path
      exact ⟨h.1, h.2.1.trans (verbose_print_fields d _).1,
        h.2.2.1.trans (verbose_print_fields d _).2.1,
        h.2.2.2.trans (verbose_print_fields d _).2.2⟩
  · have h := add_file_call_succeeds L hL (verbose_print d (c_str "New file: " ++ cstr_bytes key)) key path
    exact ⟨h.1, h.2.1.trans (verbose_print_fields d _).1,
      h.2.2.1.trans (verbose_print_fields d _).2.1,
      h.2.2.2.trans (verbose_print_fields d _).2.2⟩

theorem add_texture_call_succeeds {B E : Type} (L : Lib B E) (hL : AllSucceed L)
    (d : Driver B) (key : Option CStr) (texture : RuckSackTexture) :
    (add_texture_call L d key texture).1 = 0 ∧
    (add_texture_call L d key texture).2.state = d.state ∧
    (add_texture_call L d key texture).2.parse_err_occurred = d.parse_err_occurred := by
  unfold add_texture_call
  simp only [hL.add_texture, ne_eq, not_true_eq_false, if_false]
  exact ⟨trivial, rfl, rfl⟩

theorem add_texture_if_outdated_succeeds {B E : Type} (L : Lib B E) (hL : AllSucceed L)
    (d : Driver B) (key : Option CStr) (texture : RuckSackTexture) :
    ∃ d1, add_texture_if_outdated L d key texture = some (0, d1) ∧ d1.state = d.state ∧
      d1.parse_err_occurred = d.parse_err_occurred := by
  unfold add_texture_if_outdated
  split
  · rename_i entry _
    cases hopen : L.rucksack_file_open_texture d.bundle entry with
    | none => exact absurd hopen (hL.open_texture _ _)
    | some bt =>
      simp only
      split
      · exact ⟨_, rfl, (verbose_print_fields d _).1, (verbose_print_fields d _).2.2⟩
      · have h := add_texture_call_succeeds L hL
          (verbose_print d (c_str "Updating texture: " ++ cstr_bytes key)) key texture
        refine ⟨(add_texture_call L (verbose_print d (c_str "Updating texture: " ++ cstr_bytes key)) key
          texture).2, ?_, h.2.1.trans (verbose_print_fields d _).1,
          h.2.2.trans (verbose_print_fields d _).2.2⟩
        rw [← h.1]
  · have h := add_texture_call_succeeds L hL (verbose_print d (c_str "New texture: " ++ cstr_bytes key))
      key texture
    refine ⟨(add_texture_call L (verbose_print d (c_str "New texture: " ++ cstr_bytes key)) key
      texture).2, ?_, h.2.1.trans (verbose_print_fields d _).1,
      h.2.2.trans (verbose_print_fields d _).2.2⟩
    rw [← h.1]

theorem accepts_glob_image_entry {B E : Type} (L : Lib B E) (hL : AllSucceed L)
    (props : List GlobImageProp) (hc : props.all GlobImageProp.conforms = true) :
    Accepts L (@in_texture B State.StateGlobImageObject)
      (in_texture State.StateGlobImageObject) (glob_image_entry_events props) := by
  refine accepts_block L _ (in_texture State.StateGlobImageObjectProp) _
    GlobImageProp.events props _ _ ?_ ?_ ?_
  · rintro d ⟨hs, ht⟩
    simp only [dispatch, on_begin, hs, reduceCtorEq, if_false, ne_eq, not_true_eq_false]
    exact ⟨_, rfl, ⟨rfl, ht⟩, rfl⟩
  · intro p hp
    exact accepts_glob_image_prop L p (List.all_eq_true.mp hc p hp)
  · rintro d ⟨hs, ht⟩
    obtain ⟨d1, hg, hs1, ht1, hp1⟩ := perform_glob_succeeds L hL (add_glob_match_to_texture L)
      (fun x => x.state = d.state ∧ x.texture ≠ none ∧
        x.parse_err_occurred = d.parse_err_occurred)
      (fun x c hx => hx)
      (fun x key path hx => by
        obtain ⟨hxs, hxt, hxp⟩ := hx
        obtain ⟨x1, hcall, hs1, ht1, hp1⟩ := texture_add_image_call_succeeds L hL
          { x with image := { x.image with path := some path, key := some key } } hxt
        have hfields := check_latest_mtime_fields L x1 (some path)
        unfold add_glob_match_to_texture
        simp only [hcall, ne_eq, not_true_eq_false, if_false]
        exact ⟨_, rfl, by simpa [hfields.1] using hs1.trans hxs,
          by simpa [hfields.2.1] using ht1, by simpa [hfields.2.2] using hp1.trans hxp⟩)
      d ⟨rfl, ht, rfl⟩
    simp only [dispatch, on_end, hs, glob_insert_images, hg, ne_eq, not_true_eq_false,
      if_false]
    exact ⟨_, rfl, ⟨rfl, ht1⟩, hp1⟩

theorem accepts_texture_prop {B E : Type} (L : Lib B E) (hL : AllSucceed L) (p : TextureProp)
    (hc : p.conforms = true) :
    Accepts L (@in_texture B State.StateTextureProp) (in_texture State.StateTextureProp)
      p.events := by
  cases p with
  | maxWidth n =>
    refine accepts_cons L _ (in_texture State.StateTextureMaxWidth) _ _ _ ?_
      (accepts_single L _ _ _ ?_)
    · rintro d ⟨hs, ht⟩
      simp only [dispatch, on_string, hs, goto, String.reduceEq, if_true, if_false]
      exact ⟨_, rfl, ⟨rfl, ht⟩, rfl⟩
    · rintro d ⟨hs, ht⟩
      cases htex : d.texture with
      | none => exact absurd htex ht
      | some texture =>
        simp only [dispatch, on_number, hs, double_to_int_cast n hc, htex, ne_eq,
          not_true_eq_false, if_false]
        exact ⟨_, rfl, ⟨rfl, by simp⟩, rfl⟩
  | maxHeight n =>
    refine accepts_cons L _ (in_texture State.StateTextureMaxHeight) _ _ _ ?_
      (accepts_single L _ _ _ ?_)
    · rintro d ⟨hs, ht⟩
      simp only [dispatch, on_string, hs, goto, String.reduceEq, if_true, if_false]
      exact ⟨_, rfl, ⟨rfl, ht⟩, rfl⟩
    · rintro d ⟨hs, ht⟩
      cases htex : d.texture with
      | none => exact absurd htex ht
      | some texture =>
        simp only [dispatch, on_number, hs, double_to_int_cast n hc, htex, ne_eq,
          not_true_eq_false, if_false]
        exact ⟨_, rfl, ⟨rfl, by simp⟩, rfl⟩
  | pow2 b =>
    refine accepts_cons L _ (in_texture State.StateTexturePow2) _ _ _ ?_
      (accepts_single L _ _ _ ?_)
    · rintro d ⟨hs, ht⟩
      simp only [dispatch, on_string, hs, goto, String.reduceEq, if_true, if_false]
      exact ⟨_, rfl, ⟨rfl, ht⟩, rfl⟩
    · rintro d ⟨hs, ht⟩
      cases htex : d.texture with
      | none => exact absurd htex ht
      | some texture =>
        cases b <;>
        · simp only [bool_event, dispatch, on_primitive, hs, htex, if_true, if_false,
            Bool.false_eq_true]
          exact ⟨_, rfl, ⟨rfl, by simp⟩, rfl⟩
  | allowRotate90 b =>
    refine accepts_cons L _ (in_texture State.StateTextureAllowRotate90) _ _ _ ?_
      (accepts_single L _ _ _ ?_)
    · rintro d ⟨hs, ht⟩
      simp only [dispatch, on_string, hs, goto, String.reduceEq, if_true, if_false]
      exact ⟨_, rfl, ⟨rfl, ht⟩, rfl⟩
    · rintro d ⟨hs, ht⟩
      cases htex : d.texture with
      | none => exact absurd htex ht
      | some texture =>
        cases b <;>
        · simp only [bool_event, dispatch, on_primitive, hs, htex, if_true, if_false,
            Bool.false_eq_true]
          exact ⟨_, rfl, ⟨rfl, by simp⟩, rfl⟩
  | images entries =>
    refine accepts_cons L _ (in_texture State.StateExpectImagesObject) _ _ _ ?_
      (accepts_block L _ (in_texture State.StateImageName) _ image_entry_events entries _ _
        ?_ ?_ ?_)
    · rintro d ⟨hs, ht⟩
      simp only [dispatch, on_string, hs, goto, String.reduceEq, if_true, if_false]
      exact ⟨_, rfl, ⟨rfl, ht⟩, rfl⟩
    · rintro d ⟨hs, ht⟩
      simp only [dispatch, on_begin, hs, goto, reduceCtorEq, if_false, ne_eq,
        not_true_eq_false]
      exact ⟨_, rfl, ⟨rfl, ht⟩, rfl⟩
    · intro e he
      simp only [TextureProp.conforms] at hc
      exact accepts_image_entry L hL e (List.all_eq_true.mp hc e he)
    · rintro d ⟨hs, ht⟩
      simp only [dispatch, on_end, hs, goto]
      exact ⟨_, rfl, ⟨rfl, ht⟩, rfl⟩
  | globImages entries =>
    refine accepts_cons L _ (in_texture State.StateExpectGlobImagesArray) _ _ _ ?_
      (accepts_block L _ (in_texture State.StateGlobImageObject) _ glob_image_entry_events
        entries _ _ ?_ ?_ ?_)
    · rintro d ⟨hs, ht⟩
      simp only [dispatch, on_string, hs, goto, String.reduceEq, if_true, if_false]
      exact ⟨_, rfl, ⟨rfl, ht⟩, rfl⟩
    · rintro d ⟨hs, ht⟩
      simp only [dispatch, on_begin, hs, goto, if_true]
      exact ⟨_, rfl, ⟨rfl, ht⟩, rfl⟩
    · intro e he
      simp only [TextureProp.conforms] at hc
      exact accepts_glob_image_entry L hL e (List.all_eq_true.mp hc e he)
    · rintro d ⟨hs, ht⟩
      simp only [dispatch, on_end, hs, goto]
      exact ⟨_, rfl, ⟨rfl, ht⟩, rfl⟩

theorem accepts_texture_entry {B E : Type} (L : Lib B E) (hL : AllSucceed L)
    (entry : String × List TextureProp) (hc : entry.2.all TextureProp.conforms = true) :
    Accepts L (@in_state B State.StateTextureName) (in_state State.StateTextureName)
      (texture_entry_events entry) := by
  refine accepts_cons L _ (in_texture State.StateExpectTextureObject) _ _ _ ?_
    (accepts_block L _ (in_texture State.StateTextureProp) _ TextureProp.events entry.2 _ _
      ?_ ?_ ?_)
  · intro d hs
    cases hcr : L.rucksack_texture_create with
    | none => exact absurd hcr hL.texture_create
    | some t =>
      simp only [in_state] at hs
      simp only [dispatch, on_string, hs, hcr]
      exact ⟨_, rfl, ⟨rfl, by simp⟩, rfl⟩
  · rintro d ⟨hs, ht⟩
    simp only [dispatch, on_begin, hs, goto, reduceCtorEq, if_false, ne_eq, not_true_eq_false]
    exact ⟨_, rfl, ⟨rfl, ht⟩, rfl⟩
  · intro p hp
    exact accepts_texture_prop L hL p (List.all_eq_true.mp hc p hp)
  · rintro d ⟨hs, ht⟩
    cases htex : d.texture with
    | none => exact absurd htex ht
    | some texture =>
      obtain ⟨d1, hcall, hs1, hp1⟩ :=
        add_texture_if_outdated_succeeds L hL d d.texture_key texture
      simp only [dispatch, on_end, hs, htex, hcall, ne_eq, not_true_eq_false, if_false]
      exact ⟨_, rfl, rfl, hp1⟩

theorem accepts_path_props {B E : Type} (L : Lib B E) (hL : AllSucceed L) :
    ∀ (paths : List String),
      Accepts L (@in_state B State.StateFilePropName) (in_state State.StateFilePropName)
        (path_prop_events paths)
  | [] => accepts_nil L _
  | p :: rest => by
    refine accepts_cons L _ (in_state State.StateFilePropPath) _ _ _ ?_
      (accepts_cons L _ (in_state State.StateFilePropName) _ _ _ ?_
        (accepts_path_props L hL rest))
    · intro d hs
      simp only [in_state] at hs
      simp only [dispatch, on_string, hs, goto, if_true]
      exact ⟨_, rfl, rfl, rfl⟩
    · intro d hs
      simp only [in_state] at hs
      simp only [dispatch, on_string, hs, resolve_path, hL.malloc, if_true]
      exact ⟨_, rfl, rfl, rfl⟩

theorem accepts_file_entry {B E : Type} (L : Lib B E) (hL : AllSucceed L)
    (entry : String × List String) :
    Accepts L (@in_state B State.StateFileName) (in_state State.StateFileName)
      (file_entry_events entry) := by
  refine accepts_cons L _ (in_state State.StateFileObjectBegin) _ _ _ ?_
    (accepts_cons L _ (in_state State.StateFilePropName) _ _ _ ?_
      (accepts_append L _ (in_state State.StateFilePropName) _ _ _
        (accepts_path_props L hL entry.2) (accepts_single L _ _ _ ?_)))
  · intro d hs
    simp only [in_state] at hs
    simp only [dispatch, on_string, hs]
    exact ⟨_, rfl, rfl, rfl⟩
  · intro d hs
    simp only [in_state] at hs
    simp only [dispatch, on_begin, hs, goto, reduceCtorEq, if_false, ne_eq, not_true_eq_false]
    exact ⟨_, rfl, rfl, rfl⟩
  · intro d hs
    simp only [in_state] at hs
    have h := add_file_if_outdated_succeeds L hL d d.file_key d.file_path
    simp only [dispatch, on_end, hs, h.1, ne_eq, not_true_eq_false, if_false]
    exact ⟨_, rfl, rfl, h.2.2.2⟩

theorem accepts_glob_props {B E : Type} (L : Lib B E) :
    ∀ (props : List (GlobPropName × String)),
      Accepts L (@in_state B State.StateGlobObjectProp) (in_state State.StateGlobObjectProp)
        (glob_prop_events props)
  | [] => accepts_nil L _
  | (n, v) :: rest => by
    cases n
    · refine accepts_cons L _ (in_state State.StateGlobValueGlob) _ _ _ ?_
        (accepts_cons L _ (in_state State.StateGlobObjectProp) _ _ _ ?_
          (accepts_glob_props L rest))
      · intro d hs
        simp only [in_state] at hs
        simp only [dispatch, on_string, hs, goto, GlobPropName.text, String.reduceEq, if_true,
          if_false]
        exact ⟨_, rfl, rfl, rfl⟩
      · intro d hs
        simp only [in_state] at hs
        simp only [dispatch, on_string, hs]
        exact ⟨_, rfl, rfl, rfl⟩
    · refine accepts_cons L _ (in_state State.StateGlobValuePath) _ _ _ ?_
        (accepts_cons L _ (in_state State.StateGlobObjectProp) _ _ _ ?_
          (accepts_glob_props L rest))
      · intro d hs
        simp only [in_state] at hs
        simp only [dispatch, on_string, hs, goto, GlobPropName.text, String.reduceEq, if_true,
          if_false]
        exact ⟨_, rfl, rfl, rfl⟩
      · intro d hs
        simp only [in_state] at hs
        simp only [dispatch, on_string, hs]
        exact ⟨_, rfl, rfl, rfl⟩
    · refine accepts_cons L _ (in_state State.StateGlobValuePrefix) _ _ _ ?_
        (accepts_cons L _ (in_state State.StateGlobObjectProp) _ _ _ ?_
          (accepts_glob_props L rest))
      · intro d hs
        simp only [in_state] at hs
        simp only [dispatch, on_string, hs, goto, GlobPropName.text, String.reduceEq, if_true,
          if_false]
        exact ⟨_, rfl, rfl, rfl⟩
      · intro d hs
        simp only [in_state] at hs
        simp only [dispatch, on_string, hs]
        exact ⟨_, rfl, rfl, rfl⟩

theorem accepts_glob_entry {B E : Type} (L : Lib B E) (hL : AllSucceed L)
    (props : List (GlobPropName × String)) :
    Accepts L (@in_state B State.StateGlobObject) (in_state State.StateGlobObject)
      (glob_object_events props) := by
  refine accepts_cons L _ (in_state State.StateGlobObjectProp) _ _ _ ?_
    (accepts_append L _ (in_state State.StateGlobObjectProp) _ _ _
      (accepts_glob_props L props) (accepts_single L _ _ _ ?_))
  · intro d hs
    simp only [in_state] at hs
    simp only [dispatch, on_begin, hs, reduceCtorEq, if_false, ne_eq, not_true_eq_false]
    exact ⟨_, rfl, rfl, rfl⟩
  · intro d hs
    simp only [in_state] at hs
    obtain ⟨d1, hg, hs1, hp1⟩ := perform_glob_succeeds L hL (add_glob_match_to_bundle L)
      (fun x => x.state = d.state ∧ x.parse_err_occurred = d.parse_err_occurred)
      (fun x c hx => hx)
      (fun x key path hx => by
        have h := add_file_if_outdated_succeeds L hL x (some key) (some path)
        refine ⟨(add_file_if_outdated L x (some key) (some path)).2, ?_,
          h.2.1.trans hx.1, h.2.2.2.trans hx.2⟩
        unfold add_glob_match_to_bundle
        rw [← h.1])
      d ⟨rfl, rfl⟩
    simp only [dispatch, on_end, hs, glob_insert_files, hg, ne_eq, not_true_eq_false, if_false]
    exact ⟨_, rfl, rfl, hp1⟩

theorem accepts_top_prop {B E : Type} (L : Lib B E) (hL : AllSucceed L) (p : TopProp)
    (hc : p.conforms = true) :
    Accepts L (@in_state B State.StateTopLevelProp) (in_state State.StateTopLevelProp)
      p.events := by
  cases p with
  | textures entries =>
    refine accepts_cons L _ (in_state State.StateTextures) _ _ _ ?_
      (accepts_block L _ (in_state State.StateTextureName) _ texture_entry_events entries _ _
        ?_ ?_ ?_)
    · intro d hs
      simp only [in_state] at hs
      simp only [dispatch, on_string, hs, goto, if_true]
      exact ⟨_, rfl, rfl, rfl⟩
    · intro d hs
      simp only [in_state] at hs
      simp only [dispatch, on_begin, hs, goto, reduceCtorEq, if_false, ne_eq,
        not_true_eq_false]
      exact ⟨_, rfl, rfl, rfl⟩
    · intro e he
      simp only [TopProp.conforms] at hc
      exact accepts_texture_entry L hL e (List.all_eq_true.mp hc e he)
    · intro d hs
      simp only [in_state] at hs
      simp only [dispatch, on_end, hs, goto]
      exact ⟨_, rfl, rfl, rfl⟩
  | files entries =>
    refine accepts_cons L _ (in_state State.StateExpectFilesObject) _ _ _ ?_
      (accepts_block L _ (in_state State.StateFileName) _ file_entry_events entries _ _
        ?_ ?_ ?_)
    · intro d hs
      simp only [in_state] at hs
      simp only [dispatch, on_string, hs, goto, String.reduceEq, if_true, if_false]
      exact ⟨_, rfl, rfl, rfl⟩
    · intro d hs
      simp only [in_state] at hs
      simp only [dispatch, on_begin, hs, goto, reduceCtorEq, if_false, ne_eq,
        not_true_eq_false]
      exact ⟨_, rfl, rfl, rfl⟩
    · intro e _
      exact accepts_file_entry L hL e
    · intro d hs
      simp only [in_state] at hs
      simp only [dispatch, on_end, hs, goto]
      exact ⟨_, rfl, rfl, rfl⟩
  | globFiles entries =>
    refine accepts_cons L _ (in_state State.StateExpectGlobArray) _ _ _ ?_
      (accepts_block L _ (in_state State.StateGlobObject) _ glob_object_events entries _ _
        ?_ ?_ ?_)
    · intro d hs
      simp only [in_state] at hs
      simp only [dispatch, on_string, hs, goto, String.reduceEq, if_true, if_false]
      exact ⟨_, rfl, rfl, rfl⟩
    · intro d hs
      simp only [in_state] at hs
      simp only [dispatch, on_begin, hs, goto, if_true]
      exact ⟨_, rfl, rfl, rfl⟩
    · intro e _
      exact accepts_glob_entry L hL e
    · intro d hs
      simp only [in_state] at hs
      simp only [dispatch, on_end, hs, goto]
      exact ⟨_, rfl, rfl, rfl⟩

theorem accepts_manifest {B E : Type} (L : Lib B E) (hL : AllSucceed L) (props : List TopProp)
    (hc : props.all TopProp.conforms = true) :
    Accepts L (@in_state B State.StateStart) (in_state State.StateDone)
      (manifest_events props) := by
  refine accepts_block L _ (in_state State.StateTopLevelProp) _ TopProp.events props _ _
    ?_ ?_ ?_
  · intro d hs
    simp only [in_state] at hs
    simp only [dispatch, on_begin, hs, goto, reduceCtorEq, if_false, ne_eq, not_true_eq_false]
    exact ⟨_, rfl, rfl, rfl⟩
  · intro p hp
    exact accepts_top_prop L hL p (List.all_eq_true.mp hc p hp)
  · intro d hs
    simp only [in_state] at hs
    simp only [dispatch, on_end, hs, goto]
    exact ⟨_, rfl, rfl, rfl⟩

theorem feed_none_steps {B E : Type} (L : Lib B E) (e : Event) (post : List Event) :
    ∀ (pre : List Event) (d d1 : Driver B), feed L (pre ++ e :: post) d = some (none, d1) →
      ∃ d2 d3, feed L pre d = some (none, d2) ∧ dispatch L d2 e = some (0, d3)
  | [], d, d1, h => by
    simp only [List.nil_append] at h
    unfold feed at h
    split at h
    · simp at h
    · rename_i r d2 hc
      split at h
      · simp at h
      · rename_i hne
        simp only [ne_eq, not_not] at hne
        subst hne
        exact ⟨d, d2, rfl, hc⟩
  | x :: pre, d, d1, h => by
    simp only [List.cons_append] at h
    unfold feed at h
    split at h
    · simp at h
    · rename_i r d2 hc
      split at h
      · simp at h
      · rename_i hne
        obtain ⟨d3, d4, hpre, hdis⟩ := feed_none_steps L e post pre d2 d1 h
        refine ⟨d3, d4, ?_, hdis⟩
        conv => lhs; unfold feed
        simp only [hc, hne, if_false]
        exact hpre

theorem succeedingLib_all_succeed : AllSucceed succeedingLib where
  texture_create := by simp [succeedingLib, exampleLib]
  malloc := fun _ => rfl
  add_image := fun _ _ => rfl
  add_file := fun _ _ _ => rfl
  add_texture := fun _ _ _ => rfl
  open_texture := by simp [succeedingLib]
  glob := fun pattern => ⟨_, _, rfl⟩
  stat := by simp [succeedingLib]
  close := fun _ => rfl

/-- C16. When every call of the library, of `malloc`, of `stat` and of `glob`
succeeds, the events of every manifest of the schema are accepted: from
globals in `StateStart` the parser delivers every event, every callback
returns 0, the final state is `StateDone` and the error flag is as it was; and
`command_bundle` on such a manifest returns 0 with the bundle closed and no
error latched.  The manifests are the top-level objects whose properties are
any sequence of `textures`, `files` and `globFiles`, each object with its
properties in any order and number, empty containers included; sizes are
`int`s and anchor strings are among the nine names. -/
theorem well_formed_manifest_accepted {B E : Type} (L : Lib B E) (hL : AllSucceed L)
    (props : List TopProp) (hc : props.all TopProp.conforms = true) :
    (∀ d : Driver B, d.state = State.StateStart →
      ∃ d1, feed L (manifest_events props) d = some (none, d1) ∧
        d1.state = State.StateDone ∧ d1.parse_err_occurred = d.parse_err_occurred ∧
        ∀ pre e post, manifest_events props = pre ++ e :: post →
          ∃ d2 d3, feed L pre d = some (none, d2) ∧ dispatch L d2 e = some (0, d3)) ∧
    (∀ (image : RuckSackImage) (arg0 : String) (argv : List String) (a : BundleArgs)
      (input_filename bundle_filename : String) (m : Manifest) (bundle : B),
      bundle_args argv default_bundle_args = some a →
      a.input_filename = some input_filename → a.bundle_filename = some bundle_filename →
      (if input_filename = "-" then some L.stdin else L.fopen input_filename) = some m →
      L.rucksack_bundle_open bundle_filename = Except.ok bundle →
      m.events = manifest_events props → m.error = none →
      ∃ run d, command_bundle L image arg0 argv = some run ∧ run.status = 0 ∧
        run.closed = true ∧ run.driver = some d ∧ d.state = State.StateDone ∧
        d.parse_err_occurred = false) := by
  have hacc := @accepts_manifest B E L hL props hc
  refine ⟨?_, ?_⟩
  · intro d hs
    obtain ⟨d1, hfeed, hdone, hflag⟩ := hacc d hs
    refine ⟨d1, hfeed, hdone, hflag, ?_⟩
    intro pre e post hsplit
    rw [hsplit] at hfeed
    exact feed_none_steps L e post pre d d1 hfeed
  · intro image arg0 argv a i bf m b ha hin hbn hm hopen hev herr
    obtain ⟨d1, hfeed, hdone, hflag⟩ := hacc (initial_driver b image a) rfl
    rw [← hev] at hfeed
    obtain ⟨run, hrun, hdrv, hcl, hst⟩ := bundle_manifest_spec L m _ d1 none hfeed
    have hfin : final_driver m none d1 = d1 := by
      simp only [final_driver, herr]
      rw [if_neg (by simpa using hdone)]
    rw [hfin] at hdrv hcl hst
    have hf1 : d1.parse_err_occurred = false := hflag
    refine ⟨run, d1, ?_, ?_, ?_, hdrv, hdone, hf1⟩
    · rw [command_bundle_open L image arg0 argv a i bf m b ha hin hbn hm hopen]
      exact hrun
    · rw [hst, if_neg]
      simp [hf1, hL.close]
    · rw [hcl, hf1]
      rfl

/-- C16 at a concrete manifest, with a library all of whose calls succeed:
the run from the initial globals ends in `StateDone` with no error latched. -/
theorem well_formed_manifest_accepted_witness :
    example_manifest.all TopProp.conforms = true ∧
    ∃ d1, feed succeedingLib (manifest_events example_manifest) (example_driver []) =
        some (none, d1) ∧
      d1.state = State.StateDone ∧ d1.parse_err_occurred = false :=
  ⟨by decide,
   by
    obtain ⟨d1, h1, h2, h3, _⟩ :=
      (well_formed_manifest_accepted succeedingLib succeedingLib_all_succeed example_manifest
        (by decide)).1 (example_driver []) rfl
    exact ⟨d1, h1, h2, h3⟩⟩

/-! ## The output of `cat` and `ls` -/

theorem read_u32_u32_le (n : Nat) (rest : List UInt8) (h : fits_u32 n = true) :
    read_u32 (u32_le n ++ rest) = some (n, rest) := by
  simp only [fits_u32, decide_eq_true_eq] at h
  have h0 : (UInt8.ofNat (n % 256)).toNat = n % 256 % 256 := rfl
  have h1 : (UInt8.ofNat (n / 256 % 256)).toNat = n / 256 % 256 % 256 := rfl
  have h2 : (UInt8.ofNat (n / 65536 % 256)).toNat = n / 65536 % 256 % 256 := rfl
  have h3 : (UInt8.ofNat (n / 16777216 % 256)).toNat = n / 16777216 % 256 % 256 := rfl
  simp only [u32_le, List.cons_append, List.nil_append, read_u32, h0, h1, h2, h3,
    Option.some.injEq, Prod.mk.injEq, and_true]
  omega

theorem read_flag_u8_flag (b : Bool) (rest : List UInt8) :
    read_flag (u8_flag b ++ rest) = some (b, rest) := by
  cases b <;> simp [u8_flag, read_flag]

theorem read_u8_of_nat (n : Nat) (rest : List UInt8) (h : n < 256) :
    read_u8 ([UInt8.ofNat n] ++ rest) = some (n, rest) := by
  have h0 : (UInt8.ofNat n).toNat = n % 256 := rfl
  simp only [List.cons_append, List.nil_append, read_u8, h0, Option.some.injEq, Prod.mk.injEq,
    and_true]
  omega

theorem read_bytes_append (bytes rest : List UInt8) :
    read_bytes bytes.length (bytes ++ rest) = some (bytes, rest) := by
  simp [read_bytes]

theorem read_many_concat {α : Type} (p : List UInt8 → Option (α × List UInt8))
    (f : α → List UInt8) :
    ∀ (xs : List α) (rest : List UInt8),
      (∀ x ∈ xs, ∀ r, p (f x ++ r) = some (x, r)) →
      read_many p xs.length (concat_bytes f xs ++ rest) = some (xs, rest)
  | [], rest, _ => rfl
  | x :: xs, rest, h => by
    simp only [List.length_cons, concat_bytes, List.append_assoc, read_many,
      h x (List.mem_cons_self x xs),
      read_many_concat p f xs rest (fun y hy => h y (List.mem_cons_of_mem x hy))]

theorem read_page_header_encode (p : Page) (rest : List UInt8) (h : p.fits = true) :
    read_page_header (encode_page_header p ++ rest) =
      some ((p.width, p.height, p.encoded.length), rest) := by
  simp only [Page.fits, Bool.and_eq_true] at h
  obtain ⟨⟨h1, h2⟩, h3⟩ := h
  simp only [encode_page_header, List.append_assoc, read_page_header, read_u32_u32_le _ _ h1,
    read_u32_u32_le _ _ h2, read_u32_u32_le _ _ h3]

theorem read_image_encode (r : ImageRecord) (rest : List UInt8) (h : r.fits = true) :
    read_image (encode_image r ++ rest) = some (r, rest) := by
  simp only [ImageRecord.fits, Bool.and_eq_true, decide_eq_true_eq] at h
  obtain ⟨⟨⟨⟨⟨⟨⟨⟨h1, h2⟩, h3⟩, h4⟩, h5⟩, h6⟩, h7⟩, h8⟩, h9⟩ := h
  simp only [encode_image, List.append_assoc, read_image, read_u32_u32_le _ _ h1,
    read_u32_u32_le _ _ h2, read_u32_u32_le _ _ h3, read_u32_u32_le _ _ h4,
    read_u32_u32_le _ _ h5, read_flag_u8_flag, read_u8_of_nat _ _ h6, read_u32_u32_le _ _ h7,
    read_u32_u32_le _ _ h8, read_u32_u32_le _ _ h9, read_bytes_append]

theorem read_pages_concat :
    ∀ (pages : List Page) (rest : List UInt8),
      read_pages (pages.map (fun p => (p.width, p.height, p.encoded.length)))
        (concat_bytes (fun p => p.encoded) pages ++ rest) = some (pages, rest)
  | [], rest => rfl
  | p :: pages, rest => by
    simp only [List.map_cons, concat_bytes, List.append_assoc, read_pages, read_bytes_append,
      read_pages_concat pages rest]

theorem read_many_headers (pages : List Page) (rest : List UInt8)
    (h : pages.all Page.fits = true) :
    read_many read_page_header pages.length
        (concat_bytes encode_page_header pages ++ rest) =
      some (pages.map (fun p => (p.width, p.height, p.encoded.length)), rest) := by
  induction pages generalizing rest with
  | nil => rfl
  | cons p pages ih =>
    simp only [List.all_cons, Bool.and_eq_true] at h
    simp only [List.length_cons, concat_bytes, List.append_assoc, read_many,
      read_page_header_encode p _ h.1, ih rest h.2, List.map_cons]

theorem texture_decode_encode (t : TextureEntry) (h : t.fits = true) :
    texture_decode (texture_encode t) = some t := by
  simp only [TextureEntry.fits, Bool.and_eq_true] at h
  obtain ⟨⟨⟨⟨⟨h1, h2⟩, h3⟩, h4⟩, h5⟩, h6⟩ := h
  have hm : fits_u32 TEXTURE_MAGIC = true := by decide
  have hv : fits_u32 TEXTURE_VERSION = true := by decide
  have himgs := read_many_concat read_image encode_image t.images
    (concat_bytes (fun p => p.encoded) t.pages ++ [])
    (fun r hr rest => read_image_encode r rest (List.all_eq_true.mp h6 r hr))
  have hpages := read_pages_concat t.pages []
  have hte : texture_encode t = u32_le TEXTURE_MAGIC ++ (u32_le TEXTURE_VERSION ++
      (u32_le t.max_width ++ (u32_le t.max_height ++ (u8_flag t.pow2 ++
      (u8_flag t.allow_r90 ++ (u32_le t.pages.length ++
      (concat_bytes encode_page_header t.pages ++ (u32_le t.images.length ++
      (concat_bytes encode_image t.images ++
        (concat_bytes (fun p => p.encoded) t.pages ++ [])))))))))) := by
    simp only [texture_encode, List.append_assoc, List.append_nil]
  rw [hte]
  simp only [texture_decode, read_u32_u32_le _ _ hm, read_u32_u32_le _ _ hv,
    ne_eq, not_true_eq_false, or_self, if_false, read_u32_u32_le _ _ h1,
    read_u32_u32_le _ _ h2, read_flag_u8_flag, read_u32_u32_le _ _ h3,
    read_many_headers t.pages _ h4, read_u32_u32_le _ _ h5, himgs, hpages]

theorem bundle_put_reopen (disk : Disk) (b : Bundle) (key : String) (kind : EntryKind)
    (mtime : Nat) (payload : List UInt8) :
    ∃ b2 disk2 e,
      bundle_open (bundle_close disk (bundle_put b key kind mtime payload))
        (bundle_put b key kind mtime payload).path = Except.ok (b2, disk2) ∧
      bundle_find b2 key = some e ∧ file_read b2 e = Except.ok payload := by
  obtain ⟨_, e, hfind, hused, hcap, hlen, hread⟩ := bundle_put_entry b key kind mtime payload
  have hmem : e ∈ (bundle_put b key kind mtime payload).entries :=
    List.mem_of_find?_eq_some hfind
  have hend := le_live_end _ e hmem
  refine ⟨Bundle.mk (bundle_put b key kind mtime payload).path
      (bundle_put b key kind mtime payload).entries
      (free_complement (bundle_put b key kind mtime payload).entries
        (((bundle_put b key kind mtime payload).data.take
          (live_end (bundle_put b key kind mtime payload).entries)).length))
      ((bundle_put b key kind mtime payload).data.take
        (live_end (bundle_put b key kind mtime payload).entries)),
    bundle_close disk (bundle_put b key kind mtime payload), e, ?_, hfind, ?_⟩
  · simp [bundle_open, bundle_close, disk_write]
  · unfold file_read
    simp only [List.length_take]
    rw [if_pos (by omega), take_drop_take _ _ _ _ (by omega), hread]

theorem texture_reopen (disk : Disk) (pack : Texture → Option Packing) (b b1 : Bundle)
    (key : String) (t : Texture) (p : Packing) (hpack : pack t = some p)
    (hfits : (texture_entry t p).fits = true)
    (hadd : bundle_add_texture pack b key t = Except.ok b1) :
    ∃ b2 disk2 e, bundle_open (bundle_close disk b1) b1.path = Except.ok (b2, disk2) ∧
      bundle_find b2 key = some e ∧ file_open_texture b2 e = Except.ok (texture_entry t p) := by
  unfold bundle_add_texture at hadd
  split at hadd
  · cases hadd
  · rw [hpack] at hadd
    simp only [Except.ok.injEq] at hadd
    subst hadd
    obtain ⟨b2, disk2, e, hopen, hfind, hread⟩ := bundle_put_reopen disk b key
      EntryKind.texture (texture_mtime t) (texture_encode (texture_entry t p))
    refine ⟨b2, disk2, e, hopen, hfind, ?_⟩
    unfold file_open_texture
    simp only [hread, texture_decode_encode _ hfits]

theorem texture_entry_count (t : Texture) (p : Packing)
    (hlen : p.placements.length = t.images.length) :
    (texture_entry t p).images.length = t.images.length := by
  simp only [texture_entry]
  rw [(List.perm_insertionSort _ _).length_eq, List.length_zipWith, hlen, min_self]

theorem zipWith_image_record_mem :
    ∀ (imgs : List SourceImage) (pls : List Placement), pls.length = imgs.length →
      (∀ r ∈ List.zipWith image_record imgs pls, ∃ img ∈ imgs, ∃ pl, r = image_record img pl) ∧
      (∀ img ∈ imgs, ∃ pl, image_record img pl ∈ List.zipWith image_record imgs pls)
  | [], _, _ => by simp
  | img :: imgs, [], h => by simp at h
  | img :: imgs, pl :: pls, h => by
    have ih := zipWith_image_record_mem imgs pls (by simpa using h)
    constructor
    · intro r hr
      simp only [List.zipWith_cons_cons, List.mem_cons] at hr
      rcases hr with hr | hr
      · exact ⟨img, List.mem_cons_self _ _, pl, hr⟩
      · obtain ⟨i, hi, q, hq⟩ := ih.1 r hr
        exact ⟨i, List.mem_cons_of_mem _ hi, q, hq⟩
    · intro i hi
      rcases List.mem_cons.mp hi with hi | hi
      · subst hi
        exact ⟨pl, by simp⟩
      · obtain ⟨q, hq⟩ := ih.2 i hi
        exact ⟨q, by simp only [List.zipWith_cons_cons]; exact List.mem_cons_of_mem _ hq⟩

theorem texture_entry_images (t : Texture) (p : Packing)
    (hlen : p.placements.length = t.images.length) :
    (∀ r ∈ (texture_entry t p).images, ∃ img ∈ t.images, ∃ pl, r = image_record img pl) ∧
    (∀ img ∈ t.images, ∃ pl, image_record img pl ∈ (texture_entry t p).images) := by
  have hz := zipWith_image_record_mem t.images p.placements hlen
  have hperm := List.perm_insertionSort (fun a b : ImageRecord => key_le a.key b.key = true)
    (List.zipWith image_record t.images p.placements)
  constructor
  · intro r hr
    exact hz.1 r (hperm.mem_iff.mp hr)
  · intro img hi
    obtain ⟨pl, hpl⟩ := hz.2 img hi
    exact ⟨pl, hperm.mem_iff.mpr hpl⟩

theorem foldl_texture_add_image (imgs : List SourceImage) :
    ∀ (t : Texture),
      (imgs.foldl texture_add_image t).images = t.images ++ imgs ∧
      (imgs.foldl texture_add_image t).max_width = t.max_width ∧
      (imgs.foldl texture_add_image t).max_height = t.max_height ∧
      (imgs.foldl texture_add_image t).pow2 = t.pow2 ∧
      (imgs.foldl texture_add_image t).allow_r90 = t.allow_r90 := by
  induction imgs with
  | nil => intro t; simp
  | cons img imgs ih =>
    intro t
    simp only [List.foldl_cons]
    obtain ⟨h1, h2, h3, h4, h5⟩ := ih (texture_add_image t img)
    refine ⟨?_, h2, h3, h4, h5⟩
    rw [h1]
    simp [texture_add_image]

/-- C19. Texture settings persist, on the container and the codec modelled
from the specification: when `add_texture(key, t)` succeeds on any bundle, the
packer placing every image and every field fitting its width in the
serialized form, then after `close` the bundle that `open` yields from the
same path has an entry under `key`, `file_open_texture` succeeds on it, and
the texture it yields has the `max_width`, `max_height`, `pow2` and
`allow_r90` of `t` and as many images as `t`. -/
theorem texture_settings_persist (disk : Disk) (pack : Texture → Option Packing)
    (b b1 : Bundle) (key : String) (t : Texture) (p : Packing) (hpack : pack t = some p)
    (hlen : p.placements.length = t.images.length)
    (hfits : (texture_entry t p).fits = true)
    (hadd : bundle_add_texture pack b key t = Except.ok b1) :
    ∃ b2 disk2 e tex, bundle_open (bundle_close disk b1) b1.path = Except.ok (b2, disk2) ∧
      bundle_find b2 key = some e ∧ file_open_texture b2 e = Except.ok tex ∧
      tex.max_width = t.max_width ∧ tex.max_height = t.max_height ∧ tex.pow2 = t.pow2 ∧
      tex.allow_r90 = t.allow_r90 ∧ texture_image_count tex = t.images.length := by
  obtain ⟨b2, disk2, e, hopen, hfind, htex⟩ :=
    texture_reopen disk pack b b1 key t p hpack hfits hadd
  exact ⟨b2, disk2, e, texture_entry t p, hopen, hfind, htex, rfl, rfl, rfl, rfl,
    texture_entry_count t p hlen⟩

/-- C19 at the input of `test_non_default_texture_props`: a texture of 256 by
128 without power of two and rotation, with one image, added under the key
`texture_foo` to a fresh bundle. -/
theorem texture_settings_persist_witness :
    ∃ b1 b2 disk2 e tex,
      bundle_add_texture example_pack example_bundle "texture_foo" example_small_texture =
        Except.ok b1 ∧
      bundle_open (bundle_close example_disk b1) b1.path = Except.ok (b2, disk2) ∧
      bundle_find b2 "texture_foo" = some e ∧ file_open_texture b2 e = Except.ok tex ∧
      tex.max_width = 256 ∧ tex.max_height = 128 ∧ tex.pow2 = false ∧
      tex.allow_r90 = false ∧ texture_image_count tex = 1 := by
  obtain ⟨b2, disk2, e, tex, h⟩ :=
    texture_settings_persist example_disk example_pack example_bundle _ "texture_foo"
      example_small_texture
      { pages := [{ width := 32, height := 32, encoded := [1, 2, 3] }],
        placements := [{ page_index := 0, x := 0, y := 0, rotated := false }] }
      rfl rfl (by decide) rfl
  exact ⟨_, b2, disk2, e, tex, rfl, h⟩

/-- C20. Texture image records persist, on the container and the codec
modelled from the specification: when a texture is built by adding the images
`imgs`, with distinct keys, to a texture without images, and
`add_texture(key, t)` succeeds, the packer placing every image and every field
fitting its width in the serialized form, then after `close`, `open` and
`file_open_texture` the image count is the number of images added, and for
each added image there is an image with its key, and every image with its key
has the width and height of the source image. -/
theorem texture_images_persist (disk : Disk) (pack : Texture → Option Packing)
    (b b1 : Bundle) (key : String) (t0 : Texture) (imgs : List SourceImage) (p : Packing)
    (h0 : t0.images = []) (hkeys : (imgs.map (fun img => img.key)).Nodup)
    (hpack : pack (imgs.foldl texture_add_image t0) = some p)
    (hlen : p.placements.length = imgs.length)
    (hfits : (texture_entry (imgs.foldl texture_add_image t0) p).fits = true)
    (hadd : bundle_add_texture pack b key (imgs.foldl texture_add_image t0) = Except.ok b1) :
    ∃ b2 disk2 e tex, bundle_open (bundle_close disk b1) b1.path = Except.ok (b2, disk2) ∧
      bundle_find b2 key = some e ∧ file_open_texture b2 e = Except.ok tex ∧
      texture_image_count tex = imgs.length ∧
      ∀ img ∈ imgs,
        (∃ r ∈ texture_get_images tex, r.key = img.key) ∧
        ∀ r ∈ texture_get_images tex, r.key = img.key →
          r.w = img.width ∧ r.h = img.height := by
  have himgs : (imgs.foldl texture_add_image t0).images = imgs := by
    rw [(foldl_texture_add_image imgs t0).1, h0, List.nil_append]
  have hlen2 : p.placements.length = (imgs.foldl texture_add_image t0).images.length := by
    rw [himgs]; exact hlen
  obtain ⟨b2, disk2, e, hopen, hfind, htex⟩ :=
    texture_reopen disk pack b b1 key _ p hpack hfits hadd
  have hmem := texture_entry_images (imgs.foldl texture_add_image t0) p hlen2
  rw [himgs] at hmem
  refine ⟨b2, disk2, e, _, hopen, hfind, htex, ?_, ?_⟩
  · rw [texture_image_count, texture_entry_count _ p hlen2, himgs]
  · intro img hi
    constructor
    · obtain ⟨pl, hpl⟩ := hmem.2 img hi
      exact ⟨_, hpl, rfl⟩
    · intro r hr hk
      obtain ⟨img2, hi2, pl, hr2⟩ := hmem.1 r hr
      subst hr2
      have heq : img2 = img := List.inj_on_of_nodup_map hkeys hi2 hi hk
      subst heq
      exact ⟨rfl, rfl⟩

/-- C20 at the input of `test_texture_packing`: four images of 8 by 8, 16 by
16, 16 by 16 and 8 by 8 added to a texture with the default settings, the
texture added under the key `texture_foo` to a fresh bundle. -/
theorem texture_images_persist_witness :
    ∃ b1 b2 disk2 e tex,
      bundle_add_texture example_pack example_bundle "texture_foo"
        (example_four_images.foldl texture_add_image texture_create) = Except.ok b1 ∧
      bundle_open (bundle_close example_disk b1) b1.path = Except.ok (b2, disk2) ∧
      bundle_find b2 "texture_foo" = some e ∧ file_open_texture b2 e = Except.ok tex ∧
      texture_image_count tex = 4 ∧
      ∀ img ∈ example_four_images,
        (∃ r ∈ texture_get_images tex, r.key = img.key) ∧
        ∀ r ∈ texture_get_images tex, r.key = img.key →
          r.w = img.width ∧ r.h = img.height := by
  obtain ⟨b2, disk2, e, tex, h⟩ :=
    texture_images_persist example_disk example_pack example_bundle _ "texture_foo"
      texture_create example_four_images
      { pages := [{ width := 32, height := 32, encoded := [1, 2, 3] }],
        placements := (List.range 4).map
          (fun i => { page_index := 0, x := 8 * i, y := 0, rotated := false }) }
      rfl (by decide) rfl rfl (by decide) rfl
  exact ⟨_, b2, disk2, e, tex, rfl, h⟩

/-! ## A glob that matches directories only -/

theorem glob_loop_directories {B E : Type} (L : Lib B E)
    (cb : Driver B → CStr → String → Option (Int × Driver B)) (strbuf3 pre : String)
    (d : Driver B) :
    ∀ (paths : List String),
      (∀ p ∈ paths, ∃ s, L.stat (some p) = some s ∧ s.is_dir = true) →
      glob_loop L cb strbuf3 pre paths d = (some (0, d), [])
  | [], _ => rfl
  | path :: rest, h => by
    obtain ⟨s, hs, hdir⟩ := h path (List.mem_cons_self path rest)
    unfold glob_loop
    simp only [hs, hdir, if_true]
    exact glob_loop_directories L cb strbuf3 pre d rest
      (fun p hp => h p (List.mem_cons_of_mem path hp))

/-- C30. When `glob` returns matches and every match is a directory,
`perform_glob` makes no call of the per-match handler and returns 0; the one
thing it adds to the globals is the ghost record of the call of `glob`, so no
parse error is latched or printed. -/
theorem glob_of_directories_only {B E : Type} (L : Lib B E)
    (cb : Driver B → CStr → String → Option (Int × Driver B)) (d : Driver B)
    (first : String) (rest : List String)
    (hg : L.glob (glob_pattern L d) = GlobOutcome.matched first rest)
    (hdir : ∀ p ∈ first :: rest, ∃ s, L.stat (some p) = some s ∧ s.is_dir = true) :
    perform_glob_trace L cb d = (some (0, log_call d (Call.glob (glob_pattern L d))), []) ∧
    perform_glob L cb d = some (0, log_call d (Call.glob (glob_pattern L d))) ∧
    (log_call d (Call.glob (glob_pattern L d))).parse_err_occurred = d.parse_err_occurred ∧
    (log_call d (Call.glob (glob_pattern L d))).stderr = d.stderr := by
  have h : perform_glob_trace L cb d =
      (some (0, log_call d (Call.glob (glob_pattern L d))), []) := by
    unfold perform_glob_trace
    simp only [hg]
    exact glob_loop_directories L cb _ _ _ _ hdir
  exact ⟨h, by unfold perform_glob; rw [h], rfl, rfl⟩

/-- C30 at the example filesystem, with the pattern `s*` that matches the
subdirectory `sub` only and the handler for files. -/
theorem glob_of_directories_only_witness :
    (exampleLib example_directory_world).glob
        (glob_pattern (exampleLib example_directory_world) example_directory_driver) =
      GlobOutcome.matched "./sub" [] ∧
    perform_glob_trace (exampleLib example_directory_world)
        (add_glob_match_to_bundle (exampleLib example_directory_world))
        example_directory_driver =
      (some (0, log_call example_directory_driver (Call.glob "./s*")), []) :=
  ⟨rfl,
   (glob_of_directories_only (exampleLib example_directory_world)
     (add_glob_match_to_bundle (exampleLib example_directory_world)) example_directory_driver
     "./sub" [] rfl
     (fun p hp => by
       simp only [List.mem_singleton] at hp
       subst hp
       exact ⟨{ st_mtime := 70, is_dir := true }, rfl, rfl⟩)).1⟩

/-! ## The top-level value -/

theorem dispatch_done {B E : Type} (L : Lib B E) (d d1 : Driver B) (e : Event) (r : Int)
    (hs : d.state = State.StateDone) (h : dispatch L d e = some (r, d1)) :
    ∃ msg, (r, d1) = parse_error d msg := by
  cases e with
  | string t v =>
    simp only [dispatch, on_string, hs, Option.some.injEq] at h
    exact ⟨_, h.symm⟩
  | number x =>
    simp only [dispatch, on_number, hs, Option.some.injEq] at h
    exact ⟨_, h.symm⟩
  | primitive t =>
    simp only [dispatch, on_primitive, hs, Option.some.injEq] at h
    exact ⟨_, h.symm⟩
  | begin_value t =>
    simp only [dispatch, on_begin, hs] at h
    split at h
    · simp only [Option.some.injEq] at h
      exact ⟨_, h.symm⟩
    · split at h
      · cases h
      · simp only [Option.some.injEq] at h
        exact ⟨_, h.symm⟩
  | end_value t =>
    simp only [dispatch, on_end, hs, Option.some.injEq] at h
    exact ⟨_, h.symm⟩

/-- C28. In `StateStart` the begin of an object moves to `StateTopLevelProp`
and every other event (a string, a number, a primitive, the begin of an array,
an end) is a `parse_error`.  In `StateDone` every event is a `parse_error`.  A
`parse_error` returns -1 and leaves the state as it is, so no run of events
leaves `StateDone`.  (The begin of a value that is neither object nor array,
which the parser never delivers, fails the `assert` of `on_begin`.) -/
theorem top_level_must_be_object {B E : Type} (L : Lib B E) (d : Driver B) :
    (d.state = State.StateStart →
      dispatch L d (Event.begin_value LaxJsonType.LaxJsonTypeObject) =
        some (0, { d with state := State.StateTopLevelProp }) ∧
      ∀ e, e ≠ Event.begin_value LaxJsonType.LaxJsonTypeObject →
        (∀ t, e = Event.begin_value t →
          t = LaxJsonType.LaxJsonTypeObject ∨ t = LaxJsonType.LaxJsonTypeArray) →
        ∃ msg, dispatch L d e = some (parse_error d msg)) ∧
    (d.state = State.StateDone →
      ∀ e, (∀ t, e = Event.begin_value t →
          t = LaxJsonType.LaxJsonTypeObject ∨ t = LaxJsonType.LaxJsonTypeArray) →
        ∃ msg, dispatch L d e = some (parse_error d msg)) ∧
    (∀ msg, (parse_error d msg).1 = -1 ∧ (parse_error d msg).2.state = d.state ∧
      (parse_error d msg).2.parse_err_occurred = true) ∧
    (d.state = State.StateDone →
      ∀ events r d1, feed L events d = some (r, d1) → d1.state = State.StateDone) := by
  refine ⟨?_, ?_, ?_, ?_⟩
  · intro hs
    refine ⟨by simp [dispatch, on_begin, hs, goto], ?_⟩
    intro e hne ht
    cases e with
    | string t v =>
      exact ⟨_, by simp only [dispatch, on_string, hs]; rfl⟩
    | number x =>
      exact ⟨_, by simp only [dispatch, on_number, hs]; rfl⟩
    | primitive t =>
      exact ⟨_, by simp only [dispatch, on_primitive, hs]; rfl⟩
    | begin_value t =>
      rcases ht t rfl with h | h
      · subst h
        exact absurd rfl hne
      · subst h
        exact ⟨_, by simp only [dispatch, on_begin, hs, if_true]; rfl⟩
    | end_value t =>
      exact ⟨_, by simp only [dispatch, on_end, hs]; rfl⟩
  · intro hs e ht
    cases e with
    | string t v =>
      exact ⟨_, by simp only [dispatch, on_string, hs]; rfl⟩
    | number x =>
      exact ⟨_, by simp only [dispatch, on_number, hs]; rfl⟩
    | primitive t =>
      exact ⟨_, by simp only [dispatch, on_primitive, hs]; rfl⟩
    | begin_value t =>
      rcases ht t rfl with h | h
      · subst h
        exact ⟨_, by simp only [dispatch, on_begin, hs, reduceCtorEq, if_false, ne_eq, not_true_eq_false]; rfl⟩
      · subst h
        exact ⟨_, by simp only [dispatch, on_begin, hs, if_true]; rfl⟩
    | end_value t =>
      exact ⟨_, by simp only [dispatch, on_end, hs]; rfl⟩
  · intro msg
    exact ⟨parse_error_fst d msg, parse_error_state d msg, parse_error_latched d msg⟩
  · intro hs events r d1 h
    refine feed_preserves L (fun x => x.state = State.StateDone) ?_ events d r d1 hs h
    intro x e r2 x1 hx hh
    obtain ⟨msg, hm⟩ := dispatch_done L x x1 e r2 hx hh
    have h2 := congrArg Prod.snd hm
    simp only at h2
    rw [h2, parse_error_state]
    exact hx

/-! ## Numbers and primitives -/

theorem parse_error_texture {B : Type} (d : Driver B) (msg : CStr) :
    (parse_error d msg).2.texture = d.texture := by
  unfold parse_error; split <;> rfl

/-- C25. In `StateTextureMaxWidth` and `StateTextureMaxHeight`, with a texture
open, a number that is not integer-valued (and whose truncation is an `int`,
so that the cast is defined) is the parse error `expected integer`, which
leaves the texture and the state as they are; an integer-valued number in
`int` range is stored exactly in `max_width`, respectively `max_height`, and
the state becomes `StateTextureProp`. -/
theorem texture_sizes_must_be_integers {B : Type} (d : Driver B) (t : RuckSackTexture)
    (ht : d.texture = some t) :
    (d.state = State.StateTextureMaxWidth →
      (∀ x : Rat, (∀ k : Int, x ≠ (k : Rat)) → double_to_int x ≠ none →
        on_number d x = some (parse_error d "expected integer")) ∧
      (∀ n : Int, is_int n = true →
        on_number d (n : Rat) =
          some (0, { d with
            texture := some { t with max_width := n },
            state := State.StateTextureProp }))) ∧
    (d.state = State.StateTextureMaxHeight →
      (∀ x : Rat, (∀ k : Int, x ≠ (k : Rat)) → double_to_int x ≠ none →
        on_number d x = some (parse_error d "expected integer")) ∧
      (∀ n : Int, is_int n = true →
        on_number d (n : Rat) =
          some (0, { d with
            texture := some { t with max_height := n },
            state := State.StateTextureProp }))) ∧
    (parse_error d "expected integer").1 = -1 ∧
    (parse_error d "expected integer").2.texture = d.texture ∧
    (parse_error d "expected integer").2.state = d.state ∧
    (parse_error d "expected integer").2.parse_err_occurred = true := by
  refine ⟨?_, ?_, parse_error_fst _ _, parse_error_texture _ _, parse_error_state _ _,
    parse_error_latched _ _⟩
  · intro hs
    constructor
    · intro x hx hdef
      cases hc : double_to_int x with
      | none => exact absurd hc hdef
      | some n => simp only [on_number, hs, hc, hx n, ne_eq, not_false_eq_true, if_true]
    · intro n hn
      simp only [on_number, hs, double_to_int_cast n hn, ht, ne_eq, not_true_eq_false,
        if_false]
  · intro hs
    constructor
    · intro x hx hdef
      cases hc : double_to_int x with
      | none => exact absurd hc hdef
      | some n => simp only [on_number, hs, hc, hx n, ne_eq, not_false_eq_true, if_true]
    · intro n hn
      simp only [on_number, hs, double_to_int_cast n hn, ht, ne_eq, not_true_eq_false,
        if_false]

/-- C25 at the example globals in `StateTextureMaxWidth` with the default
texture open: 512 is stored, 1/2 is rejected. -/
theorem texture_sizes_must_be_integers_witness :
    on_number example_size_driver ((512 : Int) : Rat) =
      some (0, { example_size_driver with
        texture := some { example_default_texture with max_width := 512 },
        state := State.StateTextureProp }) ∧
    on_number example_size_driver example_half =
      some (parse_error example_size_driver "expected integer") :=
  ⟨((texture_sizes_must_be_integers example_size_driver example_default_texture rfl).1
      rfl).2 512 (by decide),
   ((texture_sizes_must_be_integers example_size_driver example_default_texture rfl).1
      rfl).1 example_half
      (fun k hk => by
        have h2 := congrArg Rat.den hk
        simp [example_half] at h2)
      (by decide)⟩

/-- C26. In `StateTexturePow2`, with a texture open, `true` sets `pow2` to 1
and `false` sets it to 0, and both move to `StateTextureProp`; any other
primitive, `null` in particular, is the parse error `expected true or false`,
which leaves the texture and the state as they are.  The same holds of
`StateTextureAllowRotate90` and `allow_r90`.  In every other state a primitive
is the parse error `unexpected primitive`. -/
theorem booleans_only {B : Type} (d : Driver B) :
    (d.state = State.StateTexturePow2 →
      (∀ t, d.texture = some t →
        on_primitive d LaxJsonType.LaxJsonTypeTrue =
          some (0, { d with
            texture := some { t with pow2 := 1 }, state := State.StateTextureProp }) ∧
        on_primitive d LaxJsonType.LaxJsonTypeFalse =
          some (0, { d with
            texture := some { t with pow2 := 0 }, state := State.StateTextureProp })) ∧
      ∀ type, type ≠ LaxJsonType.LaxJsonTypeTrue → type ≠ LaxJsonType.LaxJsonTypeFalse →
        on_primitive d type = some (parse_error d "expected true or false")) ∧
    (d.state = State.StateTextureAllowRotate90 →
      (∀ t, d.texture = some t →
        on_primitive d LaxJsonType.LaxJsonTypeTrue =
          some (0, { d with
            texture := some { t with allow_r90 := 1 }, state := State.StateTextureProp }) ∧
        on_primitive d LaxJsonType.LaxJsonTypeFalse =
          some (0, { d with
            texture := some { t with allow_r90 := 0 }, state := State.StateTextureProp })) ∧
      ∀ type, type ≠ LaxJsonType.LaxJsonTypeTrue → type ≠ LaxJsonType.LaxJsonTypeFalse →
        on_primitive d type = some (parse_error d "expected true or false")) ∧
    (d.state ≠ State.StateTexturePow2 → d.state ≠ State.StateTextureAllowRotate90 →
      ∀ type, on_primitive d type = some (parse_error d "unexpected primitive")) ∧
    (∀ msg, (parse_error d msg).1 = -1 ∧ (parse_error d msg).2.texture = d.texture ∧
      (parse_error d msg).2.state = d.state ∧
      (parse_error d msg).2.parse_err_occurred = true) := by
  refine ⟨?_, ?_, ?_, ?_⟩
  · intro hs
    refine ⟨fun t ht => ⟨by simp only [on_primitive, hs, ht], by simp only [on_primitive, hs, ht]⟩,
      ?_⟩
    intro type h1 h2
    cases type <;> first | exact absurd rfl h1 | exact absurd rfl h2 | simp only [on_primitive, hs]
  · intro hs
    refine ⟨fun t ht => ⟨by simp only [on_primitive, hs, ht], by simp only [on_primitive, hs, ht]⟩,
      ?_⟩
    intro type h1 h2
    cases type <;> first | exact absurd rfl h1 | exact absurd rfl h2 | simp only [on_primitive, hs]
  · intro h1 h2 type
    unfold on_primitive
    split
    · rename_i hc; exact absurd hc h1
    · rename_i hc; exact absurd hc h2
    · rfl
  · intro msg
    exact ⟨parse_error_fst d msg, parse_error_texture d msg, parse_error_state d msg,
      parse_error_latched d msg⟩

/-- C24. In `StateImagePropAnchorY`, `on_number` stores the number in
`anchor_x` of the image, leaves `anchor_y` as it is and moves to
`StateImagePropAnchorObject`; hence after the events of an anchor object with
`x` = a and `y` = b, `anchor_x` is b and `anchor_y` still holds the value it
had before. -/
theorem anchor_y_writes_anchor_x {B E : Type} (L : Lib B E) (d : Driver B) :
    (d.state = State.StateImagePropAnchorY →
      ∀ x, on_number d x =
        some (0, { d with
          image := { d.image with anchor_x := x },
          state := State.StateImagePropAnchorObject })) ∧
    (d.state = State.StateImagePropAnchor →
      ∀ a b : Rat, ∃ d1,
        feed L (AnchorSpec.point [AnchorCoord.x a, AnchorCoord.y b]).events d =
          some (none, d1) ∧
        d1.image.anchor_x = b ∧ d1.image.anchor_y = d.image.anchor_y ∧
        d1.image.anchor = RuckSackAnchor.RuckSackAnchorExplicit ∧
        d1.state = d.anchor_next_state) := by
  constructor
  · intro hs x
    simp only [on_number, hs]
  · intro hs a b
    simp only [AnchorSpec.events, concat_events, AnchorCoord.events, List.cons_append,
      List.nil_append, feed, dispatch, on_begin, on_string, on_number, on_end, hs, goto,
      reduceCtorEq, String.reduceEq, if_true, if_false, ne_eq, not_true_eq_false]
    exact ⟨_, rfl, rfl, rfl, rfl, rfl⟩

/-! ## What a failing callback leaves behind -/

theorem on_string_error {B E : Type} (L : Lib B E) (d d1 : Driver B) (t : LaxJsonType)
    (value : String) (r : Int) (h : on_string L d t value = some (r, d1)) (hr : r ≠ 0) :
    r = -1 ∧ d1.parse_err_occurred = true ∧ d1.state = d.state := by
  unfold on_string at h
  simp only [goto] at h
  repeat' split at h
  all_goals
    simp only [Option.some.injEq] at h
    have h1 := congrArg Prod.fst h
    have h2 := congrArg Prod.snd h
    simp only at h1 h2
    subst h1
    subst h2
    first
    | exact absurd rfl hr
    | simp [parse_error_latched, parse_error_state, log_call]

theorem on_number_error {B : Type} (d d1 : Driver B) (x : Rat) (r : Int)
    (h : on_number d x = some (r, d1)) (hr : r ≠ 0) :
    r = -1 ∧ d1.parse_err_occurred = true ∧ d1.state = d.state := by
  unfold on_number at h
  repeat' split at h
  all_goals
    first
    | (simp only [Option.some.injEq] at h
       have h1 := congrArg Prod.fst h
       have h2 := congrArg Prod.snd h
       simp only at h1 h2
       subst h1
       subst h2
       first
       | exact absurd rfl hr
       | simp [parse_error_latched, parse_error_state])
    | simp at h

theorem on_primitive_error {B : Type} (d d1 : Driver B) (t : LaxJsonType) (r : Int)
    (h : on_primitive d t = some (r, d1)) (hr : r ≠ 0) :
    r = -1 ∧ d1.parse_err_occurred = true ∧ d1.state = d.state := by
  unfold on_primitive at h
  repeat' split at h
  all_goals
    first
    | (simp only [Option.some.injEq] at h
       have h1 := congrArg Prod.fst h
       have h2 := congrArg Prod.snd h
       simp only at h1 h2
       subst h1
       subst h2
       first
       | exact absurd rfl hr
       | simp [parse_error_latched, parse_error_state])
    | simp at h

theorem on_begin_error {B : Type} (d d1 : Driver B) (t : LaxJsonType) (r : Int)
    (h : on_begin d t = some (r, d1)) (hr : r ≠ 0) :
    r = -1 ∧ d1.parse_err_occurred = true ∧ d1.state = d.state := by
  unfold on_begin at h
  simp only [goto] at h
  repeat' split at h
  all_goals
    first
    | (simp only [Option.some.injEq] at h
       have h1 := congrArg Prod.fst h
       have h2 := congrArg Prod.snd h
       simp only at h1 h2
       subst h1
       subst h2
       first
       | exact absurd rfl hr
       | simp [parse_error_latched, parse_error_state])
    | simp at h

theorem verbose_print_state {B : Type} (d : Driver B) (msg : CStr) :
    (verbose_print d msg).state = d.state := (verbose_print_fields d msg).1

theorem add_file_call_error {B E : Type} (L : Lib B E) (d : Driver B)
    (key : Option CStr) (path : Option String) :
    ((add_file_call L d key path).1 ≠ 0 →
      (add_file_call L d key path).1 = -1 ∧
      (add_file_call L d key path).2.parse_err_occurred = true) ∧
    (add_file_call L d key path).2.state = d.state := by
  unfold add_file_call
  simp only
  split
  · exact ⟨fun _ => ⟨parse_error_fst _ _, parse_error_latched _ _⟩, by
      rw [parse_error_state]; rfl⟩
  · exact ⟨fun h => absurd rfl h, rfl⟩

theorem add_file_if_outdated_error {B E : Type} (L : Lib B E) (d : Driver B)
    (key : Option CStr) (path : Option String) :
    ((add_file_if_outdated L d key path).1 ≠ 0 →
      (add_file_if_outdated L d key path).1 = -1 ∧
      (add_file_if_outdated L d key path).2.parse_err_occurred = true) ∧
    (add_file_if_outdated L d key path).2.state = d.state := by
  unfold add_file_if_outdated
  split
  · simp only
    split
    · exact ⟨fun h => absurd rfl h, verbose_print_state _ _⟩
    · have h := add_file_call_error L (verbose_print d (c_str "Updating file: " ++ cstr_bytes key)) key path
      exact ⟨h.1, h.2.trans (verbose_print_state _ _)⟩
  · have h := add_file_call_error L (verbose_print d (c_str "New file: " ++ cstr_bytes key)) key path
    exact ⟨h.1, h.2.trans (verbose_print_state _ _)⟩

theorem add_texture_call_error {B E : Type} (L : Lib B E) (d : Driver B)
    (key : Option CStr) (texture : RuckSackTexture) :
    ((add_texture_call L d key texture).1 ≠ 0 →
      (add_texture_call L d key texture).1 = -1 ∧
      (add_texture_call L d key texture).2.parse_err_occurred = true) ∧
    (add_texture_call L d key texture).2.state = d.state := by
  unfold add_texture_call
  simp only
  split
  · exact ⟨fun _ => ⟨parse_error_fst _ _, parse_error_latched _ _⟩, by
      rw [parse_error_state]; rfl⟩
  · exact ⟨fun h => absurd rfl h, rfl⟩

theorem add_texture_if_outdated_error {B E : Type} (L : Lib B E) (d d1 : Driver B)
    (key : Option CStr) (texture : RuckSackTexture) (r : Int)
    (h : add_texture_if_outdated L d key texture = some (r, d1)) :
    (r ≠ 0 → r = -1 ∧ d1.parse_err_occurred = true) ∧ d1.state = d.state := by
  unfold add_texture_if_outdated at h
  split at h
  · split at h
    · simp at h
    · simp only at h
      split at h
      · simp only [Option.some.injEq, Prod.mk.injEq] at h
        obtain ⟨rfl, rfl⟩ := h
        exact ⟨fun hh => absurd rfl hh, verbose_print_state _ _⟩
      · simp only [Option.some.injEq] at h
        have hc := add_texture_call_error L
          (verbose_print d (c_str "Updating texture: " ++ cstr_bytes key)) key texture
        rw [h] at hc
        exact ⟨hc.1, hc.2.trans (verbose_print_state _ _)⟩
  · simp only [Option.some.injEq] at h
    have hc := add_texture_call_error L (verbose_print d (c_str "New texture: " ++ cstr_bytes key)) key
      texture
    rw [h] at hc
    exact ⟨hc.1, hc.2.trans (verbose_print_state _ _)⟩

theorem texture_add_image_call_error {B E : Type} (L : Lib B E) (d d1 : Driver B) (r : Int)
    (h : texture_add_image_call L d = some (r, d1)) :
    (r ≠ 0 → r = -1 ∧ d1.parse_err_occurred = true) ∧ d1.state = d.state := by
  unfold texture_add_image_call at h
  split at h
  · simp at h
  · simp only at h
    split at h
    · simp only [Option.some.injEq] at h
      have h1 := congrArg Prod.fst h
      have h2 := congrArg Prod.snd h
      simp only at h1 h2
      subst h1
      subst h2
      exact ⟨fun _ => ⟨parse_error_fst _ _, parse_error_latched _ _⟩, by
        rw [parse_error_state]; rfl⟩
    · simp only [Option.some.injEq, Prod.mk.injEq] at h
      obtain ⟨rfl, rfl⟩ := h
      exact ⟨fun hh => absurd rfl hh, rfl⟩

theorem add_glob_match_to_texture_error {B E : Type} (L : Lib B E) (d d1 : Driver B)
    (key : CStr) (path : String) (r : Int) (h : add_glob_match_to_texture L d key path = some (r, d1)) :
    (r ≠ 0 → r = -1 ∧ d1.parse_err_occurred = true) ∧ d1.state = d.state := by
  unfold add_glob_match_to_texture at h
  simp only at h
  split at h
  · simp at h
  · rename_i err d2 hc
    have h2 := texture_add_image_call_error L _ d2 err hc
    split at h
    · simp only [Option.some.injEq, Prod.mk.injEq] at h
      obtain ⟨rfl, rfl⟩ := h
      exact h2
    · simp only [Option.some.injEq, Prod.mk.injEq] at h
      obtain ⟨rfl, rfl⟩ := h
      exact ⟨fun hh => absurd rfl hh, by
        simp only [(check_latest_mtime_fields L d2 (some path)).1]
        exact h2.2⟩

theorem glob_loop_error {B E : Type} (L : Lib B E)
    (cb : Driver B → CStr → String → Option (Int × Driver B))
    (hcb : ∀ d key path r d1, cb d key path = some (r, d1) →
      (r ≠ 0 → r = -1 ∧ d1.parse_err_occurred = true) ∧ d1.state = d.state)
    (strbuf3 pre : String) :
    ∀ (paths : List String) (d d1 : Driver B) (r : Int),
      (glob_loop L cb strbuf3 pre paths d).1 = some (r, d1) →
      (r ≠ 0 → r = -1 ∧ d1.parse_err_occurred = true) ∧ d1.state = d.state
  | [], d, d1, r, h => by
    simp only [glob_loop, Option.some.injEq, Prod.mk.injEq] at h
    obtain ⟨rfl, rfl⟩ := h
    exact ⟨fun hh => absurd rfl hh, rfl⟩
  | path :: rest, d, d1, r, h => by
    unfold glob_loop at h
    split at h
    · simp only [Option.some.injEq] at h
      have h1 := congrArg Prod.fst h
      have h2 := congrArg Prod.snd h
      simp only at h1 h2
      subst h1
      subst h2
      exact ⟨fun _ => ⟨parse_error_fst _ _, parse_error_latched _ _⟩, parse_error_state _ _⟩
    · split at h
      · exact glob_loop_error L cb hcb strbuf3 pre rest d d1 r h
      · split at h
        · simp at h
        · rename_i err d2 hc
          have h2 := hcb _ _ _ _ _ hc
          split at h
          · simp only [Option.some.injEq, Prod.mk.injEq] at h
            obtain ⟨rfl, rfl⟩ := h
            exact h2
          · have h3 := glob_loop_error L cb hcb strbuf3 pre rest d2 d1 r h
            exact ⟨h3.1, h3.2.trans h2.2⟩

theorem perform_glob_error {B E : Type} (L : Lib B E)
    (cb : Driver B → CStr → String → Option (Int × Driver B))
    (hcb : ∀ d key path r d1, cb d key path = some (r, d1) →
      (r ≠ 0 → r = -1 ∧ d1.parse_err_occurred = true) ∧ d1.state = d.state)
    (d d1 : Driver B) (r : Int) (h : perform_glob L cb d = some (r, d1)) :
    (r ≠ 0 → r = -1 ∧ d1.parse_err_occurred = true) ∧ d1.state = d.state := by
  unfold perform_glob perform_glob_trace at h
  simp only at h
  split at h
  · simp only [Option.some.injEq] at h
    have h1 := congrArg Prod.fst h
    have h2 := congrArg Prod.snd h
    simp only at h1 h2
    subst h1
    subst h2
    exact ⟨fun _ => ⟨parse_error_fst _ _, parse_error_latched _ _⟩, by
      rw [parse_error_state]; rfl⟩
  · simp only [Option.some.injEq] at h
    have h1 := congrArg Prod.fst h
    have h2 := congrArg Prod.snd h
    simp only at h1 h2
    subst h1
    subst h2
    exact ⟨fun _ => ⟨parse_error_fst _ _, parse_error_latched _ _⟩, by
      rw [parse_error_state]; rfl⟩
  · simp only [Option.some.injEq] at h
    have h1 := congrArg Prod.fst h
    have h2 := congrArg Prod.snd h
    simp only at h1 h2
    subst h1
    subst h2
    exact ⟨fun _ => ⟨parse_error_fst _ _, parse_error_latched _ _⟩, by
      rw [parse_error_state]; rfl⟩
  · have h3 := glob_loop_error L cb hcb _ _ _ _ d1 r h
    exact ⟨h3.1, h3.2⟩

theorem on_end_error {B E : Type} (L : Lib B E) (d d1 : Driver B) (t : LaxJsonType) (r : Int)
    (h : on_end L d t = some (r, d1)) (hr : r ≠ 0) :
    r = -1 ∧ d1.parse_err_occurred = true ∧ d1.state = d.state := by
  unfold on_end at h
  simp only [goto] at h
  split at h
  case h_4 =>
    split at h
    · simp at h
    · rename_i err d2 hc
      have h2 := texture_add_image_call_error L d d2 err hc
      split at h
      · simp only [Option.some.injEq, Prod.mk.injEq] at h
        obtain ⟨rfl, rfl⟩ := h
        exact ⟨(h2.1 hr).1, (h2.1 hr).2, h2.2⟩
      · simp only [Option.some.injEq, Prod.mk.injEq] at h
        exact absurd h.1.symm hr
  case h_5 =>
    have h2 := add_file_if_outdated_error L d d.file_key d.file_path
    split at h
    · rename_i hne
      simp only [Option.some.injEq] at h
      rw [h] at h2
      exact ⟨(h2.1 hr).1, (h2.1 hr).2, h2.2⟩
    · simp only [Option.some.injEq, Prod.mk.injEq] at h
      exact absurd h.1.symm hr
  case h_8 =>
    split at h
    · simp at h
    · split at h
      · simp at h
      · rename_i texture _ err d2 hc
        have h2 := add_texture_if_outdated_error L d d2 _ _ err hc
        split at h
        · simp only [Option.some.injEq, Prod.mk.injEq] at h
          obtain ⟨rfl, rfl⟩ := h
          exact ⟨(h2.1 hr).1, (h2.1 hr).2, h2.2⟩
        · simp only [Option.some.injEq, Prod.mk.injEq] at h
          exact absurd h.1.symm hr
  case h_9 =>
    split at h
    · simp at h
    · rename_i err d2 hc
      have h2 := perform_glob_error L (add_glob_match_to_bundle L)
        (fun x key path r2 x1 hh => by
          simp only [add_glob_match_to_bundle, Option.some.injEq] at hh
          have h3 := add_file_if_outdated_error L x (some key) (some path)
          rw [hh] at h3
          exact h3)
        d d2 err hc
      split at h
      · simp only [Option.some.injEq, Prod.mk.injEq] at h
        obtain ⟨rfl, rfl⟩ := h
        exact ⟨(h2.1 hr).1, (h2.1 hr).2, h2.2⟩
      · simp only [Option.some.injEq, Prod.mk.injEq] at h
        exact absurd h.1.symm hr
  case h_10 =>
    split at h
    · simp at h
    · rename_i err d2 hc
      have h2 := perform_glob_error L (add_glob_match_to_texture L)
        (fun x key path r2 x1 hh => add_glob_match_to_texture_error L x x1 key path r2 hh)
        d d2 err hc
      split at h
      · simp only [Option.some.injEq, Prod.mk.injEq] at h
        obtain ⟨rfl, rfl⟩ := h
        exact ⟨(h2.1 hr).1, (h2.1 hr).2, h2.2⟩
      · simp only [Option.some.injEq, Prod.mk.injEq] at h
        exact absurd h.1.symm hr
  all_goals
    simp only [Option.some.injEq] at h
    have h1 := congrArg Prod.fst h
    have h2 := congrArg Prod.snd h
    simp only at h1 h2
    subst h1
    subst h2
    first
    | exact absurd rfl hr
    | simp [parse_error_latched, parse_error_state]

/-- C27. Whenever a callback (`on_string`, `on_number`, `on_primitive`,
`on_begin`, `on_end`) returns non-zero, in any state and on any event, it
returns -1, `parse_err_occurred` is set afterwards and `state` is what it was
before the call.  Whenever it returns 0, `parse_err_occurred` is what it was
before the call: still clear if it was clear, whereas `parse_error` leaves it
set. -/
theorem failing_callback_latches_and_keeps_state {B E : Type} (L : Lib B E) (d d1 : Driver B)
    (e : Event) (r : Int) (h : dispatch L d e = some (r, d1)) :
    (r ≠ 0 → r = -1 ∧ d1.parse_err_occurred = true ∧ d1.state = d.state) ∧
    (r = 0 → d1.parse_err_occurred = d.parse_err_occurred) ∧
    (∀ msg, (parse_error d msg).2.parse_err_occurred = true ∧ (parse_error d msg).1 ≠ 0) := by
  refine ⟨?_, ?_, ?_⟩
  · intro hr
    cases e with
    | string t v => exact on_string_error L d d1 t v r h hr
    | number x => exact on_number_error d d1 x r h hr
    | primitive t => exact on_primitive_error d d1 t r h hr
    | begin_value t => exact on_begin_error d d1 t r h hr
    | end_value t => exact on_end_error L d d1 t r h hr
  · intro hr
    subst hr
    exact dispatch_zero L d d1 e h
  · intro msg
    exact ⟨parse_error_latched d msg, by rw [parse_error_fst]; decide⟩

/-- C27 at the example globals in `StateStart` with a number as first
event. -/
theorem failing_callback_latches_and_keeps_state_witness :
    dispatch (exampleLib example_world) (example_driver []) (Event.number 1) =
      some (-1, (parse_error (example_driver [])
        "top-level value must be an object, not number").2) ∧
    ((-1 : Int) ≠ 0 →
      (-1 : Int) = -1 ∧
      (parse_error (example_driver [])
        "top-level value must be an object, not number").2.parse_err_occurred = true ∧
      (parse_error (example_driver [])
        "top-level value must be an object, not number").2.state = (example_driver []).state) :=
  ⟨rfl,
   (failing_callback_latches_and_keeps_state (exampleLib example_world) (example_driver [])
     (parse_error (example_driver []) "top-level value must be an object, not number").2
     (Event.number 1) (-1) rfl).1⟩
/-! ## The anchor sub-machine -/

theorem accepts_anchored_coord {B E : Type} (L : Lib B E) (n : State) (A : RuckSackAnchor)
    (c : List Call) (t : Option RuckSackTexture) (coord : AnchorCoord) :
    Accepts L (@anchored B State.StateImagePropAnchorObject n A c t)
      (anchored State.StateImagePropAnchorObject n A c t) coord.events := by
  cases coord with
  | x v =>
    refine accepts_cons L _ (anchored State.StateImagePropAnchorX n A c t) _ _ _ ?_
      (accepts_single L _ _ _ ?_)
    · rintro d ⟨⟨hs, ha, hc, ht⟩, hn⟩
      simp only [dispatch, on_string, hs, goto, if_true]
      exact ⟨_, rfl, ⟨⟨rfl, ha, hc, ht⟩, hn⟩, rfl⟩
    · rintro d ⟨⟨hs, ha, hc, ht⟩, hn⟩
      simp only [dispatch, on_number, hs]
      exact ⟨_, rfl, ⟨⟨rfl, ha, hc, ht⟩, hn⟩, rfl⟩
  | y v =>
    refine accepts_cons L _ (anchored State.StateImagePropAnchorY n A c t) _ _ _ ?_
      (accepts_single L _ _ _ ?_)
    · rintro d ⟨⟨hs, ha, hc, ht⟩, hn⟩
      simp only [dispatch, on_string, hs, goto, String.reduceEq, if_true, if_false]
      exact ⟨_, rfl, ⟨⟨rfl, ha, hc, ht⟩, hn⟩, rfl⟩
    · rintro d ⟨⟨hs, ha, hc, ht⟩, hn⟩
      simp only [dispatch, on_number, hs]
      exact ⟨_, rfl, ⟨⟨rfl, ha, hc, ht⟩, hn⟩, rfl⟩

theorem accepts_anchored_anchor {B E : Type} (L : Lib B E) (n : State) (A : RuckSackAnchor)
    (c : List Call) (t : Option RuckSackTexture) (a : AnchorSpec) (hc : a.conforms = true) :
    Accepts L (@anchored B State.StateImagePropAnchor n A c t) (anchored n n a.kind c t)
      a.events := by
  cases a with
  | named value =>
    simp only [AnchorSpec.conforms, decide_eq_true_eq] at hc
    obtain ⟨k, hk⟩ := anchor_of_string_some value hc
    refine accepts_single L _ _ _ ?_
    rintro d ⟨⟨hs, ha, hcl, ht⟩, hn⟩
    simp only [dispatch, on_string, hs, hk]
    exact ⟨_, rfl, ⟨⟨hn, by simp [AnchorSpec.kind, hk], hcl, ht⟩, hn⟩, rfl⟩
  | point coords =>
    refine accepts_block L _
      (anchored State.StateImagePropAnchorObject n RuckSackAnchor.RuckSackAnchorExplicit c t) _
      AnchorCoord.events coords _ _ ?_ (fun x _ => accepts_anchored_coord L n _ c t x) ?_
    · rintro d ⟨⟨hs, ha, hcl, ht⟩, hn⟩
      simp only [dispatch, on_begin, hs, reduceCtorEq, if_false, ne_eq, not_true_eq_false]
      exact ⟨_, rfl, ⟨⟨rfl, rfl, hcl, ht⟩, hn⟩, rfl⟩
    · rintro d ⟨⟨hs, ha, hcl, ht⟩, hn⟩
      simp only [dispatch, on_end, hs, goto]
      exact ⟨_, rfl, ⟨⟨hn, ha, hcl, ht⟩, hn⟩, rfl⟩

theorem parse_error_anchor_next_state {B : Type} (d : Driver B) (msg : CStr) :
    (parse_error d msg).2.anchor_next_state = d.anchor_next_state := by
  unfold parse_error; split <;> rfl

theorem anchor_step {B E : Type} (L : Lib B E) (d d1 : Driver B) (e : Event) (r : Int)
    (hs : d.state ∈ anchor_states) (h : dispatch L d e = some (r, d1)) :
    d1.anchor_next_state = d.anchor_next_state ∧
    (d1.state ∈ anchor_states ∨ (r = 0 ∧ d1.state = d.anchor_next_state)) := by
  simp only [anchor_states, List.mem_cons, List.mem_singleton, List.not_mem_nil,
    or_false] at hs
  rcases hs with hs | hs | hs | hs <;> cases e <;>
    simp only [dispatch, on_string, on_number, on_primitive, on_begin, on_end, hs, goto] at h
  all_goals
    repeat' split at h
  all_goals
    first
    | (simp only [Option.some.injEq] at h
       have h1 := congrArg Prod.fst h
       have h2 := congrArg Prod.snd h
       simp only at h1 h2
       subst h1
       subst h2
       simp [anchor_states, parse_error_state, parse_error_anchor_next_state, hs])
    | simp at h

/-- C22. The anchor sub-machine returns to the state it was entered from.
From `StateImagePropName` and from `StateGlobImageObjectProp`, the property
name `anchor` followed by the events of an anchor value (one of the nine
strings, or an object of `x` and `y` numbers up to its end event) ends in the
state it started in.  Step by step: `anchor` stores the entry state in
`anchor_next_state`; inside the sub-machine no callback changes
`anchor_next_state`, and a callback either stays inside or returns 0 and moves
to `anchor_next_state`. -/
theorem anchor_returns_to_entry_state {B E : Type} (L : Lib B E) (d : Driver B) :
    (d.state = State.StateImagePropName ∨ d.state = State.StateGlobImageObjectProp →
      (∃ d1, dispatch L d (Event.string LaxJsonType.LaxJsonTypeProperty "anchor") =
          some (0, d1) ∧
        d1.state = State.StateImagePropAnchor ∧ d1.anchor_next_state = d.state) ∧
      ∀ a : AnchorSpec, a.conforms = true →
        ∃ d1, feed L (Event.string LaxJsonType.LaxJsonTypeProperty "anchor" :: a.events) d =
            some (none, d1) ∧
          d1.state = d.state) ∧
    (d.state ∈ anchor_states → ∀ e r d1, dispatch L d e = some (r, d1) →
      d1.anchor_next_state = d.anchor_next_state ∧
      (d1.state ∈ anchor_states ∨ (r = 0 ∧ d1.state = d.anchor_next_state))) := by
  constructor
  · intro hs
    have hentry : ∀ x : Driver B, x.state = d.state →
        ∃ x1, dispatch L x (Event.string LaxJsonType.LaxJsonTypeProperty "anchor") =
            some (0, x1) ∧
          x1.state = State.StateImagePropAnchor ∧ x1.anchor_next_state = d.state ∧
          x1.image.anchor = x.image.anchor ∧ x1.calls = x.calls ∧ x1.texture = x.texture ∧
          x1.parse_err_occurred = x.parse_err_occurred := by
      intro x hx
      rcases hs with hs | hs
      · rw [hs] at hx
        simp only [dispatch, on_string, hx, if_true, hs]
        exact ⟨_, rfl, rfl, rfl, rfl, rfl, rfl, rfl⟩
      · rw [hs] at hx
        simp only [dispatch, on_string, hx, String.reduceEq, if_true, if_false, hs]
        exact ⟨_, rfl, rfl, rfl, rfl, rfl, rfl, rfl⟩
    constructor
    · obtain ⟨x1, h1, h2, h3, _⟩ := hentry d rfl
      exact ⟨x1, h1, h2, h3⟩
    · intro a hc
      have hacc : Accepts L (fun x : Driver B => x = d)
          (anchored d.state d.state a.kind d.calls d.texture)
          (Event.string LaxJsonType.LaxJsonTypeProperty "anchor" :: a.events) := by
        refine accepts_cons L _
          (anchored State.StateImagePropAnchor d.state d.image.anchor d.calls d.texture) _ _ _
          ?_ (accepts_anchored_anchor L _ _ _ _ a hc)
        intro x hx
        subst hx
        obtain ⟨x1, h1, h2, h3, h4, h5, h6, h7⟩ := hentry x rfl
        exact ⟨x1, h1, ⟨⟨h2, h4, h5, h6⟩, h3⟩, h7⟩
      obtain ⟨d1, h1, h2, _⟩ := hacc d rfl
      exact ⟨d1, h1, h2.1.1⟩
  · intro hs e r d1 h
    exact anchor_step L d d1 e r hs h

theorem texture_scope_state {B : Type} (d d1 : Driver B)
    (hinv : in_texture_scope d.state = true → d.texture ≠ none)
    (hs : d1.state = d.state) (ht : d1.texture = d.texture) :
    in_texture_scope d1.state = true → d1.texture ≠ none := by
  rw [hs, ht]
  exact hinv

theorem on_string_scope {B E : Type} (L : Lib B E) (d d1 : Driver B) (t : LaxJsonType)
    (value : String) (r : Int) (h : on_string L d t value = some (r, d1))
    (hinv : in_texture_scope d.state = true → d.texture ≠ none) :
    in_texture_scope d1.state = true → d1.texture ≠ none := by
  cases hst : d.state <;> simp only [on_string, hst, goto] at h
  all_goals
    repeat' split at h
  all_goals
    simp only [Option.some.injEq] at h
    have h2 := congrArg Prod.snd h
    simp only at h2
    subst h2
    intro hsc
    simp only [parse_error_state, parse_error_texture, log_call] at hsc ⊢
    first
    | exact hinv hsc
    | exact hinv (by rw [hst]; rfl)
    | exact absurd hsc (by decide)
    | simp

theorem on_number_scope {B : Type} (d d1 : Driver B) (x : Rat) (r : Int)
    (h : on_number d x = some (r, d1))
    (hinv : in_texture_scope d.state = true → d.texture ≠ none) :
    in_texture_scope d1.state = true → d1.texture ≠ none := by
  cases hst : d.state <;> simp only [on_number, hst] at h
  all_goals
    repeat' split at h
  all_goals
    first
    | (simp only [Option.some.injEq] at h
       have h2 := congrArg Prod.snd h
       simp only at h2
       subst h2
       intro hsc
       simp only [parse_error_state, parse_error_texture] at hsc ⊢
       first
       | exact hinv hsc
       | exact hinv (by rw [hst]; rfl)
       | exact absurd hsc (by decide)
       | simp)
    | simp at h

theorem on_primitive_scope {B : Type} (d d1 : Driver B) (t : LaxJsonType) (r : Int)
    (h : on_primitive d t = some (r, d1))
    (hinv : in_texture_scope d.state = true → d.texture ≠ none) :
    in_texture_scope d1.state = true → d1.texture ≠ none := by
  cases hst : d.state <;> simp only [on_primitive, hst] at h
  all_goals
    repeat' split at h
  all_goals
    first
    | (simp only [Option.some.injEq] at h
       have h2 := congrArg Prod.snd h
       simp only at h2
       subst h2
       intro hsc
       simp only [parse_error_state, parse_error_texture] at hsc ⊢
       first
       | exact hinv hsc
       | exact hinv (by rw [hst]; rfl)
       | exact absurd hsc (by decide)
       | simp)
    | simp at h

theorem on_begin_scope {B : Type} (d d1 : Driver B) (t : LaxJsonType) (r : Int)
    (h : on_begin d t = some (r, d1))
    (hinv : in_texture_scope d.state = true → d.texture ≠ none) :
    in_texture_scope d1.state = true → d1.texture ≠ none := by
  cases hst : d.state <;> simp only [on_begin, hst, goto] at h
  all_goals
    repeat' split at h
  all_goals
    first
    | (simp only [Option.some.injEq] at h
       have h2 := congrArg Prod.snd h
       simp only at h2
       subst h2
       intro hsc
       simp only [parse_error_state, parse_error_texture] at hsc ⊢
       first
       | exact hinv hsc
       | exact hinv (by rw [hst]; rfl)
       | exact absurd hsc (by decide))
    | simp at h

theorem texture_add_image_call_texture {B E : Type} (L : Lib B E) (d d1 : Driver B) (r : Int)
    (h : texture_add_image_call L d = some (r, d1)) : d1.texture ≠ none := by
  unfold texture_add_image_call at h
  split at h
  · simp at h
  · simp only at h
    split at h
    · simp only [Option.some.injEq] at h
      have h2 := congrArg Prod.snd h
      simp only at h2
      subst h2
      rw [parse_error_texture]
      simp [log_call]
    · simp only [Option.some.injEq, Prod.mk.injEq] at h
      obtain ⟨_, rfl⟩ := h
      simp [log_call]

theorem add_glob_match_to_texture_texture {B E : Type} (L : Lib B E) (d d1 : Driver B)
    (key : CStr) (path : String) (r : Int) (h : add_glob_match_to_texture L d key path = some (r, d1)) :
    d1.texture ≠ none := by
  unfold add_glob_match_to_texture at h
  simp only at h
  split at h
  · simp at h
  · rename_i err d2 hc
    have h2 := texture_add_image_call_texture L _ d2 err hc
    split at h
    · simp only [Option.some.injEq, Prod.mk.injEq] at h
      obtain ⟨_, rfl⟩ := h
      exact h2
    · simp only [Option.some.injEq, Prod.mk.injEq] at h
      obtain ⟨_, rfl⟩ := h
      simp only [(check_latest_mtime_fields L d2 (some path)).2.1]
      exact h2

theorem add_texture_call_texture {B E : Type} (L : Lib B E) (d : Driver B)
    (key : Option CStr) (texture : RuckSackTexture) :
    (add_texture_call L d key texture).2.texture = d.texture := by
  unfold add_texture_call
  simp only
  split
  · rw [parse_error_texture]; rfl
  · rfl

theorem add_texture_if_outdated_texture {B E : Type} (L : Lib B E) (d d1 : Driver B)
    (key : Option CStr) (texture : RuckSackTexture) (r : Int)
    (h : add_texture_if_outdated L d key texture = some (r, d1)) :
    d1.texture = d.texture := by
  unfold add_texture_if_outdated at h
  split at h
  · split at h
    · simp at h
    · simp only at h
      split at h
      · simp only [Option.some.injEq, Prod.mk.injEq] at h
        obtain ⟨_, rfl⟩ := h
        exact (verbose_print_fields d _).2.1
      · simp only [Option.some.injEq] at h
        have h2 := congrArg Prod.snd h
        simp only at h2
        subst h2
        rw [add_texture_call_texture]
        exact (verbose_print_fields d _).2.1
  · simp only [Option.some.injEq] at h
    have h2 := congrArg Prod.snd h
    simp only at h2
    subst h2
    rw [add_texture_call_texture]
    exact (verbose_print_fields d _).2.1

theorem on_end_scope {B E : Type} (L : Lib B E) (d d1 : Driver B) (t : LaxJsonType) (r : Int)
    (h : on_end L d t = some (r, d1))
    (hinv : in_texture_scope d.state = true → d.texture ≠ none) :
    in_texture_scope d1.state = true → d1.texture ≠ none := by
  cases hst : d.state
  case StateImagePropName =>
    simp only [on_end, hst] at h
    split at h
    · simp at h
    · rename_i err d2 hc
      have h2 := texture_add_image_call_texture L d d2 err hc
      split at h
      · simp only [Option.some.injEq, Prod.mk.injEq] at h
        obtain ⟨_, rfl⟩ := h
        exact fun _ => h2
      · simp only [Option.some.injEq, Prod.mk.injEq] at h
        obtain ⟨_, rfl⟩ := h
        intro _
        simp only [(check_latest_mtime_fields L d2 d2.image.path).2.1]
        exact h2
  case StateFilePropName =>
    simp only [on_end, hst] at h
    have h2 := (add_file_if_outdated_error L d d.file_key d.file_path).2
    split at h
    · simp only [Option.some.injEq] at h
      rw [h] at h2
      simp only at h2
      rw [h2, hst]
      simp [in_texture_scope]
    · simp only [Option.some.injEq, Prod.mk.injEq] at h
      obtain ⟨_, rfl⟩ := h
      simp [in_texture_scope]
  case StateTextureProp =>
    simp only [on_end, hst] at h
    split at h
    · simp at h
    · split at h
      · simp at h
      · rename_i err d2 hc
        have h2 := add_texture_if_outdated_texture L d d2 _ _ err hc
        split at h
        · simp only [Option.some.injEq, Prod.mk.injEq] at h
          obtain ⟨_, rfl⟩ := h
          intro _
          rw [h2]
          exact hinv (by rw [hst]; rfl)
        · simp only [Option.some.injEq, Prod.mk.injEq] at h
          obtain ⟨_, rfl⟩ := h
          simp [in_texture_scope]
  case StateGlobObjectProp =>
    simp only [on_end, hst] at h
    split at h
    · simp at h
    · rename_i err d2 hc
      have h2 := (perform_glob_error L (add_glob_match_to_bundle L)
        (fun x key path r2 x1 hh => by
          simp only [add_glob_match_to_bundle, Option.some.injEq] at hh
          have h3 := add_file_if_outdated_error L x (some key) (some path)
          rw [hh] at h3
          exact h3)
        d d2 err hc).2
      split at h
      · simp only [Option.some.injEq, Prod.mk.injEq] at h
        obtain ⟨_, rfl⟩ := h
        rw [h2, hst]
        simp [in_texture_scope]
      · simp only [Option.some.injEq, Prod.mk.injEq] at h
        obtain ⟨_, rfl⟩ := h
        simp [in_texture_scope]
  case StateGlobImageObjectProp =>
    simp only [on_end, hst] at h
    have ht0 : d.texture ≠ none := hinv (by rw [hst]; rfl)
    split at h
    · simp at h
    · rename_i err d2 hc
      have h2 : d2.texture ≠ none :=
        perform_glob_preserves L (add_glob_match_to_texture L) (fun x => x.texture ≠ none)
          (fun x msg hx => by
            show (parse_error x msg).2.texture ≠ none
            rw [parse_error_texture]
            exact hx)
          (fun x pattern hx => hx)
          (fun x key path r2 x1 _ hh => add_glob_match_to_texture_texture L x x1 key path r2 hh)
          d err d2 ht0 hc
      split at h
      · simp only [Option.some.injEq, Prod.mk.injEq] at h
        obtain ⟨_, rfl⟩ := h
        exact fun _ => h2
      · simp only [Option.some.injEq, Prod.mk.injEq] at h
        obtain ⟨_, rfl⟩ := h
        exact fun _ => h2
  all_goals
    simp only [on_end, hst, goto, Option.some.injEq] at h
    have h2 := congrArg Prod.snd h
    simp only at h2
    subst h2
    intro hsc
    simp only [parse_error_state, parse_error_texture] at hsc ⊢
    first
    | exact hinv hsc
    | exact hinv (by rw [hst]; rfl)
    | exact absurd hsc (by decide)

theorem dispatch_scope {B E : Type} (L : Lib B E) (d d1 : Driver B) (e : Event) (r : Int)
    (hinv : in_texture_scope d.state = true → d.texture ≠ none)
    (h : dispatch L d e = some (r, d1)) :
    in_texture_scope d1.state = true → d1.texture ≠ none := by
  cases e with
  | string t v => exact on_string_scope L d d1 t v r h hinv
  | number x => exact on_number_scope d d1 x r h hinv
  | primitive t => exact on_primitive_scope d d1 t r h hinv
  | begin_value t => exact on_begin_scope d d1 t r h hinv
  | end_value t => exact on_end_scope L d d1 t r h hinv

theorem feed_reachable {B E : Type} (L : Lib B E) (d0 : Driver B) (events : List Event)
    (r : Option LaxJsonError) (d1 : Driver B) (h : feed L events d0 = some (r, d1)) :
    Reachable L d0 d1 :=
  feed_preserves L (Reachable L d0)
    (fun d e r2 d2 hd hh => Reachable.step d d2 e r2 hd hh) events d0 r d1 Reachable.start h

/-- C29. From globals in `StateStart`, whatever the texture pointer holds
there (`NULL` after the static initialisers), every configuration the driver
reaches through any sequence of events, and so every configuration a run of
the parser ends in, has a texture open whenever its state is one nested inside
a texture object: the states in which a callback dereferences `texture`
(`StateTextureProp`, the four states of the settings, `StateImagePropName`,
`StateGlobImageObjectProp`) and the image, anchor and `globImages` states
between them. -/
theorem texture_open_in_texture_states {B E : Type} (L : Lib B E) (d0 : Driver B)
    (hs : d0.state = State.StateStart) :
    (∀ d, Reachable L d0 d → in_texture_scope d.state = true → d.texture ≠ none) ∧
    (∀ events r d, feed L events d0 = some (r, d) → in_texture_scope d.state = true →
      d.texture ≠ none) := by
  have hreach : ∀ d, Reachable L d0 d → in_texture_scope d.state = true → d.texture ≠ none := by
    intro d hd
    induction hd with
    | start =>
      rw [hs]
      simp [in_texture_scope]
    | step x x1 e r _ hdis ih => exact dispatch_scope L x x1 e r ih hdis
  exact ⟨hreach, fun events r d h => hreach d (feed_reachable L d0 events r d h)⟩

/-- C29 at the example globals after the events up to the begin of a texture
object: the state is `StateTextureProp` and the texture is open. -/
theorem texture_open_in_texture_states_witness :
    (example_driver []).state = State.StateStart ∧
    feed (exampleLib example_world) open_texture_events (example_driver []) =
      some (none, example_open_texture_driver) ∧
    in_texture_scope example_open_texture_driver.state = true ∧
    example_open_texture_driver.texture ≠ none :=
  ⟨rfl, rfl, rfl,
   (texture_open_in_texture_states (exampleLib example_world) (example_driver []) rfl).2
     open_texture_events none example_open_texture_driver rfl rfl⟩

/-! ## Opening a missing or empty bundle file -/

/-- C21. Open of a missing or empty file, on the container modelled from the
specification: when no file exists at the path, or the file there has zero
bytes, `open` succeeds and yields a bundle without entries, in which `find`
finds nothing; the `close` that follows writes a file with the magic, the
version and an empty entry table, from which `open` again yields a bundle
without entries.  (In the model `close` is a total function: it has no
failing case.) -/
theorem open_missing_or_empty (disk : Disk) (path : String)
    (h : disk.bundles path = none ∨ disk.bundles path = some DiskFile.zero_bytes) :
    ∃ b disk1, bundle_open disk path = Except.ok (b, disk1) ∧
      b.path = path ∧ b.entries = [] ∧ (∀ key, bundle_find b key = none) ∧
      (bundle_close disk1 b).bundles path =
        some (DiskFile.image BUNDLE_MAGIC BUNDLE_VERSION [] []) ∧
      ∃ b2 disk2, bundle_open (bundle_close disk1 b) path = Except.ok (b2, disk2) ∧
        b2.entries = [] := by
  have hopen : bundle_open disk path =
      Except.ok
        ({ path := path, entries := [], free := [], data := [] },
         disk_write disk path (DiskFile.image BUNDLE_MAGIC BUNDLE_VERSION [] [])) := by
    unfold bundle_open
    rcases h with h | h <;> simp only [h]
  refine ⟨_, _, hopen, rfl, rfl, fun key => rfl, ?_, ?_⟩
  · simp [bundle_close, disk_write, live_end]
  · refine ⟨{ path := path, entries := [], free := free_complement [] 0, data := [] },
      bundle_close (disk_write disk path (DiskFile.image BUNDLE_MAGIC BUNDLE_VERSION [] []))
        { path := path, entries := [], free := [], data := [] }, ?_, rfl⟩
    simp [bundle_open, bundle_close, disk_write, live_end]

/-- C21 at the inputs of `test_open_close` and `test_empty_bundle`: no file at
`test.bundle`, and a file of zero bytes there. -/
theorem open_missing_or_empty_witness :
    (∃ b disk1, bundle_open example_disk "test.bundle" = Except.ok (b, disk1) ∧
      b.path = "test.bundle" ∧ b.entries = [] ∧ (∀ key, bundle_find b key = none) ∧
      (bundle_close disk1 b).bundles "test.bundle" =
        some (DiskFile.image BUNDLE_MAGIC BUNDLE_VERSION [] []) ∧
      ∃ b2 disk2, bundle_open (bundle_close disk1 b) "test.bundle" = Except.ok (b2, disk2) ∧
        b2.entries = []) ∧
    (∃ b disk1, bundle_open example_zero_byte_disk "test.bundle" = Except.ok (b, disk1) ∧
      b.path = "test.bundle" ∧ b.entries = [] ∧ (∀ key, bundle_find b key = none) ∧
      (bundle_close disk1 b).bundles "test.bundle" =
        some (DiskFile.image BUNDLE_MAGIC BUNDLE_VERSION [] []) ∧
      ∃ b2 disk2, bundle_open (bundle_close disk1 b) "test.bundle" = Except.ok (b2, disk2) ∧
        b2.entries = []) :=
  ⟨open_missing_or_empty example_disk "test.bundle" (Or.inl rfl),
   open_missing_or_empty example_zero_byte_disk "test.bundle" (Or.inr rfl)⟩

/-! ## Monotonicity of `latest_mtime` -/

theorem check_latest_mtime_eq {B E : Type} (L : Lib B E) (d : Driver B)
    (path : Option String) :
    check_latest_mtime L d path =
      { d with latest_mtime := max d.latest_mtime (stat_mtime L path) } := by
  unfold check_latest_mtime
  simp only
  split
  · rename_i h
    rw [max_eq_right (le_of_lt h)]
  · rename_i h
    rw [max_eq_left (not_lt.mp h)]

theorem check_latest_mtime_le {B E : Type} (L : Lib B E) (d : Driver B)
    (path : Option String) :
    d.latest_mtime ≤ (check_latest_mtime L d path).latest_mtime := by
  rw [(check_latest_mtime_spec L d path).1]
  exact le_max_left _ _

theorem add_glob_match_to_texture_le {B E : Type} (L : Lib B E) (d d1 : Driver B)
    (key : CStr) (path : String) (r : Int) (h : add_glob_match_to_texture L d key path = some (r, d1)) :
    d.latest_mtime ≤ d1.latest_mtime := by
  unfold add_glob_match_to_texture at h
  simp only at h
  split at h
  · simp at h
  · rename_i err d2 hc
    obtain ⟨_, _, hl, _⟩ := texture_add_image_call_spec L _ d2 err hc
    simp only at hl
    split at h
    · simp only [Option.some.injEq, Prod.mk.injEq] at h
      obtain ⟨_, rfl⟩ := h
      exact le_of_eq hl.symm
    · simp only [Option.some.injEq, Prod.mk.injEq] at h
      obtain ⟨_, rfl⟩ := h
      simp only
      rw [← hl]
      exact check_latest_mtime_le L d2 (some path)

theorem on_end_le {B E : Type} (L : Lib B E) (d d1 : Driver B) (t : LaxJsonType)
    (r : Int) (h : on_end L d t = some (r, d1)) : d.latest_mtime ≤ d1.latest_mtime := by
  unfold on_end at h
  simp only [goto] at h
  split at h
  case h_4 =>
    split at h
    · simp at h
    · rename_i err d2 hc
      obtain ⟨_, _, hl, _⟩ := texture_add_image_call_spec L d d2 err hc
      split at h
      · simp only [Option.some.injEq, Prod.mk.injEq] at h
        obtain ⟨_, rfl⟩ := h
        exact le_of_eq hl.symm
      · simp only [Option.some.injEq, Prod.mk.injEq] at h
        obtain ⟨_, rfl⟩ := h
        simp only
        rw [← hl]
        exact check_latest_mtime_le L d2 d2.image.path
  case h_5 =>
    have hf := add_file_if_outdated_frame L d d.file_key d.file_path
    split at h
    · simp only [Option.some.injEq] at h
      have h2 := congrArg Prod.snd h
      simp only at h2
      subst h2
      exact le_of_eq hf.1.symm
    · simp only [Option.some.injEq, Prod.mk.injEq] at h
      obtain ⟨_, rfl⟩ := h
      exact le_of_eq hf.1.symm
  case h_8 =>
    split at h
    · simp at h
    · split at h
      · simp at h
      · rename_i texture _ err d2 hc
        have hf := add_texture_if_outdated_frame L d d2 _ _ _ hc
        split at h
        · simp only [Option.some.injEq, Prod.mk.injEq] at h
          obtain ⟨_, rfl⟩ := h
          exact le_of_eq hf.1.symm
        · simp only [Option.some.injEq, Prod.mk.injEq] at h
          obtain ⟨_, rfl⟩ := h
          exact le_of_eq hf.1.symm
  case h_9 =>
    split at h
    · simp at h
    · rename_i err d2 hc
      have hd2 : d.latest_mtime ≤ d2.latest_mtime :=
        perform_glob_preserves L (add_glob_match_to_bundle L)
          (fun x => d.latest_mtime ≤ x.latest_mtime)
          (fun x msg hx => by
            show d.latest_mtime ≤ (parse_error x msg).2.latest_mtime
            rw [parse_error_latest_mtime]; exact hx)
          (fun x pattern hx => hx)
          (fun x key path r x1 hx hh => by
            simp only [add_glob_match_to_bundle, Option.some.injEq] at hh
            have h2 := congrArg Prod.snd hh
            simp only at h2
            subst h2
            show d.latest_mtime ≤ _
            rw [(add_file_if_outdated_frame L x _ _).1]; exact hx)
          d err d2 (le_refl _) hc
      split at h
      · simp only [Option.some.injEq, Prod.mk.injEq] at h
        obtain ⟨_, rfl⟩ := h
        exact hd2
      · simp only [Option.some.injEq, Prod.mk.injEq] at h
        obtain ⟨_, rfl⟩ := h
        exact hd2
  case h_10 =>
    split at h
    · simp at h
    · rename_i err d2 hc
      have hd2 : d.latest_mtime ≤ d2.latest_mtime :=
        perform_glob_preserves L (add_glob_match_to_texture L)
          (fun x => d.latest_mtime ≤ x.latest_mtime)
          (fun x msg hx => by
            show d.latest_mtime ≤ (parse_error x msg).2.latest_mtime
            rw [parse_error_latest_mtime]; exact hx)
          (fun x pattern hx => hx)
          (fun x key path r x1 hx hh =>
            le_trans hx (add_glob_match_to_texture_le L x x1 key path r hh))
          d err d2 (le_refl _) hc
      split at h
      · simp only [Option.some.injEq, Prod.mk.injEq] at h
        obtain ⟨_, rfl⟩ := h
        exact hd2
      · simp only [Option.some.injEq, Prod.mk.injEq] at h
        obtain ⟨_, rfl⟩ := h
        exact hd2
  all_goals
    simp only [Option.some.injEq] at h
    have h2 := congrArg Prod.snd h
    simp only at h2
    subst h2
    simp

theorem dispatch_le {B E : Type} (L : Lib B E) (d d1 : Driver B) (e : Event)
    (r : Int) (h : dispatch L d e = some (r, d1)) : d.latest_mtime ≤ d1.latest_mtime := by
  cases e with
  | string t v => exact le_of_eq (on_string_frame L d d1 t v r h).1.symm
  | number x => exact le_of_eq (on_number_frame d d1 x r h).1.symm
  | primitive t => exact le_of_eq (on_primitive_frame d d1 t r h).1.symm
  | begin_value t => exact le_of_eq (on_begin_frame d d1 t r h).1.symm
  | end_value t => exact on_end_le L d d1 t r h

theorem reachable_le {B E : Type} (L : Lib B E) (d0 d : Driver B) (h : Reachable L d0 d) :
    d0.latest_mtime ≤ d.latest_mtime := by
  induction h with
  | start => exact le_refl _
  | step x x1 e r _ hdis ih => exact le_trans ih (dispatch_le L x x1 e r hdis)

/-- C31. The function `check_latest_mtime` replaces `latest_mtime` by the
maximum of its previous value and the `st_mtime` read after `stat(path, &st)`
(the mtime of the path whenever `stat` succeeds) and changes nothing else.  No
callback lowers `latest_mtime`: whatever a callback returns, the value
afterwards is at least the value before.  So between any two configurations of
a run, the later one reached from the earlier one through any sequence of
events, `latest_mtime` does not decrease, also across a parser run that
delivers a prefix of the events first; and from the initial globals, where it
is 0, it is at least 0 in every configuration the driver reaches. -/
theorem latest_mtime_never_decreases {B E : Type} (L : Lib B E) :
    (∀ (d : Driver B) (path : Option String),
      check_latest_mtime L d path =
        { d with latest_mtime := max d.latest_mtime (stat_mtime L path) } ∧
      (∀ st, L.stat path = some st → stat_mtime L path = st.st_mtime)) ∧
    (∀ (d d1 : Driver B) (e : Event) (r : Int), dispatch L d e = some (r, d1) →
      d.latest_mtime ≤ d1.latest_mtime) ∧
    (∀ (d1 d2 : Driver B), Reachable L d1 d2 → d1.latest_mtime ≤ d2.latest_mtime) ∧
    (∀ (pre rest : List Event) (d0 d1 d2 : Driver B) (r : Option LaxJsonError),
      feed L pre d0 = some (none, d1) → feed L (pre ++ rest) d0 = some (r, d2) →
      d0.latest_mtime ≤ d1.latest_mtime ∧ d1.latest_mtime ≤ d2.latest_mtime) ∧
    (∀ (bundle : B) (image : RuckSackImage) (a : BundleArgs) (d : Driver B),
      Reachable L (initial_driver bundle image a) d → 0 ≤ d.latest_mtime) := by
  refine ⟨fun d path => ⟨check_latest_mtime_eq L d path, ?_⟩,
    fun d d1 e r h => dispatch_le L d d1 e r h,
    fun d1 d2 h => reachable_le L d1 d2 h, ?_, ?_⟩
  · intro st hst
    simp only [stat_mtime, hst]
  · intro pre rest d0 d1 d2 r h1 h2
    rw [feed_append L rest pre d0 d1 h1] at h2
    exact ⟨reachable_le L d0 d1 (feed_reachable L d0 pre none d1 h1),
      reachable_le L d1 d2 (feed_reachable L d1 rest r d2 h2)⟩
  · intro bundle image a d h
    exact reachable_le L (initial_driver bundle image a) d h

/-- C31 at a concrete input: in the run over the manifest with the textures
`t1` (image `a.png`, mtime 100) and `t2` (image `b.png`, mtime 50),
`latest_mtime` is 0 at the start, 100 after the first image closes, and still
100 after the second image, whose mtime is lower. -/
theorem latest_mtime_never_decreases_witness :
    ∃ d1 d2,
      feed (exampleLib example_world) (two_texture_events.take 12) (example_driver []) =
        some (none, d1) ∧
      feed (exampleLib example_world)
        (two_texture_events.take 12 ++ two_texture_events.drop 12) (example_driver []) =
        some (none, d2) ∧
      (example_driver []).latest_mtime = 0 ∧ d1.latest_mtime = 100 ∧ d2.latest_mtime = 100 ∧
      (added_images d2.calls).map (fun i => stat_mtime (exampleLib example_world) i.path) =
        [100, 50] ∧
      (example_driver []).latest_mtime ≤ d1.latest_mtime ∧ d1.latest_mtime ≤ d2.latest_mtime := by
  obtain ⟨d1, h1, hl1⟩ : ∃ d1,
      feed (exampleLib example_world) (two_texture_events.take 12) (example_driver []) =
        some (none, d1) ∧ d1.latest_mtime = 100 :=
    ⟨_, rfl, rfl⟩
  obtain ⟨d2, h2, hl2, hc2⟩ : ∃ d2,
      feed (exampleLib example_world)
        (two_texture_events.take 12 ++ two_texture_events.drop 12) (example_driver []) =
        some (none, d2) ∧ d2.latest_mtime = 100 ∧
      (added_images d2.calls).map (fun i => stat_mtime (exampleLib example_world) i.path) =
        [100, 50] :=
    ⟨_, rfl, rfl, rfl⟩
  have h := (latest_mtime_never_decreases (exampleLib example_world)).2.2.2.1
    (two_texture_events.take 12) (two_texture_events.drop 12) (example_driver []) d1 d2 none
    h1 h2
  exact ⟨d1, d2, h1, h2, rfl, hl1, hl2, hc2, h.1, h.2⟩

end Rucksack
